import Mathlib

/-!
Verification development for the F1-25 telemetry backend
(`src/backend/server.js`).

The JavaScript source is shallowly embedded:
* JS `Map` objects become insertion-ordered association lists (`JsMap`),
  with `set` replacing in place and `delete` filtering, as V8 does;
* nullable JS numbers become `Option Nat` / `Option Int`;
* byte buffers become `List Nat` (each element `< 256`); `Buffer.readXX`
  becomes an `Except Unit` read where `Except.error ()` models the
  `ERR_OUT_OF_RANGE` exception Node throws on an out-of-bounds read;
* IEEE float fields are never inspected arithmetically by the code under
  study, so float reads carry the raw 32-bit little-endian pattern;
* the mutable module-level state of the server becomes an explicit
  `ServerState` record threaded through the packet handlers.
-/

namespace F1Telemetry

/-- Insertion-ordered association list modelling a JS `Map`. -/
abbrev JsMap (β : Type) : Type := List (Nat × β)

namespace JsMap

variable {β : Type}

/-- `m.get(k)` — the entry with the key, if any. -/
def jget : JsMap β → Nat → Option β
  | [], _ => none
  | p :: t, k => if p.1 = k then some p.2 else jget t k

/-- `m.has(k)`. -/
def jhas (m : JsMap β) (k : Nat) : Bool := (jget m k).isSome

/-- `m.set(k, v)` — replace in place when the key exists, else append,
as JS `Map.set` keeps insertion order. -/
def jset : JsMap β → Nat → β → JsMap β
  | [], k, v => [(k, v)]
  | p :: t, k, v => if p.1 = k then (k, v) :: t else p :: jset t k v

/-- `Array.from(m.values())`. -/
def jvalues (m : JsMap β) : List β := m.map (·.2)

/-- Keys of the map, in insertion order. -/
def jkeys (m : JsMap β) : List Nat := m.map (·.1)

/-- Deleting every key `≥ c`, as the rewind loops do
(iterate over a snapshot of the keys and `delete` each). -/
def eraseFrom (m : JsMap β) (c : Nat) : JsMap β :=
  m.filter (fun p => p.1 < c)

@[simp] theorem jget_nil (k : Nat) : jget ([] : JsMap β) k = none := rfl

theorem jget_jset_self (m : JsMap β) (k : Nat) (v : β) :
    jget (jset m k v) k = some v := by
  induction m with
  | nil => simp [jset, jget]
  | cons p t ih =>
    by_cases hk : p.1 = k
    · simp [jset, jget, hk]
    · simp [jset, jget, hk, ih]

theorem jget_jset_ne (m : JsMap β) (k k' : Nat) (v : β) (h : k' ≠ k) :
    jget (jset m k v) k' = jget m k' := by
  have h' : ¬ (k = k') := fun e => h e.symm
  induction m with
  | nil => simp [jset, jget, h']
  | cons p t ih =>
    by_cases hk : p.1 = k
    · simp [jset, jget, hk, h']
    · by_cases hk' : p.1 = k'
      · simp [jset, jget, hk, hk', h]
      · simp [jset, jget, hk, hk', ih]

theorem jget_eraseFrom_ge (m : JsMap β) (c k : Nat) (h : c ≤ k) :
    jget (eraseFrom m c) k = none := by
  induction m with
  | nil => simp [eraseFrom]
  | cons p t ih =>
    by_cases hp : p.1 < c
    · have hpk : ¬ (p.1 = k) := by omega
      simpa [eraseFrom, List.filter_cons, hp, jget, hpk] using ih
    · simpa [eraseFrom, List.filter_cons, hp] using ih

theorem jget_eraseFrom_lt (m : JsMap β) (c k : Nat) (h : k < c) :
    jget (eraseFrom m c) k = jget m k := by
  induction m with
  | nil => simp [eraseFrom]
  | cons p t ih =>
    by_cases hpk : p.1 = k
    · have hp : p.1 < c := by omega
      simp [eraseFrom, List.filter_cons, hp, jget, hpk, h]
    · by_cases hp : p.1 < c
      · simpa [eraseFrom, List.filter_cons, hp, jget, hpk] using ih
      · simpa [eraseFrom, List.filter_cons, hp, jget, hpk] using ih

end JsMap

open JsMap

/-! ## Data model: the state written by the handlers -/

/-- One finalized lap in the player's lap ledger (`lapsByNumber` values). -/
structure LapEntry where
  lapNumber : Nat
  lapTimeMs : Option Nat
  deltaMs : Option Int
  valid : Bool
  isBest : Bool
  sector1TimeMs : Option Nat
  sector2TimeMs : Option Nat
  sector3TimeMs : Option Nat
  tyreActualCompound : Option Nat
  tyreVisualCompound : Option Nat
  tyresAgeLaps : Option Nat
  pitStatus : Nat
  pitLaneTimeMs : Option Nat
  numPitStops : Nat
  deriving Repr, DecidableEq

/-- The fields of a ledger entry that `recomputeFromLaps` never rewrites
(everything except `isBest` and `deltaMs`). -/
def LapEntry.core (e : LapEntry) :
    Nat × Option Nat × Bool × Option Nat × Option Nat × Option Nat ×
      Option Nat × Option Nat × Option Nat × Nat × Option Nat × Nat :=
  (e.lapNumber, e.lapTimeMs, e.valid, e.sector1TimeMs, e.sector2TimeMs,
   e.sector3TimeMs, e.tyreActualCompound, e.tyreVisualCompound,
   e.tyresAgeLaps, e.pitStatus, e.pitLaneTimeMs, e.numPitStops)

/-- Accumulator of the first loop in `recomputeFromLaps`. -/
structure BestAcc where
  bestLapTimeMs : Option Nat
  bestLapNumber : Option Nat
  bestS1 : Option Nat
  bestS2 : Option Nat
  bestS3 : Option Nat
  deriving Repr, DecidableEq

/-- Whether a ledger entry participates in the personal-best scan:
`!(!l.valid || l.lapTimeMs == null || l.lapTimeMs <= 0)`. -/
def lapQualifies (l : LapEntry) : Bool :=
  l.valid && (match l.lapTimeMs with | some t => decide (0 < t) | none => false)

/-- One `if (l.sectorN != null && (best == null || l.sectorN < best))`
update of `recomputeFromLaps` (`server.js` 149–151). -/
def sectorMin (cur b : Option Nat) : Option Nat :=
  match cur, b with
  | some t, none => some t
  | some t, some b' => if t < b' then some t else some b'
  | none, x => x

/-- One iteration of the first loop of `recomputeFromLaps`
(`server.js` lines 141–152); each best field updates independently. -/
def bestStep (acc : BestAcc) (l : LapEntry) : BestAcc :=
  if lapQualifies l then
    let lapPair :=
      match l.lapTimeMs, acc.bestLapTimeMs with
      | some t, none => (some t, some l.lapNumber)
      | some t, some b =>
          if t < b then (some t, some l.lapNumber)
          else (acc.bestLapTimeMs, acc.bestLapNumber)
      | none, _ => (acc.bestLapTimeMs, acc.bestLapNumber)
    { bestLapTimeMs := lapPair.1
      bestLapNumber := lapPair.2
      bestS1 := sectorMin l.sector1TimeMs acc.bestS1
      bestS2 := sectorMin l.sector2TimeMs acc.bestS2
      bestS3 := sectorMin l.sector3TimeMs acc.bestS3 }
  else acc

/-- The personal bests obtained by scanning a ledger's values. -/
def scanBests (ledger : JsMap LapEntry) : BestAcc :=
  ledger.jvalues.foldl bestStep ⟨none, none, none, none, none⟩

/-- Second loop of `recomputeFromLaps` (`server.js` lines 160–163):
rewrite `isBest` and `deltaMs` of one entry. -/
def applyBest (best : Option Nat) (l : LapEntry) : LapEntry :=
  { l with
    isBest := best.isSome && l.valid && (l.lapTimeMs == best)
    deltaMs :=
      match best, l.lapTimeMs with
      | some b, some t =>
          if l.valid && decide (0 < t) then some ((t : Int) - (b : Int)) else none
      | _, _ => none }

@[simp] theorem core_applyBest (best : Option Nat) (l : LapEntry) :
    (applyBest best l).core = l.core := rfl

/-! ## Parsed record types (outputs of the record decoders) -/

/-- Output of `parseLapDataForCar` (one car's `LapData` record). -/
structure LapRec where
  lastLapTimeInMS : Nat
  currentLapTimeInMS : Nat
  sector1TimeMs : Option Nat
  sector2TimeMs : Option Nat
  sector3TimeMs : Option Nat
  deltaToRaceLeaderMs : Option Nat
  deltaToCarInFrontMs : Option Nat
  lapDistance : Nat          -- raw float bits, never interpreted
  totalDistance : Nat        -- raw float bits
  safetyCarDelta : Nat       -- raw float bits
  carPosition : Nat
  currentLapNum : Nat
  pitStatus : Nat
  numPitStops : Nat
  sector : Nat
  currentLapInvalid : Nat
  penaltiesSec : Nat
  totalWarnings : Nat
  cornerCuttingWarnings : Nat
  numUnservedDriveThroughPens : Nat
  numUnservedStopGoPens : Nat
  gridPosition : Nat
  driverStatus : Nat
  resultStatus : Nat
  pitLaneTimerActive : Nat
  pitLaneTimeInLaneInMS : Nat
  pitStopTimerInMS : Nat
  pitStopShouldServePen : Nat
  speedTrapFastestSpeed : Nat  -- raw float bits
  speedTrapFastestLap : Nat
  deriving Repr, DecidableEq

/-- Output of `parseCarStatusForCar` (floats carried as raw 32-bit patterns). -/
structure CarStatus where
  tractionControl : Nat
  antiLockBrakes : Nat
  fuelMix : Nat
  frontBrakeBias : Nat
  pitLimiterStatus : Nat
  fuelInTank : Nat
  fuelCapacity : Nat
  fuelRemainingLaps : Nat
  maxRPM : Nat
  idleRPM : Nat
  maxGears : Nat
  drsAllowed : Nat
  drsActivationDistance : Nat
  actualTyreCompound : Nat
  visualTyreCompound : Nat
  tyresAgeLaps : Nat
  vehicleFIAFlags : Int
  enginePowerICE : Nat
  enginePowerMGUK : Nat
  ersStoreEnergy : Nat
  ersDeployMode : Nat
  ersHarvestedThisLapMGUK : Nat
  ersHarvestedThisLapMGUH : Nat
  ersDeployedThisLap : Nat
  networkPaused : Nat
  deriving Repr, DecidableEq

/-- Output of `parseCarTelemetryForCar`. -/
structure Telemetry where
  speedKph : Nat
  throttle : Nat
  steer : Nat
  brake : Nat
  clutch : Nat
  gear : Int
  engineRPM : Nat
  drs : Nat
  revLightsPercent : Nat
  revLightsBitValue : Nat
  brakesTemperature : List Nat
  tyresSurfaceTemperature : List Nat
  tyresInnerTemperature : List Nat
  engineTemperature : Nat
  tyresPressure : List Nat
  surfaceType : List Nat
  deriving Repr, DecidableEq

/-- Output of `parseCarDamageForCar`. -/
structure CarDamage where
  tyresWear : List Nat
  tyresDamage : List Nat
  brakesDamage : List Nat
  tyreBlisters : List Nat
  frontLeftWingDamage : Nat
  frontRightWingDamage : Nat
  rearWingDamage : Nat
  floorDamage : Nat
  diffuserDamage : Nat
  sidepodDamage : Nat
  drsFault : Nat
  ersFault : Nat
  gearBoxDamage : Nat
  engineDamage : Nat
  engineMGUHWear : Nat
  engineESWear : Nat
  engineCEWear : Nat
  engineICEWear : Nat
  engineMGUKWear : Nat
  engineTCWear : Nat
  engineBlown : Nat
  engineSeized : Nat
  deriving Repr, DecidableEq

/-- Output of `parseLapHistoryEntry` (one session-history lap line). -/
structure HistEntry where
  lapTimeMs : Option Nat
  sector1TimeMs : Option Nat
  sector2TimeMs : Option Nat
  sector3TimeMs : Option Nat
  validFlags : Nat
  deriving Repr, DecidableEq

/-- Output of `parseParticipantMeta` plus the decoded name. -/
structure ParticipantEntry where
  name : String
  teamId : Nat
  numColours : Nat
  colourR : Nat
  colourG : Nat
  colourB : Nat
  deriving Repr, DecidableEq

/-- Parsed fields of a session packet (offsets `HEADER_SIZE + 0 .. + 13`). -/
structure SessionPayload where
  weather : Nat
  trackTemperatureC : Int
  airTemperatureC : Int
  totalLaps : Nat
  trackLengthM : Nat
  sessionType : Nat
  trackId : Int
  formula : Nat
  sessionTimeLeftSec : Nat
  sessionDurationSec : Nat
  pitSpeedLimitKph : Nat
  deriving Repr, DecidableEq

/-- Packet header fields the handlers consume. -/
structure Header where
  sessionUID : Nat
  playerCarIndex : Nat
  deriving Repr, DecidableEq

/-! ## Mutable server state -/

/-- `tyreByLapStart` values. -/
structure TyreSnapshot where
  tyreActualCompound : Option Nat
  tyreVisualCompound : Option Nat
  tyresAgeLaps : Option Nat
  deriving Repr, DecidableEq

/-- `sectorCacheByIndex` values. -/
structure SectorCache where
  sector1TimeMs : Option Nat
  sector2TimeMs : Option Nat
  sector3TimeMs : Option Nat
  deriving Repr, DecidableEq

/-- `pitLaneStintByIndex` values. -/
structure PitStint where
  active : Bool
  startLapNum : Option Nat
  maxTimeMs : Nat
  statusMax : Nat
  lastTimeMs : Option Nat
  lastStatusMax : Nat
  lastLapNum : Option Nat
  deriving Repr, DecidableEq

/-- `lapsState.currentPenalties`. -/
structure Penalties where
  penaltiesSec : Nat
  totalWarnings : Nat
  cornerCuttingWarnings : Nat
  numUnservedDriveThroughPens : Nat
  numUnservedStopGoPens : Nat
  pitStopShouldServePen : Nat
  deriving Repr, DecidableEq

/-- One row of `lapsState.raceCars`. -/
structure RaceCar where
  carIndex : Nat
  name : String
  teamId : Option Nat
  teamColour : Option (Nat × Nat × Nat)
  position : Nat
  lapNumber : Nat
  lapTimeMs : Option Nat
  bestLapTimeMs : Option Nat
  bestLapNum : Option Nat
  gapToLeaderMs : Option Nat
  gapToCarAheadMs : Option Int
  sector1TimeMs : Option Nat
  sector2TimeMs : Option Nat
  sector3TimeMs : Option Nat
  tyreActualCompound : Option Nat
  tyreVisualCompound : Option Nat
  tyresAgeLaps : Option Nat
  pitStatus : Nat
  pitLaneTimeMs : Option Nat
  stops : Nat
  lapDistance : Nat
  deriving Repr, DecidableEq

/-- The mutable `playerState` object (`server.js` lines 59–76). -/
structure PlayerState where
  sessionUID : Option Nat
  currentLapNum : Option Nat
  currentLapInvalid : Nat
  currentSector1TimeMs : Option Nat
  currentSector2TimeMs : Option Nat
  currentTyreActualCompound : Option Nat
  currentTyreVisualCompound : Option Nat
  currentTyresAgeLaps : Option Nat
  pitLaneActive : Bool
  pitLaneStartLapNum : Option Nat
  pitLaneMaxTimeMs : Nat
  pitLanePitStatusMax : Nat
  deriving Repr, DecidableEq

/-- The published `lapsState` object. -/
structure LapsState where
  liveLapTimeMs : Nat
  liveDeltaToBestMs : Option Int
  bestLapTimeMs : Option Nat
  bestLapNumber : Option Nat
  bestSector1TimeMs : Option Nat
  bestSector2TimeMs : Option Nat
  bestSector3TimeMs : Option Nat
  isConnected : Bool
  laps : List LapEntry
  sessionKind : Option String
  sessionType : Option Nat
  totalLaps : Option Nat
  trackId : Option Int
  trackLengthM : Option Nat
  formula : Option Nat
  weather : Option Nat
  trackTemperatureC : Option Int
  airTemperatureC : Option Int
  sessionTimeLeftSec : Option Nat
  sessionDurationSec : Option Nat
  pitSpeedLimitKph : Option Nat
  currentLap : Option LapEntry
  raceCars : List RaceCar
  playerCarIndex : Option Nat
  raceBestSector1TimeMs : Option Nat
  raceBestSector2TimeMs : Option Nat
  raceBestSector3TimeMs : Option Nat
  raceBestSector1CarIndex : Option Nat
  raceBestSector2CarIndex : Option Nat
  raceBestSector3CarIndex : Option Nat
  raceBestLapTimeMs : Option Nat
  raceBestLapCarIndex : Option Nat
  raceBestLapNum : Option Nat
  currentCarStatus : Option CarStatus
  currentCarTelemetry : Option Telemetry
  currentPenalties : Option Penalties
  currentCarDamage : Option CarDamage
  deriving Repr, DecidableEq

/-- All module-level mutable state of `server.js`. -/
structure ServerState where
  lapsState : LapsState
  playerState : PlayerState
  numActiveCars : Option Nat
  raceBestSector1TimeMs : Option Nat
  raceBestSector2TimeMs : Option Nat
  raceBestSector3TimeMs : Option Nat
  raceBestSector1CarIndex : Option Nat
  raceBestSector2CarIndex : Option Nat
  raceBestSector3CarIndex : Option Nat
  raceBestLapTimeMs : Option Nat
  raceBestLapCarIndex : Option Nat
  raceBestLapNum : Option Nat
  pitLaneTimeByLap : JsMap Nat
  pitLaneStatusByLap : JsMap Nat
  lapsByNumber : JsMap LapEntry
  tyreByLapStart : JsMap TyreSnapshot
  participantsNameByIndex : JsMap String
  participantsTeamIdByIndex : JsMap Nat
  participantsColorByIndex : JsMap (Nat × Nat × Nat)
  carStatusByIndex : JsMap CarStatus
  carTelemetryByIndex : JsMap Telemetry
  carDamageByIndex : JsMap CarDamage
  lapDataByIndex : JsMap LapRec
  sectorCacheByIndex : JsMap SectorCache
  pitLaneStintByIndex : JsMap PitStint
  sessionHistoryByCarIndex : JsMap (JsMap HistEntry)
  deriving Repr, DecidableEq

/-- `NUM_CARS` (cs_maxNumCarsInUDPData). -/
def NUM_CARS : Nat := 22

/-- `HEADER_SIZE` in bytes. -/
def HEADER_SIZE : Nat := 29

/-- `LAP_DATA_SIZE`. -/
def LAP_DATA_SIZE : Nat := 57

/-- `CAR_DAMAGE_DATA_SIZE`. -/
def CAR_DAMAGE_DATA_SIZE : Nat := 46

/-- `LAP_HISTORY_DATA_SIZE`. -/
def LAP_HISTORY_DATA_SIZE : Nat := 14

/-- The `lapsState` literal from `server.js` lines 46–56 (module init). -/
def initLapsState : LapsState where
  liveLapTimeMs := 0
  liveDeltaToBestMs := none
  bestLapTimeMs := none
  bestLapNumber := none
  bestSector1TimeMs := none
  bestSector2TimeMs := none
  bestSector3TimeMs := none
  isConnected := false
  laps := []
  sessionKind := none
  sessionType := none
  totalLaps := none
  trackId := none
  trackLengthM := none
  formula := none
  weather := none
  trackTemperatureC := none
  airTemperatureC := none
  sessionTimeLeftSec := none
  sessionDurationSec := none
  pitSpeedLimitKph := none
  currentLap := none
  raceCars := []
  playerCarIndex := none
  raceBestSector1TimeMs := none
  raceBestSector2TimeMs := none
  raceBestSector3TimeMs := none
  raceBestSector1CarIndex := none
  raceBestSector2CarIndex := none
  raceBestSector3CarIndex := none
  raceBestLapTimeMs := none
  raceBestLapCarIndex := none
  raceBestLapNum := none
  currentCarStatus := none
  currentCarTelemetry := none
  currentPenalties := none
  currentCarDamage := none

/-- Module-level initial state of the server. -/
def initialState : ServerState where
  lapsState := initLapsState
  playerState :=
    { sessionUID := none, currentLapNum := none, currentLapInvalid := 0
      currentSector1TimeMs := none, currentSector2TimeMs := none
      currentTyreActualCompound := none, currentTyreVisualCompound := none
      currentTyresAgeLaps := none
      pitLaneActive := false, pitLaneStartLapNum := none
      pitLaneMaxTimeMs := 0, pitLanePitStatusMax := 0 }
  numActiveCars := none
  raceBestSector1TimeMs := none
  raceBestSector2TimeMs := none
  raceBestSector3TimeMs := none
  raceBestSector1CarIndex := none
  raceBestSector2CarIndex := none
  raceBestSector3CarIndex := none
  raceBestLapTimeMs := none
  raceBestLapCarIndex := none
  raceBestLapNum := none
  pitLaneTimeByLap := []
  pitLaneStatusByLap := []
  lapsByNumber := []
  tyreByLapStart := []
  participantsNameByIndex := []
  participantsTeamIdByIndex := []
  participantsColorByIndex := []
  carStatusByIndex := []
  carTelemetryByIndex := []
  carDamageByIndex := []
  lapDataByIndex := []
  sectorCacheByIndex := []
  sessionHistoryByCarIndex := []
  pitLaneStintByIndex := []

/-- `syncLapsArrayFromMap`: ledger values sorted by `lapNumber` ascending. -/
def syncLaps (ledger : JsMap LapEntry) : List LapEntry :=
  List.mergeSort (jvalues ledger) (fun a b => a.lapNumber ≤ b.lapNumber)

/-- `recomputeFromLaps` (`server.js` lines 134–166): rescan the ledger for
personal bests, rewrite every entry's `isBest`/`deltaMs`, publish. -/
def recomputeFromLaps (s : ServerState) : ServerState :=
  let acc := scanBests s.lapsByNumber
  let ledger' := s.lapsByNumber.map (fun p => (p.1, applyBest acc.bestLapTimeMs p.2))
  { s with
    lapsByNumber := ledger'
    lapsState := { s.lapsState with
      bestLapTimeMs := acc.bestLapTimeMs
      bestLapNumber := acc.bestLapNumber
      bestSector1TimeMs := acc.bestS1
      bestSector2TimeMs := acc.bestS2
      bestSector3TimeMs := acc.bestS3
      laps := syncLaps ledger' } }

/-- `resetSessionState` (`server.js` lines 509–588). -/
def resetSessionState (sessionUID : Nat) (_s : ServerState) : ServerState where
  lapsState := { initLapsState with isConnected := true }
  playerState :=
    { sessionUID := some sessionUID, currentLapNum := none, currentLapInvalid := 0
      currentSector1TimeMs := none, currentSector2TimeMs := none
      currentTyreActualCompound := none, currentTyreVisualCompound := none
      currentTyresAgeLaps := none
      pitLaneActive := false, pitLaneStartLapNum := none
      pitLaneMaxTimeMs := 0, pitLanePitStatusMax := 0 }
  numActiveCars := none
  raceBestSector1TimeMs := none
  raceBestSector2TimeMs := none
  raceBestSector3TimeMs := none
  raceBestSector1CarIndex := none
  raceBestSector2CarIndex := none
  raceBestSector3CarIndex := none
  raceBestLapTimeMs := none
  raceBestLapCarIndex := none
  raceBestLapNum := none
  pitLaneTimeByLap := []
  pitLaneStatusByLap := []
  lapsByNumber := []
  tyreByLapStart := []
  participantsNameByIndex := []
  participantsTeamIdByIndex := []
  participantsColorByIndex := []
  carStatusByIndex := []
  carTelemetryByIndex := []
  carDamageByIndex := []
  lapDataByIndex := []
  sectorCacheByIndex := []
  pitLaneStintByIndex := []
  sessionHistoryByCarIndex := []

/-! ## Byte-level record decoders

A Node `Buffer` is a `List Nat` of bytes. `Except.error ()` models the
`ERR_OUT_OF_RANGE` exception a `Buffer.readXX` call throws when the read
crosses the end of the buffer. -/

/-- `buf.readUInt8(i)`. -/
def ru8 (b : List Nat) (i : Nat) : Except Unit Nat :=
  match b.get? i with
  | some v => .ok v
  | none => .error ()

/-- `buf.readUInt16LE(i)`. -/
def ru16 (b : List Nat) (i : Nat) : Except Unit Nat := do
  let lo ← ru8 b i
  let hi ← ru8 b (i + 1)
  return lo + 256 * hi

/-- `buf.readUInt32LE(i)`. -/
def ru32 (b : List Nat) (i : Nat) : Except Unit Nat := do
  let b0 ← ru8 b i
  let b1 ← ru8 b (i + 1)
  let b2 ← ru8 b (i + 2)
  let b3 ← ru8 b (i + 3)
  return b0 + 256 * b1 + 65536 * b2 + 16777216 * b3

/-- `buf.readFloatLE(i)` — the program never does arithmetic on these
floats, so the raw 32-bit little-endian pattern is carried instead. -/
def rf32 (b : List Nat) (i : Nat) : Except Unit Nat := ru32 b i

/-- `buf.readInt8(i)`. -/
def ri8 (b : List Nat) (i : Nat) : Except Unit Int := do
  let v ← ru8 b i
  return if v < 128 then (v : Int) else (v : Int) - 256

/-- `decodeMinutesMs` from `parseLapDataForCar` (`server.js` 646–652):
two-part time decode with sentinel handling. -/
def decodeMinutesMs (msPart minutesPart : Nat) : Option Nat :=
  if msPart = 65535 ∨ minutesPart = 255 then none
  else if msPart = 0 ∧ minutesPart = 0 then none
  else some (msPart + minutesPart * 60 * 1000)

/-- `parseLapDataForCar` (`server.js` 643–744). Returns `ok none` for the
JS `null` ("too short") result. -/
def parseLapDataForCar (buf : List Nat) (baseOffset : Nat) :
    Except Unit (Option LapRec) := do
  if buf.length < baseOffset + LAP_DATA_SIZE then return none
  let lastLapTimeInMS ← ru32 buf (baseOffset + 0)
  let currentLapTimeInMS ← ru32 buf (baseOffset + 4)
  let sector1TimeMSPart ← ru16 buf (baseOffset + 8)
  let sector1TimeMinutesPart ← ru8 buf (baseOffset + 10)
  let sector2TimeMSPart ← ru16 buf (baseOffset + 11)
  let sector2TimeMinutesPart ← ru8 buf (baseOffset + 13)
  let sector1TimeMs := decodeMinutesMs sector1TimeMSPart sector1TimeMinutesPart
  let sector2TimeMs := decodeMinutesMs sector2TimeMSPart sector2TimeMinutesPart
  let sector3TimeMs :=
    match sector1TimeMs, sector2TimeMs with
    | some s1, some s2 =>
        if 0 < lastLapTimeInMS then
          let s3 : Int := (lastLapTimeInMS : Int) - (s1 : Int) - (s2 : Int)
          if 0 ≤ s3 then some s3.toNat else none
        else none
    | _, _ => none
  let deltaToRaceLeaderMSPart ← ru16 buf (baseOffset + 17)
  let deltaToRaceLeaderMinutesPart ← ru8 buf (baseOffset + 19)
  let deltaToRaceLeaderMs :=
    decodeMinutesMs deltaToRaceLeaderMSPart deltaToRaceLeaderMinutesPart
  let deltaToCarInFrontMSPart ← ru16 buf (baseOffset + 14)
  let deltaToCarInFrontMinutesPart ← ru8 buf (baseOffset + 16)
  let deltaToCarInFrontMs :=
    decodeMinutesMs deltaToCarInFrontMSPart deltaToCarInFrontMinutesPart
  let lapDistance ← rf32 buf (baseOffset + 20)
  let totalDistance ← rf32 buf (baseOffset + 24)
  let safetyCarDelta ← rf32 buf (baseOffset + 28)
  let carPosition ← ru8 buf (baseOffset + 32)
  let currentLapNum ← ru8 buf (baseOffset + 33)
  let pitStatus ← ru8 buf (baseOffset + 34)
  let numPitStops ← ru8 buf (baseOffset + 35)
  let sector ← ru8 buf (baseOffset + 36)
  let currentLapInvalid ← ru8 buf (baseOffset + 37)
  let penaltiesSec ← ru8 buf (baseOffset + 38)
  let totalWarnings ← ru8 buf (baseOffset + 39)
  let cornerCuttingWarnings ← ru8 buf (baseOffset + 40)
  let numUnservedDriveThroughPens ← ru8 buf (baseOffset + 41)
  let numUnservedStopGoPens ← ru8 buf (baseOffset + 42)
  let gridPosition ← ru8 buf (baseOffset + 43)
  let driverStatus ← ru8 buf (baseOffset + 44)
  let resultStatus ← ru8 buf (baseOffset + 45)
  let pitLaneTimerActive ← ru8 buf (baseOffset + 46)
  let pitLaneTimeInLaneInMS ← ru16 buf (baseOffset + 47)
  let pitStopTimerInMS ← ru16 buf (baseOffset + 49)
  let pitStopShouldServePen ← ru8 buf (baseOffset + 51)
  let speedTrapFastestSpeed ← rf32 buf (baseOffset + 52)
  let speedTrapFastestLap ← ru8 buf (baseOffset + 56)
  return some {
    lastLapTimeInMS, currentLapTimeInMS, sector1TimeMs, sector2TimeMs,
    sector3TimeMs, deltaToRaceLeaderMs, deltaToCarInFrontMs, lapDistance,
    totalDistance, safetyCarDelta, carPosition, currentLapNum, pitStatus,
    numPitStops, sector, currentLapInvalid, penaltiesSec, totalWarnings,
    cornerCuttingWarnings, numUnservedDriveThroughPens,
    numUnservedStopGoPens, gridPosition, driverStatus, resultStatus,
    pitLaneTimerActive, pitLaneTimeInLaneInMS, pitStopTimerInMS,
    pitStopShouldServePen, speedTrapFastestSpeed, speedTrapFastestLap }

/-- The two-part sector decode used by `parseLapHistoryEntry`
(`server.js` 803–805): `sNms !== 0 || sNmin !== 0 ? sNms + sNmin*60*1000 : null`. -/
def histSectorDecode (ms mn : Nat) : Option Nat :=
  if ms ≠ 0 ∨ mn ≠ 0 then some (ms + mn * 60 * 1000) else none

/-- `parseLapHistoryEntry` (`server.js` 793–814). It performs no length
check of its own: out-of-range reads throw (`Except.error`). -/
def parseLapHistoryEntry (buf : List Nat) (baseOffset : Nat) :
    Except Unit HistEntry := do
  let lapTimeMs ← ru32 buf (baseOffset + 0)
  let s1ms ← ru16 buf (baseOffset + 4)
  let s1min ← ru8 buf (baseOffset + 6)
  let s2ms ← ru16 buf (baseOffset + 7)
  let s2min ← ru8 buf (baseOffset + 9)
  let s3ms ← ru16 buf (baseOffset + 10)
  let s3min ← ru8 buf (baseOffset + 12)
  let validFlags ← ru8 buf (baseOffset + 13)
  return {
    lapTimeMs := if 0 < lapTimeMs then some lapTimeMs else none
    sector1TimeMs := histSectorDecode s1ms s1min
    sector2TimeMs := histSectorDecode s2ms s2min
    sector3TimeMs := histSectorDecode s3ms s3min
    validFlags }

/-- `parseCarDamageForCar` (`server.js` 1022–1104). The length guard uses
`needed = min(CAR_DAMAGE_DATA_SIZE, floor((len - HEADER_SIZE)/NUM_CARS))`,
but the body always reads a full 46-byte record. -/
def parseCarDamageForCar (buf : List Nat) (baseOffset : Nat) :
    Except Unit (Option CarDamage) := do
  let perCarSize := (buf.length - HEADER_SIZE) / NUM_CARS
  let needed := min CAR_DAMAGE_DATA_SIZE perCarSize
  if needed = 0 then return none
  if buf.length < baseOffset + needed then return none
  let o := baseOffset
  let tw0 ← rf32 buf o
  let tw1 ← rf32 buf (o + 4)
  let tw2 ← rf32 buf (o + 8)
  let tw3 ← rf32 buf (o + 12)
  let o := o + 16
  let td0 ← ru8 buf o
  let td1 ← ru8 buf (o + 1)
  let td2 ← ru8 buf (o + 2)
  let td3 ← ru8 buf (o + 3)
  let o := o + 4
  let bd0 ← ru8 buf o
  let bd1 ← ru8 buf (o + 1)
  let bd2 ← ru8 buf (o + 2)
  let bd3 ← ru8 buf (o + 3)
  let o := o + 4
  let tb0 ← ru8 buf o
  let tb1 ← ru8 buf (o + 1)
  let tb2 ← ru8 buf (o + 2)
  let tb3 ← ru8 buf (o + 3)
  let o := o + 4
  let frontLeftWingDamage ← ru8 buf o
  let frontRightWingDamage ← ru8 buf (o + 1)
  let rearWingDamage ← ru8 buf (o + 2)
  let floorDamage ← ru8 buf (o + 3)
  let diffuserDamage ← ru8 buf (o + 4)
  let sidepodDamage ← ru8 buf (o + 5)
  let drsFault ← ru8 buf (o + 6)
  let ersFault ← ru8 buf (o + 7)
  let gearBoxDamage ← ru8 buf (o + 8)
  let engineDamage ← ru8 buf (o + 9)
  let engineMGUHWear ← ru8 buf (o + 10)
  let engineESWear ← ru8 buf (o + 11)
  let engineCEWear ← ru8 buf (o + 12)
  let engineICEWear ← ru8 buf (o + 13)
  let engineMGUKWear ← ru8 buf (o + 14)
  let engineTCWear ← ru8 buf (o + 15)
  let engineBlown ← ru8 buf (o + 16)
  let engineSeized ← ru8 buf (o + 17)
  return some {
    tyresWear := [tw0, tw1, tw2, tw3]
    tyresDamage := [td0, td1, td2, td3]
    brakesDamage := [bd0, bd1, bd2, bd3]
    tyreBlisters := [tb0, tb1, tb2, tb3]
    frontLeftWingDamage, frontRightWingDamage, rearWingDamage, floorDamage,
    diffuserDamage, sidepodDamage, drsFault, ersFault, gearBoxDamage,
    engineDamage, engineMGUHWear, engineESWear, engineCEWear,
    engineICEWear, engineMGUKWear, engineTCWear, engineBlown, engineSeized }

/-! ## Packet handlers

Each `handleXPacket` in `server.js` first parses the header and, on a
session-UID change, resets all state, then decodes per-car sub-records
from the buffer and applies them.  The handlers here take the already
decoded records (the byte level is modelled separately above);
`Option` per car slot stands for a record decoder's `null` result and
`Option` payloads stand for the handler's early "buffer too short"
returns after the reset. -/

/-- The UID-change check at the top of every handler:
`playerState.sessionUID === null || playerState.sessionUID !== header.sessionUID`. -/
def maybeReset (s : ServerState) (h : Header) : ServerState :=
  if s.playerState.sessionUID ≠ some h.sessionUID then resetSessionState h.sessionUID s
  else s

/-- Session-kind classification (`server.js` 1195–1206). -/
def classifySessionKind (sessionType totalLaps : Nat) : Option String :=
  let isPractice := 1 ≤ sessionType ∧ sessionType ≤ 4
  let isQuali := 5 ≤ sessionType ∧ sessionType ≤ 9
  let isTimeTrial := sessionType = 12
  let isRaceLike := sessionType = 10 ∨ sessionType = 11 ∨ sessionType = 13 ∨
    sessionType = 14 ∨ sessionType = 15
  if isTimeTrial then some "time_trial"
  else if isRaceLike then some "race"
  else if isPractice ∨ isQuali then some "time_attack"
  else if 0 < totalLaps then some "race" else some "time_attack"

/-- `handleSessionPacket` (`server.js` 1157–1207). `pay = none` models the
too-short early return after the reset check. -/
def handleSessionPacket (s : ServerState) (h : Header)
    (pay : Option SessionPayload) : ServerState :=
  let s := maybeReset s h
  match pay with
  | none => s
  | some p =>
    { s with lapsState := { s.lapsState with
        totalLaps := some p.totalLaps
        sessionType := some p.sessionType
        trackLengthM := some p.trackLengthM
        trackId := some p.trackId
        weather := some p.weather
        trackTemperatureC := some p.trackTemperatureC
        airTemperatureC := some p.airTemperatureC
        formula := some p.formula
        sessionTimeLeftSec := some p.sessionTimeLeftSec
        sessionDurationSec := some p.sessionDurationSec
        pitSpeedLimitKph := some p.pitSpeedLimitKph
        sessionKind := classifySessionKind p.sessionType p.totalLaps } }

/-- `handleParticipantsPacket` (`server.js` 767–791). `numActiveCars` is
read (and stored) before the array-length guard; `entries = none` models
that guard's early return. -/
def handleParticipantsPacket (s : ServerState) (h : Header) (numActive : Nat)
    (entries : Option (List ParticipantEntry)) : ServerState :=
  let s := maybeReset s h
  let s := { s with numActiveCars := some numActive }
  match entries with
  | none => s
  | some es =>
    es.enum.foldl (fun s p =>
      if p.2.name ≠ "" then
        { s with
          participantsNameByIndex := jset s.participantsNameByIndex p.1 p.2.name
          participantsTeamIdByIndex := jset s.participantsTeamIdByIndex p.1 p.2.teamId
          participantsColorByIndex :=
            jset s.participantsColorByIndex p.1 (p.2.colourR, p.2.colourG, p.2.colourB) }
      else s) s

/-- Payload of a session-history packet once its two length guards pass. -/
structure HistPayload where
  carIdx : Nat
  numLaps : Nat
  entries : List HistEntry
  deriving Repr, DecidableEq

/-- The `byLap` map built in `handleSessionHistoryPacket`
(1-based lap numbers, at most `min(numLaps, 100)` entries). -/
def buildByLap (numLaps : Nat) (entries : List HistEntry) : JsMap HistEntry :=
  ((entries.take (min numLaps 100)).enum).map (fun p => (p.1 + 1, p.2))

/-- One iteration of the player-ledger override loop
(`server.js` 847–860). -/
def histLoopStep (ledger : JsMap LapEntry) (p : Nat × HistEntry) : JsMap LapEntry :=
  match jget ledger p.1 with
  | some old =>
    match p.2.lapTimeMs with
    | some t =>
      jset ledger p.1
        { old with
          lapTimeMs := some t
          sector1TimeMs := p.2.sector1TimeMs
          sector2TimeMs := p.2.sector2TimeMs
          sector3TimeMs := p.2.sector3TimeMs }
    | none => ledger
  | none => ledger

/-- `handleSessionHistoryPacket` (`server.js` 816–863). -/
def handleSessionHistoryPacket (s : ServerState) (h : Header)
    (pay : Option HistPayload) : ServerState :=
  let s := maybeReset s h
  match pay with
  | none => s
  | some p =>
    let byLap := buildByLap p.numLaps p.entries
    let s := { s with
      sessionHistoryByCarIndex := jset s.sessionHistoryByCarIndex p.carIdx byLap }
    if p.carIdx = h.playerCarIndex then
      recomputeFromLaps { s with lapsByNumber := byLap.foldl histLoopStep s.lapsByNumber }
    else s

/-- `handleCarStatusPacket` (`server.js` 926–972), including the
tyre-at-lap-start backfill for the player's current lap. -/
def handleCarStatusPacket (s : ServerState) (h : Header)
    (cars : List (Option CarStatus)) : ServerState :=
  let s := maybeReset s h
  let s := cars.enum.foldl (fun s p =>
    match p.2 with
    | some st => { s with carStatusByIndex := jset s.carStatusByIndex p.1 st }
    | none => s) s
  let s :=
    if h.playerCarIndex < NUM_CARS then
      match jget s.carStatusByIndex h.playerCarIndex with
      | some ps =>
        { s with
          playerState := { s.playerState with
            currentTyreActualCompound := some ps.actualTyreCompound
            currentTyreVisualCompound := some ps.visualTyreCompound
            currentTyresAgeLaps := some ps.tyresAgeLaps }
          lapsState := { s.lapsState with currentCarStatus := some ps } }
      | none => s
    else s
  match s.playerState.currentLapNum with
  | some lapNum =>
    let cond : Bool :=
      match jget s.tyreByLapStart lapNum with
      | none => true
      | some ex =>
        (ex.tyreVisualCompound.isNone && s.playerState.currentTyreVisualCompound.isSome) ||
        (ex.tyreActualCompound.isNone && s.playerState.currentTyreActualCompound.isSome)
    if cond then
      let snap : TyreSnapshot :=
        { tyreActualCompound := s.playerState.currentTyreActualCompound
          tyreVisualCompound := s.playerState.currentTyreVisualCompound
          tyresAgeLaps := s.playerState.currentTyresAgeLaps }
      { s with tyreByLapStart := jset s.tyreByLapStart lapNum snap }
    else s
  | none => s

/-- `handleCarTelemetryPacket` (`server.js` 1106–1129). -/
def handleCarTelemetryPacket (s : ServerState) (h : Header)
    (cars : List (Option Telemetry)) : ServerState :=
  let s := maybeReset s h
  let s := cars.enum.foldl (fun s p =>
    match p.2 with
    | some t => { s with carTelemetryByIndex := jset s.carTelemetryByIndex p.1 t }
    | none => s) s
  if h.playerCarIndex < NUM_CARS then
    match jget s.carTelemetryByIndex h.playerCarIndex with
    | some t => { s with lapsState := { s.lapsState with currentCarTelemetry := some t } }
    | none => s
  else s

/-- `handleCarDamagePacket` (`server.js` 1131–1155). -/
def handleCarDamagePacket (s : ServerState) (h : Header)
    (cars : List (Option CarDamage)) : ServerState :=
  let s := maybeReset s h
  let s := cars.enum.foldl (fun s p =>
    match p.2 with
    | some d => { s with carDamageByIndex := jset s.carDamageByIndex p.1 d }
    | none => s) s
  if h.playerCarIndex < NUM_CARS then
    match jget s.carDamageByIndex h.playerCarIndex with
    | some d => { s with lapsState := { s.lapsState with currentCarDamage := some d } }
    | none => s
  else s

/-! ## `handleLapDataPacket` (`server.js` 1209–1709) -/

/-- The default stint object created on first sight of a car
(`server.js` 1231–1239). -/
def defaultStint : PitStint :=
  { active := false, startLapNum := none, maxTimeMs := 0, statusMax := 0
    lastTimeMs := none, lastStatusMax := 0, lastLapNum := none }

/-- Per-car pit-stint state machine (`server.js` 1240–1262). -/
def stintUpdate (pitPrev : PitStint) (lap : LapRec) : PitStint :=
  if lap.pitLaneTimerActive = 1 then
    let p :=
      if ¬ pitPrev.active then
        { pitPrev with
          active := true
          startLapNum := some lap.currentLapNum
          maxTimeMs := 0
          statusMax := 0 }
      else pitPrev
    let p :=
      if 0 < lap.pitLaneTimeInLaneInMS then
        { p with maxTimeMs := max p.maxTimeMs lap.pitLaneTimeInLaneInMS }
      else p
    if 0 < lap.pitStatus then
      { p with statusMax := max p.statusMax lap.pitStatus }
    else p
  else if pitPrev.active then
    { pitPrev with
      active := false
      lastTimeMs := if 0 < pitPrev.maxTimeMs then some pitPrev.maxTimeMs else none
      lastStatusMax := pitPrev.statusMax
      lastLapNum := pitPrev.startLapNum
      startLapNum := none
      maxTimeMs := 0
      statusMax := 0 }
  else pitPrev

/-- Sticky sector-cache merge (`server.js` 1266–1275): a field is
overwritten only when the new record carries a non-absent value. -/
def mergeSectors (prev : SectorCache) (lap : LapRec) : SectorCache :=
  { sector1TimeMs := match lap.sector1TimeMs with | some v => some v | none => prev.sector1TimeMs
    sector2TimeMs := match lap.sector2TimeMs with | some v => some v | none => prev.sector2TimeMs
    sector3TimeMs := match lap.sector3TimeMs with | some v => some v | none => prev.sector3TimeMs }

/-- Body of the per-car loop (`server.js` 1225–1284) for one parsed car. -/
def carLoopOne (s : ServerState) (i : Nat) (lap : LapRec) : ServerState :=
  let pitPrev := (jget s.pitLaneStintByIndex i).getD defaultStint
  let s := { s with pitLaneStintByIndex := jset s.pitLaneStintByIndex i (stintUpdate pitPrev lap) }
  let prev := (jget s.sectorCacheByIndex i).getD ⟨none, none, none⟩
  let next := mergeSectors prev lap
  let s := { s with sectorCacheByIndex := jset s.sectorCacheByIndex i next }
  let merged : LapRec :=
    { lap with
      sector1TimeMs := next.sector1TimeMs
      sector2TimeMs := next.sector2TimeMs
      sector3TimeMs := next.sector3TimeMs }
  { s with lapDataByIndex := jset s.lapDataByIndex i merged }

/-- One slot of the per-car loop; a `none` slot is a record-decoder
`null` and is skipped (`continue`). -/
def carLoopStep (s : ServerState) (p : Nat × Option LapRec) : ServerState :=
  match p.2 with
  | some lap => carLoopOne s p.1 lap
  | none => s

/-- The per-car loop over all (up to 22) slots. -/
def carLoop (s : ServerState) (cars : List (Option LapRec)) : ServerState :=
  cars.enum.foldl carLoopStep s

/-- The leaderboard inclusion filter (`server.js` 1288–1303). -/
def includeCar (s : ServerState) (playerCarIndex : Nat) (p : Nat × LapRec) : Bool :=
  match jget s.participantsNameByIndex p.1 with
  | none => false
  | some name =>
    if name = "" then false
    else if p.1 = playerCarIndex then true
    else if (match s.numActiveCars with
             | some k => decide (0 < k) && decide (k ≤ p.1)
             | none => false) then false
    else if p.2.resultStatus = 0 then false
    else true

/-- Best-lap scan over one car's session-history map
(`server.js` 1321–1339): best valid positive lap time, with the
sector times of that same lap. -/
def bestFromHistory (sh : JsMap HistEntry) :
    Option Nat × Option Nat × Option Nat × Option Nat × Option Nat :=
  sh.foldl (fun acc p =>
    match p.2.lapTimeMs with
    | none => acc
    | some t =>
      if ¬ 0 < t then acc
      else if p.2.validFlags &&& 1 = 0 then acc
      else match acc.1 with
        | none => (some t, some p.1, p.2.sector1TimeMs, p.2.sector2TimeMs, p.2.sector3TimeMs)
        | some b =>
          if t < b then
            (some t, some p.1, p.2.sector1TimeMs, p.2.sector2TimeMs, p.2.sector3TimeMs)
          else acc)
    (none, none, none, none, none)

/-- Construction of one leaderboard row (`server.js` 1304–1371). -/
def buildRaceCar (s : ServerState) (i : Nat) (lap : LapRec) : RaceCar :=
  let name := (jget s.participantsNameByIndex i).getD ""
  let cs := jget s.carStatusByIndex i
  let pcol := jget s.participantsColorByIndex i
  let teamId := jget s.participantsTeamIdByIndex i
  let pit := jget s.pitLaneStintByIndex i
  let pitLaneTimeMs :=
    match pit with
    | some p =>
      if p.active then (if 0 < p.maxTimeMs then some p.maxTimeMs else none)
      else p.lastTimeMs
    | none => none
  let pitStatusMax :=
    match pit with
    | some p => if p.active then p.statusMax else p.lastStatusMax
    | none => 0
  let sh := jget s.sessionHistoryByCarIndex i
  let lastLapNum := if 0 < lap.currentLapNum then some (lap.currentLapNum - 1) else none
  let shLast :=
    match lastLapNum, sh with
    | some n, some m => jget m n
    | _, _ => none
  let bests := match sh with
    | some m => bestFromHistory m
    | none => (none, none, none, none, none)
  let isTimeAttack := s.lapsState.sessionKind = some "time_attack"
  let lastLapFallback := if 0 < lap.lastLapTimeInMS then some lap.lastLapTimeInMS else none
  let displayLapTimeMs :=
    if isTimeAttack then bests.1
    else match shLast.bind (·.lapTimeMs) with
      | some t => some t
      | none => lastLapFallback
  let displayS1 :=
    if isTimeAttack then bests.2.2.1
    else match shLast.bind (·.sector1TimeMs) with
      | some t => some t
      | none => lap.sector1TimeMs
  let displayS2 :=
    if isTimeAttack then bests.2.2.2.1
    else match shLast.bind (·.sector2TimeMs) with
      | some t => some t
      | none => lap.sector2TimeMs
  let displayS3 :=
    if isTimeAttack then bests.2.2.2.2
    else match shLast.bind (·.sector3TimeMs) with
      | some t => some t
      | none => lap.sector3TimeMs
  { carIndex := i
    name := name
    teamId := teamId
    teamColour := pcol
    position := lap.carPosition
    lapNumber := lap.currentLapNum
    lapTimeMs := displayLapTimeMs
    bestLapTimeMs := bests.1
    bestLapNum := bests.2.1
    gapToLeaderMs := lap.deltaToRaceLeaderMs
    gapToCarAheadMs := lap.deltaToCarInFrontMs.map (fun v => (v : Int))
    sector1TimeMs := displayS1
    sector2TimeMs := displayS2
    sector3TimeMs := displayS3
    tyreActualCompound := cs.map (·.actualTyreCompound)
    tyreVisualCompound := cs.map (·.visualTyreCompound)
    tyresAgeLaps := cs.map (·.tyresAgeLaps)
    pitStatus := pitStatusMax
    pitLaneTimeMs := pitLaneTimeMs
    stops := lap.numPitStops
    lapDistance := lap.lapDistance }

/-- The time-attack sort comparator (`server.js` 1378–1383):
ascending displayed lap time with `null` as `+∞`, ties by position. -/
def taLe (a b : RaceCar) : Bool :=
  match a.lapTimeMs, b.lapTimeMs with
  | some x, some y => if x ≠ y then decide (x ≤ y) else decide (a.position ≤ b.position)
  | some _, none => true
  | none, some _ => false
  | none, none => decide (a.position ≤ b.position)

/-- The race sort comparator (`server.js` 1402): by reported position. -/
def posLe (a b : RaceCar) : Bool := decide (a.position ≤ b.position)

/-- Gap assignment over the time-attack-sorted list
(`server.js` 1384–1394). -/
def taAssignGaps (sorted : List RaceCar) : List RaceCar :=
  sorted.enum.map (fun p =>
    let idx := p.1
    let cur := p.2
    if idx = 0 then { cur with gapToCarAheadMs := none }
    else match sorted.get? (idx - 1) with
      | some prev =>
        match cur.lapTimeMs, prev.lapTimeMs with
        | some ct, some pt => { cur with gapToCarAheadMs := some ((ct : Int) - (pt : Int)) }
        | _, _ => { cur with gapToCarAheadMs := none }
      | none => { cur with gapToCarAheadMs := none })

/-- Gap fallback over the position-sorted list (`server.js` 1403–1414). -/
def raceAssignGaps (sorted : List RaceCar) : List RaceCar :=
  sorted.enum.map (fun p =>
    let idx := p.1
    let cur := p.2
    if cur.position = 1 then { cur with gapToCarAheadMs := none }
    else if cur.gapToCarAheadMs = none then
      match sorted.get? (idx - 1), idx with
      | some prev, _ + 1 =>
        match cur.gapToLeaderMs, prev.gapToLeaderMs with
        | some cg, some pg =>
          let d : Int := (cg : Int) - (pg : Int)
          { cur with gapToCarAheadMs := if 0 ≤ d then some d else none }
        | _, _ => cur
      | _, _ => cur
    else cur)

/-- `new Map(sorted.map(c => [c.carIndex, c]))` followed by
`raceCarsRaw.map(c => byCarIndex.get(c.carIndex) || c)`
(`server.js` 1396–1397, 1415–1416). -/
def remapByCarIndex (raw fixed : List RaceCar) : List RaceCar :=
  let m := fixed.foldl (fun m c => jset m c.carIndex c) ([] : JsMap RaceCar)
  raw.map (fun c => (jget m c.carIndex).getD c)

/-- Accumulator of the session-wide ("race") best scan. -/
structure RaceBests where
  lapMs : Option Nat
  lapCar : Option Nat
  lapNum : Option Nat
  s1 : Option Nat
  s1Car : Option Nat
  s2 : Option Nat
  s2Car : Option Nat
  s3 : Option Nat
  s3Car : Option Nat
  deriving Repr, DecidableEq

/-- One step of the race-best scan over displayed rows
(`server.js` 1421–1448). -/
def raceBestsStep (acc : RaceBests) (c : RaceCar) : RaceBests :=
  let acc :=
    match c.lapTimeMs with
    | some t =>
      if decide (0 < t) && (match acc.lapMs with | none => true | some b => decide (t < b)) then
        { acc with
          lapMs := some t
          lapCar := some c.carIndex
          lapNum := match c.bestLapNum with
            | some n => some n
            | none => some (c.lapNumber - 1) }
      else acc
    | none => acc
  let acc :=
    match c.sector1TimeMs with
    | some t =>
      if (match acc.s1 with | none => true | some b => decide (t < b)) then
        { acc with s1 := some t, s1Car := some c.carIndex }
      else acc
    | none => acc
  let acc :=
    match c.sector2TimeMs with
    | some t =>
      if (match acc.s2 with | none => true | some b => decide (t < b)) then
        { acc with s2 := some t, s2Car := some c.carIndex }
      else acc
    | none => acc
  match c.sector3TimeMs with
  | some t =>
    if (match acc.s3 with | none => true | some b => decide (t < b)) then
      { acc with s3 := some t, s3Car := some c.carIndex }
    else acc
  | none => acc

/-- Leaderboard assembly plus race-best update
(`server.js` 1286–1460). -/
def raceTableStep (s : ServerState) (playerCarIndex : Nat) : ServerState :=
  let raw := (s.lapDataByIndex.filter (includeCar s playerCarIndex)).map
    (fun p => buildRaceCar s p.1 p.2)
  let raceCars :=
    if s.lapsState.sessionKind = some "time_attack" then
      remapByCarIndex raw (taAssignGaps (List.mergeSort raw taLe))
    else
      remapByCarIndex raw (raceAssignGaps (List.mergeSort raw posLe))
  let rb0 : RaceBests :=
    { lapMs := s.raceBestLapTimeMs, lapCar := s.raceBestLapCarIndex
      lapNum := s.raceBestLapNum
      s1 := s.raceBestSector1TimeMs, s1Car := s.raceBestSector1CarIndex
      s2 := s.raceBestSector2TimeMs, s2Car := s.raceBestSector2CarIndex
      s3 := s.raceBestSector3TimeMs, s3Car := s.raceBestSector3CarIndex }
  let rb := raceCars.foldl raceBestsStep rb0
  { s with
    raceBestLapTimeMs := rb.lapMs
    raceBestLapCarIndex := rb.lapCar
    raceBestLapNum := rb.lapNum
    raceBestSector1TimeMs := rb.s1
    raceBestSector1CarIndex := rb.s1Car
    raceBestSector2TimeMs := rb.s2
    raceBestSector2CarIndex := rb.s2Car
    raceBestSector3TimeMs := rb.s3
    raceBestSector3CarIndex := rb.s3Car
    lapsState := { s.lapsState with
      raceCars := raceCars
      raceBestSector1TimeMs := rb.s1
      raceBestSector2TimeMs := rb.s2
      raceBestSector3TimeMs := rb.s3
      raceBestSector1CarIndex := rb.s1Car
      raceBestSector2CarIndex := rb.s2Car
      raceBestSector3CarIndex := rb.s3Car
      raceBestLapTimeMs := rb.lapMs
      raceBestLapCarIndex := rb.lapCar
      raceBestLapNum := rb.lapNum } }

/-! ### Player-only section of the lap-data handler -/

/-- `server.js` 1492–1499. -/
def setPenalties (s : ServerState) (lap : LapRec) : ServerState :=
  let pen : Penalties :=
    { penaltiesSec := lap.penaltiesSec
      totalWarnings := lap.totalWarnings
      cornerCuttingWarnings := lap.cornerCuttingWarnings
      numUnservedDriveThroughPens := lap.numUnservedDriveThroughPens
      numUnservedStopGoPens := lap.numUnservedStopGoPens
      pitStopShouldServePen := lap.pitStopShouldServePen }
  { s with lapsState := { s.lapsState with currentPenalties := some pen } }

/-- The flashback test (`server.js` 1502): the observed current lap
number decreased. -/
def rewindCond (s : ServerState) (lap : LapRec) : Bool :=
  match s.playerState.currentLapNum with
  | some p => decide (lap.currentLapNum < p)
  | none => false

/-- The flashback truncation (`server.js` 1502–1523): drop every
per-lap record with lap number `≥` the new current lap, abandon the
player pit stint, recompute bests. -/
def rewindStep (s : ServerState) (cur : Nat) : ServerState :=
  let s' : ServerState :=
    { s with
      lapsByNumber := eraseFrom s.lapsByNumber cur
      tyreByLapStart := eraseFrom s.tyreByLapStart cur
      pitLaneTimeByLap := eraseFrom s.pitLaneTimeByLap cur
      pitLaneStatusByLap := eraseFrom s.pitLaneStatusByLap cur
      playerState := { s.playerState with
        pitLaneActive := false
        pitLaneStartLapNum := none
        pitLaneMaxTimeMs := 0
        pitLanePitStatusMax := 0 } }
  recomputeFromLaps s'

/-- First-sight tyre snapshot (`server.js` 1526–1532). -/
def tyreStep (s : ServerState) (cur : Nat) : ServerState :=
  if jhas s.tyreByLapStart cur then s
  else
    let snap : TyreSnapshot :=
      { tyreActualCompound := s.playerState.currentTyreActualCompound
        tyreVisualCompound := s.playerState.currentTyreVisualCompound
        tyresAgeLaps := s.playerState.currentTyresAgeLaps }
    { s with tyreByLapStart := jset s.tyreByLapStart cur snap }

/-- The active-stint half of the player pit tracker
(`server.js` 1536–1548): open on the rising edge, then accumulate
maxima of the positive observations. -/
def playerStintAccum (ps : PlayerState) (lap : LapRec) : PlayerState :=
  let ps :=
    if ¬ ps.pitLaneActive then
      { ps with
        pitLaneActive := true
        pitLaneStartLapNum := some lap.currentLapNum
        pitLaneMaxTimeMs := 0
        pitLanePitStatusMax := 0 }
    else ps
  let ps :=
    if 0 < lap.pitLaneTimeInLaneInMS then
      { ps with pitLaneMaxTimeMs := max ps.pitLaneMaxTimeMs lap.pitLaneTimeInLaneInMS }
    else ps
  if 0 < lap.pitStatus then
    { ps with pitLanePitStatusMax := max ps.pitLanePitStatusMax lap.pitStatus }
  else ps

/-- Player pit-lane stint tracking (`server.js` 1535–1573). -/
def playerPitStep (s : ServerState) (lap : LapRec) : ServerState :=
  if lap.pitLaneTimerActive = 1 then
    { s with playerState := playerStintAccum s.playerState lap }
  else if s.playerState.pitLaneActive then
    let lapNum := s.playerState.pitLaneStartLapNum
    let timeMs := s.playerState.pitLaneMaxTimeMs
    let statusMax := s.playerState.pitLanePitStatusMax
    let s := { s with playerState := { s.playerState with
      pitLaneActive := false, pitLaneStartLapNum := none
      pitLaneMaxTimeMs := 0, pitLanePitStatusMax := 0 } }
    match lapNum with
    | some L =>
      if 0 < timeMs then
        let s := { s with
          pitLaneTimeByLap := jset s.pitLaneTimeByLap L timeMs
          pitLaneStatusByLap := jset s.pitLaneStatusByLap L statusMax }
        match jget s.lapsByNumber L with
        | some entry =>
          let patched : LapEntry :=
            { entry with pitLaneTimeMs := some timeMs, pitStatus := statusMax }
          recomputeFromLaps { s with lapsByNumber := jset s.lapsByNumber L patched }
        | none => s
      else s
    | none => s
  else s

/-- Player's own sticky sector cache (`server.js` 1576–1581). -/
def playerSectorStep (s : ServerState) (lap : LapRec) : ServerState :=
  let ps := s.playerState
  let ps := match lap.sector1TimeMs with
    | some v => { ps with currentSector1TimeMs := some v }
    | none => ps
  let ps := match lap.sector2TimeMs with
    | some v => { ps with currentSector2TimeMs := some v }
    | none => ps
  { s with playerState := ps }

/-- `lapsState.liveLapTimeMs = currentLapTimeInMS` (`server.js` 1584). -/
def liveTimeStep (s : ServerState) (lap : LapRec) : ServerState :=
  { s with lapsState := { s.lapsState with liveLapTimeMs := lap.currentLapTimeInMS } }

/-- `lapsState.sessionKind === 'race'`. -/
def isRaceSession (s : ServerState) : Bool := s.lapsState.sessionKind = some "race"

/-- The sector-1 live best improvement (`server.js` 1597–1603). -/
def liveBestS1 (ls : LapsState) (lap : LapRec) : LapsState :=
  if 1 ≤ lap.sector then
    match lap.sector1TimeMs, ls.bestSector1TimeMs with
    | some v, none => { ls with bestSector1TimeMs := some v }
    | some v, some b =>
      if v < b then { ls with bestSector1TimeMs := some v } else ls
    | none, _ => ls
  else ls

/-- The sector-2 live best improvement (`server.js` 1604–1610). -/
def liveBestS2 (ls : LapsState) (lap : LapRec) : LapsState :=
  if 2 ≤ lap.sector then
    match lap.sector2TimeMs, ls.bestSector2TimeMs with
    | some v, none => { ls with bestSector2TimeMs := some v }
    | some v, some b =>
      if v < b then { ls with bestSector2TimeMs := some v } else ls
    | none, _ => ls
  else ls

/-- The two live best-sector improvements (`server.js` 1596–1610). -/
def liveBestSectors (ls : LapsState) (lap : LapRec) : LapsState :=
  liveBestS2 (liveBestS1 ls lap) lap

/-- Live best-sector improvement, or recompute on an invalid live lap
(`server.js` 1595–1614). -/
def liveBestStep (s : ServerState) (lap : LapRec) : ServerState :=
  let currentLapIsValid := if isRaceSession s then true else lap.currentLapInvalid = 0
  if currentLapIsValid then
    { s with lapsState := liveBestSectors s.lapsState lap }
  else recomputeFromLaps s

/-- The live current-lap row (`server.js` 1587–1592, 1616–1634). -/
def currentLapStep (s : ServerState) (lap : LapRec) : ServerState :=
  let liveTyre := (jget s.tyreByLapStart lap.currentLapNum).getD
    { tyreActualCompound := s.playerState.currentTyreActualCompound
      tyreVisualCompound := s.playerState.currentTyreVisualCompound
      tyresAgeLaps := s.playerState.currentTyresAgeLaps }
  let row : LapEntry :=
    { lapNumber := lap.currentLapNum
      lapTimeMs := some lap.currentLapTimeInMS
      deltaMs := s.lapsState.bestLapTimeMs.map
        (fun b => (lap.currentLapTimeInMS : Int) - (b : Int))
      valid := if isRaceSession s then true else lap.currentLapInvalid = 0
      isBest := false
      sector1TimeMs := if 1 ≤ lap.sector then lap.sector1TimeMs else none
      sector2TimeMs := if 2 ≤ lap.sector then lap.sector2TimeMs else none
      sector3TimeMs := none
      tyreActualCompound := liveTyre.tyreActualCompound
      tyreVisualCompound := liveTyre.tyreVisualCompound
      tyresAgeLaps := liveTyre.tyresAgeLaps
      pitStatus := lap.pitStatus
      pitLaneTimeMs := if lap.pitLaneTimerActive = 1 then some lap.pitLaneTimeInLaneInMS else none
      numPitStops := lap.numPitStops }
  { s with lapsState := { s.lapsState with currentLap := some row } }

/-- Lap finalization on a lap-number increment (`server.js` 1637–1694). -/
def finalizeStep (s : ServerState) (playerCarIndex : Nat) (lap : LapRec) : ServerState :=
  match s.playerState.currentLapNum with
  | none => s
  | some prev =>
    if prev < lap.currentLapNum ∧ 0 < lap.lastLapTimeInMS then
      let finishedLapNum := prev
      let valid := if isRaceSession s then true else s.playerState.currentLapInvalid = 0
      let finishedTyre := (jget s.tyreByLapStart finishedLapNum).getD
        { tyreActualCompound := s.playerState.currentTyreActualCompound
          tyreVisualCompound := s.playerState.currentTyreVisualCompound
          tyresAgeLaps := s.playerState.currentTyresAgeLaps }
      let historyEntry := (jget s.sessionHistoryByCarIndex playerCarIndex).bind
        (fun m => jget m finishedLapNum)
      let lapTimeMs := match historyEntry.bind (·.lapTimeMs) with
        | some t => t
        | none => lap.lastLapTimeInMS
      let s1 := match historyEntry.bind (·.sector1TimeMs) with
        | some v => some v
        | none => s.playerState.currentSector1TimeMs
      let s2 := match historyEntry.bind (·.sector2TimeMs) with
        | some v => some v
        | none => s.playerState.currentSector2TimeMs
      let s3 := match historyEntry.bind (·.sector3TimeMs) with
        | some v => some v
        | none =>
          match s1, s2 with
          | some a, some b =>
            if 0 < lapTimeMs then
              let candidate : Int := (lapTimeMs : Int) - (a : Int) - (b : Int)
              if 0 ≤ candidate then some candidate.toNat else none
            else none
          | _, _ => none
      let lapEntry : LapEntry :=
        { lapNumber := finishedLapNum
          lapTimeMs := some lapTimeMs
          deltaMs := none
          valid := valid
          isBest := false
          sector1TimeMs := s1
          sector2TimeMs := s2
          sector3TimeMs := s3
          tyreActualCompound := finishedTyre.tyreActualCompound
          tyreVisualCompound := finishedTyre.tyreVisualCompound
          tyresAgeLaps := finishedTyre.tyresAgeLaps
          pitStatus := (jget s.pitLaneStatusByLap finishedLapNum).getD 0
          pitLaneTimeMs := jget s.pitLaneTimeByLap finishedLapNum
          numPitStops := lap.numPitStops }
      let s := recomputeFromLaps
        { s with lapsByNumber := jset s.lapsByNumber finishedLapNum lapEntry }
      { s with playerState := { s.playerState with
          currentSector1TimeMs := none, currentSector2TimeMs := none } }
    else s

/-- `server.js` 1697–1698. -/
def bumpPlayerLap (s : ServerState) (lap : LapRec) : ServerState :=
  { s with playerState := { s.playerState with
      currentLapNum := some lap.currentLapNum
      currentLapInvalid := lap.currentLapInvalid } }

/-- Live delta to the personal best (`server.js` 1700–1706), positive
while the live lap is still ahead of the best. -/
def liveDeltaStep (s : ServerState) : ServerState :=
  { s with lapsState := { s.lapsState with liveDeltaToBestMs :=
      match s.lapsState.bestLapTimeMs with
      | some b =>
        if 0 < s.lapsState.liveLapTimeMs then
          some ((b : Int) - (s.lapsState.liveLapTimeMs : Int))
        else none
      | none => none } }

/-- The player section after the flashback check (`server.js`
1525–1708): tyre snapshot, pit stint, sector cache, live fields,
finalization, lap bump, live delta. -/
def playerTail (s : ServerState) (playerCarIndex : Nat) (lap : LapRec) : ServerState :=
  let s := tyreStep s lap.currentLapNum
  let s := playerPitStep s lap
  let s := playerSectorStep s lap
  let s := liveTimeStep s lap
  let s := liveBestStep s lap
  let s := currentLapStep s lap
  let s := finalizeStep s playerCarIndex lap
  let s := bumpPlayerLap s lap
  liveDeltaStep s

/-- The whole player-only section (`server.js` 1467–1708),
run on the merged lap record of the player's slot. -/
def playerUpdate (s : ServerState) (playerCarIndex : Nat) (lap : LapRec) : ServerState :=
  let s := setPenalties s lap
  let s := if rewindCond s lap then rewindStep s lap.currentLapNum else s
  playerTail s playerCarIndex lap

/-- The lap-data handler up to and including the per-car loop
(`server.js` 1209–1284): header/reset check, connection flag, player
index, per-car stint/sector/lap-data caches. -/
def lapDataStage1 (s : ServerState) (h : Header)
    (cars : List (Option LapRec)) : ServerState :=
  let s := maybeReset s h
  let s := { s with lapsState := { s.lapsState with
    isConnected := true, playerCarIndex := some h.playerCarIndex } }
  carLoop s cars

/-- `handleLapDataPacket` (`server.js` 1209–1709). -/
def handleLapDataPacket (s : ServerState) (h : Header)
    (cars : List (Option LapRec)) : ServerState :=
  let s := raceTableStep (lapDataStage1 s h cars) h.playerCarIndex
  if h.playerCarIndex < NUM_CARS then
    match jget s.lapDataByIndex h.playerCarIndex with
    | some lap => playerUpdate s h.playerCarIndex lap
    | none => s
  else s

/-! ## Packet dispatch (`udpServer.on('message')`, `server.js` 1740–1766) -/

/-- A parsed, classified inbound datagram. -/
inductive Packet where
  | session (h : Header) (pay : Option SessionPayload)
  | participants (h : Header) (numActive : Nat) (entries : Option (List ParticipantEntry))
  | sessionHistory (h : Header) (pay : Option HistPayload)
  | lapData (h : Header) (cars : List (Option LapRec))
  | carTelemetry (h : Header) (cars : List (Option Telemetry))
  | carStatus (h : Header) (cars : List (Option CarStatus))
  | carDamage (h : Header) (cars : List (Option CarDamage))
  deriving Repr

/-- The header of a packet. -/
def Packet.header : Packet → Header
  | .session h _ => h
  | .participants h _ _ => h
  | .sessionHistory h _ => h
  | .lapData h _ => h
  | .carTelemetry h _ => h
  | .carStatus h _ => h
  | .carDamage h _ => h

/-- Dispatch one datagram to its handler. -/
def applyPacket (s : ServerState) : Packet → ServerState
  | .session h pay => handleSessionPacket s h pay
  | .participants h n es => handleParticipantsPacket s h n es
  | .sessionHistory h pay => handleSessionHistoryPacket s h pay
  | .lapData h cars => handleLapDataPacket s h cars
  | .carTelemetry h cars => handleCarTelemetryPacket s h cars
  | .carStatus h cars => handleCarStatusPacket s h cars
  | .carDamage h cars => handleCarDamagePacket s h cars

/-- Feed a list of datagrams in order. -/
def runPackets (s : ServerState) (ps : List Packet) : ServerState :=
  ps.foldl applyPacket s

/-! ## Support lemmas for the personal-best recompute -/

/-- The lap times eligible for the personal-best minimum: entries with
`valid == true` and a positive `lapTimeMs`. -/
def qualTimes (ledger : JsMap LapEntry) : List Nat :=
  ((jvalues ledger).filter lapQualifies).filterMap (·.lapTimeMs)

/-- Minimum-combining step on an optional running minimum. -/
def minStep (b : Option Nat) (t : Nat) : Option Nat :=
  match b with
  | none => some t
  | some b' => some (min b' t)

theorem minStep_foldl_some (xs : List Nat) (b : Nat) :
    xs.foldl minStep (some b) = some (xs.foldl min b) := by
  induction xs generalizing b with
  | nil => rfl
  | cons x t ih => simp [minStep, ih]

theorem minStep_foldl_min? (xs : List Nat) :
    xs.foldl minStep none = xs.min? := by
  cases xs with
  | nil => rfl
  | cons x t => simp [List.min?, minStep, minStep_foldl_some]

theorem bestStep_lap (acc : BestAcc) (l : LapEntry) :
    (bestStep acc l).bestLapTimeMs =
      if lapQualifies l then
        (match l.lapTimeMs with
         | some t => minStep acc.bestLapTimeMs t
         | none => acc.bestLapTimeMs)
      else acc.bestLapTimeMs := by
  unfold bestStep
  by_cases hq : lapQualifies l
  · simp only [hq, if_true]
    cases ht : l.lapTimeMs with
    | none => simp [ht]
    | some t =>
      cases hb : acc.bestLapTimeMs with
      | none => simp [ht, hb, minStep]
      | some b =>
        by_cases hlt : t < b
        · have : min b t = t := by omega
          simp [ht, hb, minStep, hlt, this]
        · have : min b t = b := by omega
          simp [ht, hb, minStep, hlt, this]
  · simp [hq]

theorem scan_lap_foldl (L : List LapEntry) (acc : BestAcc) :
    (L.foldl bestStep acc).bestLapTimeMs =
      ((L.filter lapQualifies).filterMap (·.lapTimeMs)).foldl minStep acc.bestLapTimeMs := by
  induction L generalizing acc with
  | nil => rfl
  | cons l t ih =>
    by_cases hq : lapQualifies l
    · cases ht : l.lapTimeMs with
      | none =>
        simp only [List.foldl_cons, List.filter_cons, hq, if_true, List.filterMap_cons, ht]
        rw [ih, bestStep_lap]
        simp [hq, ht]
      | some v =>
        simp only [List.foldl_cons, List.filter_cons, hq, if_true, List.filterMap_cons, ht]
        rw [ih, bestStep_lap]
        simp [hq, ht]
    · simp only [List.foldl_cons, List.filter_cons, hq]
      rw [ih, bestStep_lap]
      simp [hq]

/-- The personal-best lap time computed by the scan is the minimum of
the qualifying lap times. -/
theorem scanBests_lap_eq_min (ledger : JsMap LapEntry) :
    (scanBests ledger).bestLapTimeMs = (qualTimes ledger).min? := by
  unfold scanBests qualTimes
  rw [scan_lap_foldl]
  exact minStep_foldl_min? _

theorem foldl_min_le_init (l : List Nat) (a : Nat) : l.foldl min a ≤ a := by
  induction l generalizing a with
  | nil => exact Nat.le_refl a
  | cons z zs ihz =>
    calc (z :: zs).foldl min a = zs.foldl min (min a z) := rfl
    _ ≤ min a z := ihz _
    _ ≤ a := Nat.min_le_left _ _

theorem foldl_min_le_of_mem {l : List Nat} {t : Nat} (h : t ∈ l) (a : Nat) :
    l.foldl min a ≤ t := by
  induction l generalizing a with
  | nil => cases h
  | cons z zs ihz =>
    rcases List.mem_cons.mp h with hz | hmem
    · subst hz
      calc (t :: zs).foldl min a = zs.foldl min (min a t) := rfl
      _ ≤ min a t := foldl_min_le_init _ _
      _ ≤ t := Nat.min_le_right _ _
    · exact ihz hmem (min a z)

theorem min?_le_of_mem {xs : List Nat} {t : Nat} (h : t ∈ xs) :
    ∃ m, xs.min? = some m ∧ m ≤ t := by
  cases xs with
  | nil => cases h
  | cons x ys =>
    refine ⟨ys.foldl min x, by simp [List.min?], ?_⟩
    rcases List.mem_cons.mp h with hx | hmem
    · subst hx
      exact foldl_min_le_init _ _
    · exact foldl_min_le_of_mem hmem x

theorem jget_map_snd {β γ : Type} (m : JsMap β) (f : Nat → β → γ) (n : Nat) :
    jget (m.map (fun p => (p.1, f p.1 p.2))) n = (jget m n).map (f n) := by
  induction m with
  | nil => simp
  | cons p t ih =>
    by_cases hp : p.1 = n
    · subst hp
      simp [jget]
    · simp [jget, hp, ih]

theorem mem_jvalues_of_jget {β : Type} {m : JsMap β} {n : Nat} {v : β}
    (h : jget m n = some v) : v ∈ jvalues m := by
  induction m with
  | nil => simp [jget] at h
  | cons p t ih =>
    by_cases hp : p.1 = n
    · simp [jget, hp] at h
      simp [jvalues, h]
    · simp [jget, hp] at h
      simp [jvalues]
      right
      simpa [jvalues] using ih h

/-- C1: after an update that recomputes personal bests
(`recomputeFromLaps`), every ledger entry with `valid == true` and
`lapTimeMs > 0` has `isBest` true exactly when its lap time equals the
minimum lap time over all ledger entries with `valid == true` and
`lapTimeMs > 0` (`qualTimes`), and its `deltaMs` equals its own lap time
minus that minimum and is `≥ 0` (zero exactly for a best lap); entries
failing the valid/positive-time condition are excluded from the minimum
by construction of `qualTimes`. -/
theorem C1_recompute_bests (s : ServerState) (n t : Nat) (e : LapEntry)
    (hget : jget s.lapsByNumber n = some e)
    (hv : e.valid = true) (ht : e.lapTimeMs = some t) (hpos : 0 < t) :
    ∃ m, (qualTimes s.lapsByNumber).min? = some m ∧ m ≤ t ∧
      (recomputeFromLaps s).lapsState.bestLapTimeMs = some m ∧
      jget (recomputeFromLaps s).lapsByNumber n =
        some { e with
          isBest := decide (t = m)
          deltaMs := some ((t : Int) - (m : Int)) } ∧
      0 ≤ (t : Int) - (m : Int) := by
  have hq : lapQualifies e = true := by
    simp [lapQualifies, hv, ht, hpos]
  have hmem : t ∈ qualTimes s.lapsByNumber := by
    unfold qualTimes
    refine List.mem_filterMap.mpr ⟨e, ?_, ht⟩
    exact List.mem_filter.mpr ⟨mem_jvalues_of_jget hget, hq⟩
  obtain ⟨m, hmin, hle⟩ := min?_le_of_mem hmem
  have hbest : (scanBests s.lapsByNumber).bestLapTimeMs = some m := by
    rw [scanBests_lap_eq_min, hmin]
  refine ⟨m, hmin, hle, ?_, ?_, ?_⟩
  · simp [recomputeFromLaps, hbest]
  · unfold recomputeFromLaps
    simp only [hbest]
    have := jget_map_snd s.lapsByNumber
      (fun _ v => applyBest (scanBests s.lapsByNumber).bestLapTimeMs v) n
    simp only [hbest] at this
    simp only [this, hget, Option.map_some]
    unfold applyBest
    simp [hv, ht, hpos]
    by_cases hm : t = m <;> simp [hm]
  · have : (m : Int) ≤ (t : Int) := by exact_mod_cast hle
    omega

/-- A minimal valid ledger entry used by concrete instantiations. -/
def plainEntry (n t : Nat) : LapEntry :=
  { lapNumber := n, lapTimeMs := some t, deltaMs := none, valid := true
    isBest := false, sector1TimeMs := none, sector2TimeMs := none
    sector3TimeMs := none, tyreActualCompound := none
    tyreVisualCompound := none, tyresAgeLaps := none, pitStatus := 0
    pitLaneTimeMs := none, numPitStops := 0 }

/-- A concrete state with a two-lap ledger. -/
def c1State : ServerState :=
  { initialState with
    lapsByNumber := [(1, plainEntry 1 100000), (2, plainEntry 2 90000)] }

theorem C1_recompute_bests_witness :
    ∃ m, (qualTimes c1State.lapsByNumber).min? = some m ∧ m ≤ 100000 ∧
      (recomputeFromLaps c1State).lapsState.bestLapTimeMs = some m ∧
      jget (recomputeFromLaps c1State).lapsByNumber 1 =
        some { plainEntry 1 100000 with
          isBest := decide (100000 = m)
          deltaMs := some ((100000 : Int) - (m : Int)) } ∧
      0 ≤ (100000 : Int) - (m : Int) :=
  C1_recompute_bests c1State 1 100000 (plainEntry 1 100000)
    (by decide) (by decide) (by decide) (by decide)

/-- A 14-byte session-history lap line whose sector-1 sub-minute part is
the sentinel 65535 (bytes 4–5) with minutes part 0, and lap time 115536. -/
def c2Buf : List Nat := [80, 195, 1, 0, 255, 255, 0, 0, 0, 0, 0, 0, 0, 1]

/-- C2 counterexample: the claim says a two-part field with sub-minute
part 65535 decodes to absent wherever it is decoded, session-history
sector times included.  The session-history decoder has no sentinel
handling: on `c2Buf` it decodes sector 1 as `some 65535`, not absent. -/
theorem C2_hist_sentinel_counterexample :
    parseLapHistoryEntry c2Buf 0 =
      Except.ok
        { lapTimeMs := some 115536, sector1TimeMs := some 65535
          sector2TimeMs := none, sector3TimeMs := none, validFlags := 1 } ∧
    histSectorDecode 65535 0 = some 65535 ∧ some 65535 ≠ (none : Option Nat) := by
  refine ⟨by rfl, by rfl, by decide⟩

/-- C2 (amended): the live-feed decoder `decodeMinutesMs` (used for lap
sector times and both delta fields) decodes to absent exactly when a
part carries its sentinel (sub-minute 65535 or minutes 255) or both
parts are zero, and otherwise to `minutes*60000 + subMinute`, so
`{minutes=1, subpart=500}` gives 60500; the session-history sector
decoder `histSectorDecode`, however, decodes to absent only when both
parts are zero and applies no sentinel handling. -/
theorem C2_two_part_decoding (ms mn : Nat) :
    decodeMinutesMs ms mn =
      (if ms = 65535 ∨ mn = 255 then none
       else if ms = 0 ∧ mn = 0 then none
       else some (mn * 60000 + ms)) ∧
    histSectorDecode ms mn =
      (if ms = 0 ∧ mn = 0 then none else some (mn * 60000 + ms)) ∧
    decodeMinutesMs 500 1 = some 60500 ∧
    decodeMinutesMs 65535 mn = none ∧
    decodeMinutesMs 0 0 = none := by
  refine ⟨?_, ?_, by decide, by simp [decodeMinutesMs], by decide⟩
  · unfold decodeMinutesMs
    split
    · rfl
    · split
      · rfl
      · congr 1
        omega
  · unfold histSectorDecode
    by_cases h : ms = 0 ∧ mn = 0
    · simp [h]
    · have h' : ms ≠ 0 ∨ mn ≠ 0 := by tauto
      simp only [h, if_false, h', if_true]
      congr 1
      omega

/-- C3: the record decoders are claimed never to throw, returning a
"too short" result on any undersized buffer.  `parseCarDamageForCar`
length-checks only `min(46, floor((len-29)/22))` bytes but then reads a
full 46-byte record: on a 74-byte packet (29-byte header + 45 payload
bytes) the guard passes (`needed = 2`) and the final byte read at
offset 74 is out of range, which in Node throws `ERR_OUT_OF_RANGE`. -/
theorem C3_damage_parse_throws :
    parseCarDamageForCar (List.replicate 74 0) HEADER_SIZE = Except.error () ∧
    (List.replicate 74 0).length < HEADER_SIZE + CAR_DAMAGE_DATA_SIZE := by
  refine ⟨by rfl, by decide⟩

/-! ## C4: session-epoch reset -/

/-- The session UID a packet carries. -/
def Packet.uid (p : Packet) : Nat := (Packet.header p).sessionUID

theorem maybeReset_of_ne {s : ServerState} {h : Header}
    (hne : s.playerState.sessionUID ≠ some h.sessionUID) :
    maybeReset s h = resetSessionState h.sessionUID s := by
  simp [maybeReset, hne]

theorem maybeReset_reset (s : ServerState) (h : Header) :
    maybeReset (resetSessionState h.sessionUID s) h =
      resetSessionState h.sessionUID s := by
  simp [maybeReset, resetSessionState]

/-- C4: whenever a handled packet's session UID differs from the tracked
one (or none is tracked), the handler behaves exactly as if run on the
fully reset state — the reset state has every session-scoped cache (the
per-car caches, the lap ledger, the tyre-at-lap-start and pit-by-lap
tables, the pit stint trackers, the session-history table, and the
session-wide best trackers) cleared to empty — and in particular a
session-metadata packet with a new identifier leaves the previously
non-empty ledger and pit tables empty after its own payload is applied. -/
theorem C4_epoch_reset (s : ServerState) (p : Packet)
    (hne : s.playerState.sessionUID ≠ some (Packet.uid p)) :
    applyPacket s p = applyPacket (resetSessionState (Packet.uid p) s) p ∧
    (let r := resetSessionState (Packet.uid p) s
     r.lapsByNumber = [] ∧ r.tyreByLapStart = [] ∧
     r.pitLaneTimeByLap = [] ∧ r.pitLaneStatusByLap = [] ∧
     r.pitLaneStintByIndex = [] ∧ r.sessionHistoryByCarIndex = [] ∧
     r.participantsNameByIndex = [] ∧ r.participantsTeamIdByIndex = [] ∧
     r.participantsColorByIndex = [] ∧ r.carStatusByIndex = [] ∧
     r.carTelemetryByIndex = [] ∧ r.carDamageByIndex = [] ∧
     r.lapDataByIndex = [] ∧ r.sectorCacheByIndex = [] ∧
     r.raceBestLapTimeMs = none ∧ r.raceBestSector1TimeMs = none ∧
     r.raceBestSector2TimeMs = none ∧ r.raceBestSector3TimeMs = none ∧
     r.playerState.pitLaneActive = false ∧ r.playerState.pitLaneStartLapNum = none) ∧
    (match p with
     | .session _ _ =>
       (applyPacket s p).lapsByNumber = [] ∧
       (applyPacket s p).pitLaneTimeByLap = [] ∧
       (applyPacket s p).pitLaneStatusByLap = []
     | _ => True) := by
  refine ⟨?_, by simp [resetSessionState], ?_⟩
  · cases p with
    | session h pay =>
      have hne' : s.playerState.sessionUID ≠ some h.sessionUID := hne
      show handleSessionPacket s h pay =
        handleSessionPacket (resetSessionState h.sessionUID s) h pay
      simp only [handleSessionPacket]
      rw [maybeReset_of_ne hne', maybeReset_reset]
    | participants h n es =>
      have hne' : s.playerState.sessionUID ≠ some h.sessionUID := hne
      show handleParticipantsPacket s h n es =
        handleParticipantsPacket (resetSessionState h.sessionUID s) h n es
      simp only [handleParticipantsPacket]
      rw [maybeReset_of_ne hne', maybeReset_reset]
    | sessionHistory h pay =>
      have hne' : s.playerState.sessionUID ≠ some h.sessionUID := hne
      show handleSessionHistoryPacket s h pay =
        handleSessionHistoryPacket (resetSessionState h.sessionUID s) h pay
      simp only [handleSessionHistoryPacket]
      rw [maybeReset_of_ne hne', maybeReset_reset]
    | lapData h cars =>
      have hne' : s.playerState.sessionUID ≠ some h.sessionUID := hne
      show handleLapDataPacket s h cars =
        handleLapDataPacket (resetSessionState h.sessionUID s) h cars
      have hst : lapDataStage1 s h cars =
          lapDataStage1 (resetSessionState h.sessionUID s) h cars := by
        simp only [lapDataStage1]
        rw [maybeReset_of_ne hne', maybeReset_reset]
      simp only [handleLapDataPacket, hst]
    | carTelemetry h cars =>
      have hne' : s.playerState.sessionUID ≠ some h.sessionUID := hne
      show handleCarTelemetryPacket s h cars =
        handleCarTelemetryPacket (resetSessionState h.sessionUID s) h cars
      simp only [handleCarTelemetryPacket]
      rw [maybeReset_of_ne hne', maybeReset_reset]
    | carStatus h cars =>
      have hne' : s.playerState.sessionUID ≠ some h.sessionUID := hne
      show handleCarStatusPacket s h cars =
        handleCarStatusPacket (resetSessionState h.sessionUID s) h cars
      simp only [handleCarStatusPacket]
      rw [maybeReset_of_ne hne', maybeReset_reset]
    | carDamage h cars =>
      have hne' : s.playerState.sessionUID ≠ some h.sessionUID := hne
      show handleCarDamagePacket s h cars =
        handleCarDamagePacket (resetSessionState h.sessionUID s) h cars
      simp only [handleCarDamagePacket]
      rw [maybeReset_of_ne hne', maybeReset_reset]
  · cases p with
    | session h pay =>
      have hne' : s.playerState.sessionUID ≠ some h.sessionUID := hne
      show (handleSessionPacket s h pay).lapsByNumber = [] ∧
        (handleSessionPacket s h pay).pitLaneTimeByLap = [] ∧
        (handleSessionPacket s h pay).pitLaneStatusByLap = []
      simp only [handleSessionPacket]
      rw [maybeReset_of_ne hne']
      cases pay <;> simp [resetSessionState]
    | participants h n es => trivial
    | sessionHistory h pay => trivial
    | lapData h cars => trivial
    | carTelemetry h cars => trivial
    | carStatus h cars => trivial
    | carDamage h cars => trivial

theorem C4_epoch_reset_witness :
    applyPacket c1State (Packet.session ⟨99, 0⟩ none) =
      applyPacket (resetSessionState 99 c1State) (Packet.session ⟨99, 0⟩ none) ∧
    (let r := resetSessionState 99 c1State
     r.lapsByNumber = [] ∧ r.tyreByLapStart = [] ∧
     r.pitLaneTimeByLap = [] ∧ r.pitLaneStatusByLap = [] ∧
     r.pitLaneStintByIndex = [] ∧ r.sessionHistoryByCarIndex = [] ∧
     r.participantsNameByIndex = [] ∧ r.participantsTeamIdByIndex = [] ∧
     r.participantsColorByIndex = [] ∧ r.carStatusByIndex = [] ∧
     r.carTelemetryByIndex = [] ∧ r.carDamageByIndex = [] ∧
     r.lapDataByIndex = [] ∧ r.sectorCacheByIndex = [] ∧
     r.raceBestLapTimeMs = none ∧ r.raceBestSector1TimeMs = none ∧
     r.raceBestSector2TimeMs = none ∧ r.raceBestSector3TimeMs = none ∧
     r.playerState.pitLaneActive = false ∧ r.playerState.pitLaneStartLapNum = none) ∧
    (match Packet.session (⟨99, 0⟩ : Header) none with
     | .session _ _ =>
       (applyPacket c1State (Packet.session ⟨99, 0⟩ none)).lapsByNumber = [] ∧
       (applyPacket c1State (Packet.session ⟨99, 0⟩ none)).pitLaneTimeByLap = [] ∧
       (applyPacket c1State (Packet.session ⟨99, 0⟩ none)).pitLaneStatusByLap = []
     | _ => True) :=
  C4_epoch_reset c1State (Packet.session ⟨99, 0⟩ none) (by decide)

/-! ## Step lemmas about the player section of the lap-data handler -/

@[simp] theorem lapTimeMs_applyBest (b : Option Nat) (l : LapEntry) :
    (applyBest b l).lapTimeMs = l.lapTimeMs := rfl

@[simp] theorem valid_applyBest (b : Option Nat) (l : LapEntry) :
    (applyBest b l).valid = l.valid := rfl

@[simp] theorem lapQualifies_applyBest (b : Option Nat) (l : LapEntry) :
    lapQualifies (applyBest b l) = lapQualifies l := rfl

/-- Keys plus recompute-stable fields of a ledger. -/
def coreMap (m : JsMap LapEntry) :
    List (Nat ×
      (Nat × Option Nat × Bool × Option Nat × Option Nat × Option Nat ×
        Option Nat × Option Nat × Option Nat × Nat × Option Nat × Nat)) :=
  m.map (fun q => (q.1, q.2.core))

theorem jvalues_map {β : Type} (m : JsMap β) (f : β → β) :
    jvalues (m.map (fun q => (q.1, f q.2))) = (jvalues m).map f := by
  induction m with
  | nil => rfl
  | cons p t ih =>
    simp only [jvalues, List.map_cons] at ih ⊢
    rw [ih]

theorem qualTimes_map_applyBest (m : JsMap LapEntry) (b : Option Nat) :
    qualTimes (m.map (fun q => (q.1, applyBest b q.2))) = qualTimes m := by
  unfold qualTimes
  rw [jvalues_map]
  induction jvalues m with
  | nil => rfl
  | cons v t ih =>
    by_cases hq : lapQualifies v
    · rw [List.map_cons, List.filter_cons, List.filter_cons]
      simp only [lapQualifies_applyBest, hq, if_true]
      rw [List.filterMap_cons, List.filterMap_cons]
      simp only [lapTimeMs_applyBest]
      cases v.lapTimeMs <;> simp [ih]
    · rw [List.map_cons, List.filter_cons, List.filter_cons]
      simp only [lapQualifies_applyBest, hq]
      simpa using ih

theorem recompute_ledger (s : ServerState) :
    (recomputeFromLaps s).lapsByNumber =
      s.lapsByNumber.map
        (fun q => (q.1, applyBest (scanBests s.lapsByNumber).bestLapTimeMs q.2)) := rfl

theorem recompute_coreMap (s : ServerState) :
    coreMap (recomputeFromLaps s).lapsByNumber = coreMap s.lapsByNumber := by
  rw [recompute_ledger]
  unfold coreMap
  rw [List.map_map]
  rfl

theorem recompute_qualTimes (s : ServerState) :
    qualTimes (recomputeFromLaps s).lapsByNumber = qualTimes s.lapsByNumber := by
  rw [recompute_ledger, qualTimes_map_applyBest]

theorem recompute_best_min (s : ServerState) :
    (recomputeFromLaps s).lapsState.bestLapTimeMs =
      (qualTimes s.lapsByNumber).min? := by
  simp [recomputeFromLaps, scanBests_lap_eq_min]

theorem recompute_best_self (s : ServerState) :
    (recomputeFromLaps s).lapsState.bestLapTimeMs =
      (qualTimes (recomputeFromLaps s).lapsByNumber).min? := by
  rw [recompute_best_min, recompute_qualTimes]

/-- Fields of the state untouched by `recomputeFromLaps`. -/
theorem recompute_untouched (s : ServerState) :
    (recomputeFromLaps s).pitLaneTimeByLap = s.pitLaneTimeByLap ∧
    (recomputeFromLaps s).pitLaneStatusByLap = s.pitLaneStatusByLap ∧
    (recomputeFromLaps s).tyreByLapStart = s.tyreByLapStart ∧
    (recomputeFromLaps s).playerState = s.playerState ∧
    (recomputeFromLaps s).lapsState.liveLapTimeMs = s.lapsState.liveLapTimeMs ∧
    (recomputeFromLaps s).sessionHistoryByCarIndex = s.sessionHistoryByCarIndex ∧
    (recomputeFromLaps s).lapsState.sessionKind = s.lapsState.sessionKind := by
  refine ⟨rfl, rfl, rfl, rfl, rfl, rfl, rfl⟩

theorem setPenalties_proj (s : ServerState) (lap : LapRec) :
    (setPenalties s lap).lapsByNumber = s.lapsByNumber ∧
    (setPenalties s lap).pitLaneTimeByLap = s.pitLaneTimeByLap ∧
    (setPenalties s lap).pitLaneStatusByLap = s.pitLaneStatusByLap ∧
    (setPenalties s lap).tyreByLapStart = s.tyreByLapStart ∧
    (setPenalties s lap).playerState = s.playerState ∧
    (setPenalties s lap).lapsState.bestLapTimeMs = s.lapsState.bestLapTimeMs ∧
    (setPenalties s lap).lapsState.sessionKind = s.lapsState.sessionKind ∧
    (setPenalties s lap).sessionHistoryByCarIndex = s.sessionHistoryByCarIndex := by
  refine ⟨rfl, rfl, rfl, rfl, rfl, rfl, rfl, rfl⟩

theorem tyreStep_proj (s : ServerState) (cur : Nat) :
    (tyreStep s cur).lapsByNumber = s.lapsByNumber ∧
    (tyreStep s cur).pitLaneTimeByLap = s.pitLaneTimeByLap ∧
    (tyreStep s cur).pitLaneStatusByLap = s.pitLaneStatusByLap ∧
    (tyreStep s cur).playerState = s.playerState ∧
    (tyreStep s cur).lapsState = s.lapsState ∧
    (tyreStep s cur).sessionHistoryByCarIndex = s.sessionHistoryByCarIndex := by
  unfold tyreStep
  split <;> exact ⟨rfl, rfl, rfl, rfl, rfl, rfl⟩

theorem tyreStep_not_has (s : ServerState) (cur : Nat)
    (h : jhas s.tyreByLapStart cur = false) :
    (tyreStep s cur).tyreByLapStart =
      jset s.tyreByLapStart cur
        { tyreActualCompound := s.playerState.currentTyreActualCompound
          tyreVisualCompound := s.playerState.currentTyreVisualCompound
          tyresAgeLaps := s.playerState.currentTyresAgeLaps } := by
  unfold tyreStep
  simp [h]

theorem playerPitStep_timer0_inactive (s : ServerState) (lap : LapRec)
    (ht : ¬ lap.pitLaneTimerActive = 1) (ha : s.playerState.pitLaneActive = false) :
    playerPitStep s lap = s := by
  unfold playerPitStep
  simp [ht, ha]

theorem liveBestS1_proj (ls : LapsState) (lap : LapRec) :
    (liveBestS1 ls lap).bestLapTimeMs = ls.bestLapTimeMs ∧
    (liveBestS1 ls lap).sessionKind = ls.sessionKind ∧
    (liveBestS1 ls lap).liveLapTimeMs = ls.liveLapTimeMs := by
  unfold liveBestS1
  refine ⟨?_, ?_, ?_⟩ <;>
    (split
     · split <;> first | rfl | (split <;> rfl)
     · rfl)

theorem liveBestS2_proj (ls : LapsState) (lap : LapRec) :
    (liveBestS2 ls lap).bestLapTimeMs = ls.bestLapTimeMs ∧
    (liveBestS2 ls lap).sessionKind = ls.sessionKind ∧
    (liveBestS2 ls lap).liveLapTimeMs = ls.liveLapTimeMs := by
  unfold liveBestS2
  refine ⟨?_, ?_, ?_⟩ <;>
    (split
     · split <;> first | rfl | (split <;> rfl)
     · rfl)

theorem liveBestSectors_proj (ls : LapsState) (lap : LapRec) :
    (liveBestSectors ls lap).bestLapTimeMs = ls.bestLapTimeMs ∧
    (liveBestSectors ls lap).sessionKind = ls.sessionKind ∧
    (liveBestSectors ls lap).liveLapTimeMs = ls.liveLapTimeMs := by
  unfold liveBestSectors
  obtain ⟨a1, a2, a3⟩ := liveBestS1_proj ls lap
  obtain ⟨b1, b2, b3⟩ := liveBestS2_proj (liveBestS1 ls lap) lap
  exact ⟨b1.trans a1, b2.trans a2, b3.trans a3⟩

theorem playerStintAccum_open (ps : PlayerState) (lap : LapRec)
    (ha : ps.pitLaneActive = false) :
    (playerStintAccum ps lap).pitLaneActive = true ∧
    (playerStintAccum ps lap).pitLaneStartLapNum = some lap.currentLapNum ∧
    (playerStintAccum ps lap).currentLapNum = ps.currentLapNum := by
  unfold playerStintAccum
  simp only [ha, Bool.false_eq_true, not_false_iff, if_true]
  refine ⟨?_, ?_, ?_⟩ <;>
    (dsimp only
     split <;> (split <;> rfl))

theorem playerStintAccum_currentLapNum (ps : PlayerState) (lap : LapRec) :
    (playerStintAccum ps lap).currentLapNum = ps.currentLapNum := by
  unfold playerStintAccum
  dsimp only
  split <;> (split <;> (split <;> rfl))

theorem playerPitStep_timer1 (s : ServerState) (lap : LapRec)
    (ht : lap.pitLaneTimerActive = 1) :
    playerPitStep s lap = { s with playerState := playerStintAccum s.playerState lap } := by
  unfold playerPitStep
  simp [ht]

theorem playerSectorStep_proj (s : ServerState) (lap : LapRec) :
    (playerSectorStep s lap).lapsByNumber = s.lapsByNumber ∧
    (playerSectorStep s lap).pitLaneTimeByLap = s.pitLaneTimeByLap ∧
    (playerSectorStep s lap).pitLaneStatusByLap = s.pitLaneStatusByLap ∧
    (playerSectorStep s lap).tyreByLapStart = s.tyreByLapStart ∧
    (playerSectorStep s lap).lapsState = s.lapsState ∧
    (playerSectorStep s lap).sessionHistoryByCarIndex = s.sessionHistoryByCarIndex ∧
    (playerSectorStep s lap).playerState.currentLapNum = s.playerState.currentLapNum ∧
    (playerSectorStep s lap).playerState.pitLaneActive = s.playerState.pitLaneActive ∧
    (playerSectorStep s lap).playerState.pitLaneStartLapNum = s.playerState.pitLaneStartLapNum ∧
    (playerSectorStep s lap).playerState.pitLaneMaxTimeMs = s.playerState.pitLaneMaxTimeMs ∧
    (playerSectorStep s lap).playerState.currentLapInvalid = s.playerState.currentLapInvalid ∧
    (playerSectorStep s lap).playerState.pitLanePitStatusMax = s.playerState.pitLanePitStatusMax := by
  unfold playerSectorStep
  cases lap.sector1TimeMs <;> cases lap.sector2TimeMs <;>
    exact ⟨rfl, rfl, rfl, rfl, rfl, rfl, rfl, rfl, rfl, rfl, rfl, rfl⟩

theorem liveTimeStep_proj (s : ServerState) (lap : LapRec) :
    (liveTimeStep s lap).lapsByNumber = s.lapsByNumber ∧
    (liveTimeStep s lap).pitLaneTimeByLap = s.pitLaneTimeByLap ∧
    (liveTimeStep s lap).pitLaneStatusByLap = s.pitLaneStatusByLap ∧
    (liveTimeStep s lap).tyreByLapStart = s.tyreByLapStart ∧
    (liveTimeStep s lap).playerState = s.playerState ∧
    (liveTimeStep s lap).lapsState.bestLapTimeMs = s.lapsState.bestLapTimeMs ∧
    (liveTimeStep s lap).lapsState.sessionKind = s.lapsState.sessionKind ∧
    (liveTimeStep s lap).lapsState.liveLapTimeMs = lap.currentLapTimeInMS ∧
    (liveTimeStep s lap).sessionHistoryByCarIndex = s.sessionHistoryByCarIndex := by
  refine ⟨rfl, rfl, rfl, rfl, rfl, rfl, rfl, rfl, rfl⟩

theorem currentLapStep_proj (s : ServerState) (lap : LapRec) :
    (currentLapStep s lap).lapsByNumber = s.lapsByNumber ∧
    (currentLapStep s lap).pitLaneTimeByLap = s.pitLaneTimeByLap ∧
    (currentLapStep s lap).pitLaneStatusByLap = s.pitLaneStatusByLap ∧
    (currentLapStep s lap).tyreByLapStart = s.tyreByLapStart ∧
    (currentLapStep s lap).playerState = s.playerState ∧
    (currentLapStep s lap).lapsState.bestLapTimeMs = s.lapsState.bestLapTimeMs ∧
    (currentLapStep s lap).lapsState.sessionKind = s.lapsState.sessionKind ∧
    (currentLapStep s lap).lapsState.liveLapTimeMs = s.lapsState.liveLapTimeMs ∧
    (currentLapStep s lap).sessionHistoryByCarIndex = s.sessionHistoryByCarIndex := by
  refine ⟨rfl, rfl, rfl, rfl, rfl, rfl, rfl, rfl, rfl⟩

theorem bumpPlayerLap_proj (s : ServerState) (lap : LapRec) :
    (bumpPlayerLap s lap).lapsByNumber = s.lapsByNumber ∧
    (bumpPlayerLap s lap).pitLaneTimeByLap = s.pitLaneTimeByLap ∧
    (bumpPlayerLap s lap).pitLaneStatusByLap = s.pitLaneStatusByLap ∧
    (bumpPlayerLap s lap).tyreByLapStart = s.tyreByLapStart ∧
    (bumpPlayerLap s lap).lapsState = s.lapsState ∧
    (bumpPlayerLap s lap).playerState.pitLaneActive = s.playerState.pitLaneActive ∧
    (bumpPlayerLap s lap).playerState.pitLaneStartLapNum = s.playerState.pitLaneStartLapNum ∧
    (bumpPlayerLap s lap).playerState.pitLaneMaxTimeMs = s.playerState.pitLaneMaxTimeMs ∧
    (bumpPlayerLap s lap).playerState.pitLanePitStatusMax = s.playerState.pitLanePitStatusMax := by
  refine ⟨rfl, rfl, rfl, rfl, rfl, rfl, rfl, rfl, rfl⟩

theorem liveDeltaStep_proj (s : ServerState) :
    (liveDeltaStep s).lapsByNumber = s.lapsByNumber ∧
    (liveDeltaStep s).pitLaneTimeByLap = s.pitLaneTimeByLap ∧
    (liveDeltaStep s).pitLaneStatusByLap = s.pitLaneStatusByLap ∧
    (liveDeltaStep s).tyreByLapStart = s.tyreByLapStart ∧
    (liveDeltaStep s).playerState = s.playerState ∧
    (liveDeltaStep s).lapsState.bestLapTimeMs = s.lapsState.bestLapTimeMs ∧
    (liveDeltaStep s).lapsState.liveLapTimeMs = s.lapsState.liveLapTimeMs := by
  refine ⟨rfl, rfl, rfl, rfl, rfl, rfl, rfl⟩

/-- `liveBestStep` either recomputes (invalid live lap outside races) or
touches only the two live best-sector fields. -/
theorem liveBestStep_cases (s : ServerState) (lap : LapRec) :
    liveBestStep s lap = recomputeFromLaps s ∨
    ((liveBestStep s lap).lapsByNumber = s.lapsByNumber ∧
     (liveBestStep s lap).pitLaneTimeByLap = s.pitLaneTimeByLap ∧
     (liveBestStep s lap).pitLaneStatusByLap = s.pitLaneStatusByLap ∧
     (liveBestStep s lap).tyreByLapStart = s.tyreByLapStart ∧
     (liveBestStep s lap).playerState = s.playerState ∧
     (liveBestStep s lap).lapsState.bestLapTimeMs = s.lapsState.bestLapTimeMs ∧
     (liveBestStep s lap).lapsState.sessionKind = s.lapsState.sessionKind ∧
     (liveBestStep s lap).lapsState.liveLapTimeMs = s.lapsState.liveLapTimeMs ∧
     (liveBestStep s lap).sessionHistoryByCarIndex = s.sessionHistoryByCarIndex) := by
  unfold liveBestStep
  split
  · right
    obtain ⟨h1, h2, h3⟩ := liveBestSectors_proj s.lapsState lap
    exact ⟨rfl, rfl, rfl, rfl, rfl, h1, h2, h3, rfl⟩
  · dsimp only
    split
    · right
      obtain ⟨h1, h2, h3⟩ := liveBestSectors_proj s.lapsState lap
      exact ⟨rfl, rfl, rfl, rfl, rfl, h1, h2, h3, rfl⟩
    · left
      rfl

theorem carLoopOne_proj (s : ServerState) (i : Nat) (lap : LapRec) :
    (carLoopOne s i lap).lapsByNumber = s.lapsByNumber ∧
    (carLoopOne s i lap).pitLaneTimeByLap = s.pitLaneTimeByLap ∧
    (carLoopOne s i lap).pitLaneStatusByLap = s.pitLaneStatusByLap ∧
    (carLoopOne s i lap).tyreByLapStart = s.tyreByLapStart ∧
    (carLoopOne s i lap).playerState = s.playerState ∧
    (carLoopOne s i lap).lapsState = s.lapsState ∧
    (carLoopOne s i lap).sessionHistoryByCarIndex = s.sessionHistoryByCarIndex := by
  exact ⟨rfl, rfl, rfl, rfl, rfl, rfl, rfl⟩

theorem carLoop_fold_proj (l : List (Nat × Option LapRec)) (s : ServerState) :
    (l.foldl carLoopStep s).lapsByNumber = s.lapsByNumber ∧
    (l.foldl carLoopStep s).pitLaneTimeByLap = s.pitLaneTimeByLap ∧
    (l.foldl carLoopStep s).pitLaneStatusByLap = s.pitLaneStatusByLap ∧
    (l.foldl carLoopStep s).tyreByLapStart = s.tyreByLapStart ∧
    (l.foldl carLoopStep s).playerState = s.playerState ∧
    (l.foldl carLoopStep s).lapsState = s.lapsState ∧
    (l.foldl carLoopStep s).sessionHistoryByCarIndex = s.sessionHistoryByCarIndex := by
  induction l generalizing s with
  | nil => exact ⟨rfl, rfl, rfl, rfl, rfl, rfl, rfl⟩
  | cons q t ih =>
    have hstep :
        (carLoopStep s q).lapsByNumber = s.lapsByNumber ∧
        (carLoopStep s q).pitLaneTimeByLap = s.pitLaneTimeByLap ∧
        (carLoopStep s q).pitLaneStatusByLap = s.pitLaneStatusByLap ∧
        (carLoopStep s q).tyreByLapStart = s.tyreByLapStart ∧
        (carLoopStep s q).playerState = s.playerState ∧
        (carLoopStep s q).lapsState = s.lapsState ∧
        (carLoopStep s q).sessionHistoryByCarIndex = s.sessionHistoryByCarIndex := by
      unfold carLoopStep
      cases q.2 with
      | none => exact ⟨rfl, rfl, rfl, rfl, rfl, rfl, rfl⟩
      | some lap => exact carLoopOne_proj s q.1 lap
    obtain ⟨i1, i2, i3, i4, i5, i6, i7⟩ := ih (carLoopStep s q)
    obtain ⟨j1, j2, j3, j4, j5, j6, j7⟩ := hstep
    exact ⟨i1.trans j1, i2.trans j2, i3.trans j3, i4.trans j4,
      i5.trans j5, i6.trans j6, i7.trans j7⟩

theorem carLoop_proj (s : ServerState) (cars : List (Option LapRec)) :
    (carLoop s cars).lapsByNumber = s.lapsByNumber ∧
    (carLoop s cars).pitLaneTimeByLap = s.pitLaneTimeByLap ∧
    (carLoop s cars).pitLaneStatusByLap = s.pitLaneStatusByLap ∧
    (carLoop s cars).tyreByLapStart = s.tyreByLapStart ∧
    (carLoop s cars).playerState = s.playerState ∧
    (carLoop s cars).lapsState = s.lapsState ∧
    (carLoop s cars).sessionHistoryByCarIndex = s.sessionHistoryByCarIndex :=
  carLoop_fold_proj cars.enum s

theorem raceTableStep_proj (s : ServerState) (pc : Nat) :
    (raceTableStep s pc).lapsByNumber = s.lapsByNumber ∧
    (raceTableStep s pc).pitLaneTimeByLap = s.pitLaneTimeByLap ∧
    (raceTableStep s pc).pitLaneStatusByLap = s.pitLaneStatusByLap ∧
    (raceTableStep s pc).tyreByLapStart = s.tyreByLapStart ∧
    (raceTableStep s pc).playerState = s.playerState ∧
    (raceTableStep s pc).lapsState.bestLapTimeMs = s.lapsState.bestLapTimeMs ∧
    (raceTableStep s pc).lapsState.sessionKind = s.lapsState.sessionKind ∧
    (raceTableStep s pc).lapsState.liveLapTimeMs = s.lapsState.liveLapTimeMs ∧
    (raceTableStep s pc).sessionHistoryByCarIndex = s.sessionHistoryByCarIndex ∧
    (raceTableStep s pc).lapDataByIndex = s.lapDataByIndex := by
  exact ⟨rfl, rfl, rfl, rfl, rfl, rfl, rfl, rfl, rfl, rfl⟩

theorem lapDataStage1_proj (s : ServerState) (h : Header)
    (cars : List (Option LapRec))
    (huid : s.playerState.sessionUID = some h.sessionUID) :
    (lapDataStage1 s h cars).lapsByNumber = s.lapsByNumber ∧
    (lapDataStage1 s h cars).pitLaneTimeByLap = s.pitLaneTimeByLap ∧
    (lapDataStage1 s h cars).pitLaneStatusByLap = s.pitLaneStatusByLap ∧
    (lapDataStage1 s h cars).tyreByLapStart = s.tyreByLapStart ∧
    (lapDataStage1 s h cars).playerState = s.playerState ∧
    (lapDataStage1 s h cars).lapsState.bestLapTimeMs = s.lapsState.bestLapTimeMs ∧
    (lapDataStage1 s h cars).lapsState.sessionKind = s.lapsState.sessionKind ∧
    (lapDataStage1 s h cars).sessionHistoryByCarIndex = s.sessionHistoryByCarIndex := by
  have hmr : maybeReset s h = s := by simp [maybeReset, huid]
  unfold lapDataStage1
  rw [hmr]
  obtain ⟨c1, c2, c3, c4, c5, c6, c7⟩ := carLoop_proj
    { s with lapsState := { s.lapsState with
        isConnected := true, playerCarIndex := some h.playerCarIndex } } cars
  refine ⟨c1.trans rfl, c2.trans rfl, c3.trans rfl, c4.trans rfl,
    c5.trans rfl, ?_, ?_, c7.trans rfl⟩
  · rw [c6]
  · rw [c6]

/-- `finalizeStep` does nothing when no lap-number increment with a
positive completed-lap time is observed. -/
theorem finalizeStep_skip (s : ServerState) (pc : Nat) (lap : LapRec)
    (h : ∀ p, s.playerState.currentLapNum = some p →
      ¬ (p < lap.currentLapNum ∧ 0 < lap.lastLapTimeInMS)) :
    finalizeStep s pc lap = s := by
  unfold finalizeStep
  cases hp : s.playerState.currentLapNum with
  | none => rfl
  | some p => simp [h p hp]

/-- Effect of the post-rewind tail of the player section when the stint
is inactive, no lap finalization can trigger (`cur < p`), no tyre
snapshot exists for the current lap, and the published best lap is
consistent with the ledger. -/
theorem playerTail_rewound (s : ServerState) (pc : Nat) (lap : LapRec) (p : Nat)
    (hpit : s.playerState.pitLaneActive = false)
    (hprev : s.playerState.currentLapNum = some p)
    (hlt : lap.currentLapNum < p)
    (hinv : s.lapsState.bestLapTimeMs = (qualTimes s.lapsByNumber).min?)
    (hhas : jhas s.tyreByLapStart lap.currentLapNum = false) :
    coreMap (playerTail s pc lap).lapsByNumber = coreMap s.lapsByNumber ∧
    (playerTail s pc lap).pitLaneTimeByLap = s.pitLaneTimeByLap ∧
    (playerTail s pc lap).pitLaneStatusByLap = s.pitLaneStatusByLap ∧
    (playerTail s pc lap).tyreByLapStart =
      jset s.tyreByLapStart lap.currentLapNum
        { tyreActualCompound := s.playerState.currentTyreActualCompound
          tyreVisualCompound := s.playerState.currentTyreVisualCompound
          tyresAgeLaps := s.playerState.currentTyresAgeLaps } ∧
    (lap.pitLaneTimerActive = 1 →
      (playerTail s pc lap).playerState.pitLaneActive = true ∧
      (playerTail s pc lap).playerState.pitLaneStartLapNum = some lap.currentLapNum) ∧
    (¬ lap.pitLaneTimerActive = 1 →
      (playerTail s pc lap).playerState.pitLaneActive = false) ∧
    (playerTail s pc lap).lapsState.bestLapTimeMs =
      (qualTimes (playerTail s pc lap).lapsByNumber).min? := by
  unfold playerTail
  dsimp only
  obtain ⟨t1, t2, t3, t4, t5, t6⟩ := tyreStep_proj s lap.currentLapNum
  have ttyre := tyreStep_not_has s lap.currentLapNum hhas
  -- the state after the tyre snapshot
  have a1pit : (tyreStep s lap.currentLapNum).playerState.pitLaneActive = false := by
    rw [t4]; exact hpit
  have a1prev : (tyreStep s lap.currentLapNum).playerState.currentLapNum = some p := by
    rw [t4]; exact hprev
  -- the pit step: both branches
  have hpitStep :
      (playerPitStep (tyreStep s lap.currentLapNum) lap).lapsByNumber =
        (tyreStep s lap.currentLapNum).lapsByNumber ∧
      (playerPitStep (tyreStep s lap.currentLapNum) lap).pitLaneTimeByLap =
        (tyreStep s lap.currentLapNum).pitLaneTimeByLap ∧
      (playerPitStep (tyreStep s lap.currentLapNum) lap).pitLaneStatusByLap =
        (tyreStep s lap.currentLapNum).pitLaneStatusByLap ∧
      (playerPitStep (tyreStep s lap.currentLapNum) lap).tyreByLapStart =
        (tyreStep s lap.currentLapNum).tyreByLapStart ∧
      (playerPitStep (tyreStep s lap.currentLapNum) lap).lapsState =
        (tyreStep s lap.currentLapNum).lapsState ∧
      (playerPitStep (tyreStep s lap.currentLapNum) lap).playerState.currentLapNum = some p ∧
      (lap.pitLaneTimerActive = 1 →
        (playerPitStep (tyreStep s lap.currentLapNum) lap).playerState.pitLaneActive = true ∧
        (playerPitStep (tyreStep s lap.currentLapNum) lap).playerState.pitLaneStartLapNum =
          some lap.currentLapNum) ∧
      (¬ lap.pitLaneTimerActive = 1 →
        (playerPitStep (tyreStep s lap.currentLapNum) lap).playerState.pitLaneActive = false) := by
    by_cases ht : lap.pitLaneTimerActive = 1
    · rw [playerPitStep_timer1 _ _ ht]
      obtain ⟨o1, o2, o3⟩ := playerStintAccum_open
        (tyreStep s lap.currentLapNum).playerState lap a1pit
      exact ⟨rfl, rfl, rfl, rfl, rfl, by simpa [o3] using a1prev,
        fun _ => ⟨o1, o2⟩, fun hc => absurd ht hc⟩
    · rw [playerPitStep_timer0_inactive _ _ ht a1pit]
      exact ⟨rfl, rfl, rfl, rfl, rfl, a1prev,
        fun hc => absurd hc ht, fun _ => a1pit⟩
  obtain ⟨p1, p2, p3, p4, p5, p6, p7, p8⟩ := hpitStep
  set a2 := playerPitStep (tyreStep s lap.currentLapNum) lap with ha2
  obtain ⟨q1, q2, q3, q4, q5, q6, q7, q8, q9, q10, q11, q12⟩ := playerSectorStep_proj a2 lap
  set a3 := playerSectorStep a2 lap with ha3
  obtain ⟨r1, r2, r3, r4, r5, r6, r7, r8, r9⟩ := liveTimeStep_proj a3 lap
  set a4 := liveTimeStep a3 lap with ha4
  -- the live best-sector step
  have hinv4 : a4.lapsState.bestLapTimeMs = (qualTimes a4.lapsByNumber).min? := by
    rw [r6, q5, p5, t5, r1, q1, p1, t1]
    exact hinv
  have hlb :
      coreMap (liveBestStep a4 lap).lapsByNumber = coreMap a4.lapsByNumber ∧
      (liveBestStep a4 lap).pitLaneTimeByLap = a4.pitLaneTimeByLap ∧
      (liveBestStep a4 lap).pitLaneStatusByLap = a4.pitLaneStatusByLap ∧
      (liveBestStep a4 lap).tyreByLapStart = a4.tyreByLapStart ∧
      (liveBestStep a4 lap).playerState = a4.playerState ∧
      (liveBestStep a4 lap).lapsState.bestLapTimeMs =
        (qualTimes (liveBestStep a4 lap).lapsByNumber).min? := by
    rcases liveBestStep_cases a4 lap with hre | ⟨b1, b2, b3, b4, b5, b6, _, _, _⟩
    · rw [hre]
      obtain ⟨u1, u2, u3, u4, _, _, _⟩ := recompute_untouched a4
      exact ⟨recompute_coreMap a4, u1, u2, u3, u4, recompute_best_self a4⟩
    · refine ⟨by rw [b1], b2, b3, b4, b5, ?_⟩
      rw [b6, b1]
      exact hinv4
  obtain ⟨l1, l2, l3, l4, l5, l6⟩ := hlb
  set a5 := liveBestStep a4 lap with ha5
  obtain ⟨c1, c2, c3, c4, c5, c6, _, _, _⟩ := currentLapStep_proj a5 lap
  set a6 := currentLapStep a5 lap with ha6
  -- finalization cannot trigger: the observed lap number decreased
  have hskip : finalizeStep a6 pc lap = a6 := by
    apply finalizeStep_skip
    intro q hq
    have : a6.playerState.currentLapNum = some p := by
      rw [c5, l5, r5, q7]
      exact p6
    rw [this] at hq
    cases hq
    omega
  rw [hskip]
  obtain ⟨m1, m2, m3, m4, m5, m6, m7, m8, m9⟩ := bumpPlayerLap_proj a6 lap
  set a7 := bumpPlayerLap a6 lap with ha7
  obtain ⟨d1, d2, d3, d4, d5, d6, _⟩ := liveDeltaStep_proj a7
  constructor
  · rw [d1, m1, c1]
    rw [l1]
    rw [r1, q1, p1, t1]
  constructor
  · rw [d2, m2, c2, l2, r2, q2, p2, t2]
  constructor
  · rw [d3, m3, c3, l3, r3, q3, p3, t3]
  constructor
  · rw [d4, m4, c4, l4, r4, q4, p4, ttyre]
  constructor
  · intro ht
    obtain ⟨w1, w2⟩ := p7 ht
    constructor
    · rw [d5, m6, c5, l5, r5, q8]
      exact w1
    · rw [d5, m7, c5, l5, r5, q9]
      exact w2
  constructor
  · intro ht
    rw [d5, m6, c5, l5, r5, q8]
    exact p8 ht
  · rw [d6, m5, c6, d1, m1, c1]
    exact l6

/-- A lap record with every numeric field zero and every optional field
absent; concrete scenarios override the fields they need. -/
def zeroLapRec : LapRec :=
  { lastLapTimeInMS := 0, currentLapTimeInMS := 0, sector1TimeMs := none
    sector2TimeMs := none, sector3TimeMs := none, deltaToRaceLeaderMs := none
    deltaToCarInFrontMs := none, lapDistance := 0, totalDistance := 0
    safetyCarDelta := 0, carPosition := 0, currentLapNum := 0, pitStatus := 0
    numPitStops := 0, sector := 0, currentLapInvalid := 0, penaltiesSec := 0
    totalWarnings := 0, cornerCuttingWarnings := 0
    numUnservedDriveThroughPens := 0, numUnservedStopGoPens := 0
    gridPosition := 0, driverStatus := 0, resultStatus := 0
    pitLaneTimerActive := 0, pitLaneTimeInLaneInMS := 0, pitStopTimerInMS := 0
    pitStopShouldServePen := 0, speedTrapFastestSpeed := 0
    speedTrapFastestLap := 0 }

theorem jhas_eraseFrom_ge {β : Type} (m : JsMap β) (c k : Nat) (h : c ≤ k) :
    jhas (eraseFrom m c) k = false := by
  unfold jhas
  rw [jget_eraseFrom_ge m c k h]
  rfl

theorem rewindStep_proj (s : ServerState) (cur : Nat) :
    coreMap (rewindStep s cur).lapsByNumber = coreMap (eraseFrom s.lapsByNumber cur) ∧
    (rewindStep s cur).pitLaneTimeByLap = eraseFrom s.pitLaneTimeByLap cur ∧
    (rewindStep s cur).pitLaneStatusByLap = eraseFrom s.pitLaneStatusByLap cur ∧
    (rewindStep s cur).tyreByLapStart = eraseFrom s.tyreByLapStart cur ∧
    (rewindStep s cur).playerState = { s.playerState with
      pitLaneActive := false
      pitLaneStartLapNum := none
      pitLaneMaxTimeMs := 0
      pitLanePitStatusMax := 0 } ∧
    (rewindStep s cur).lapsState.bestLapTimeMs =
      (qualTimes (rewindStep s cur).lapsByNumber).min? := by
  unfold rewindStep
  dsimp only
  refine ⟨?_, rfl, rfl, rfl, rfl, ?_⟩
  · exact recompute_coreMap _
  · exact recompute_best_self _

/-- C5 counterexample state: the player (slot 0, session 1) finalizes
laps 1–3 with times 100000, 95000 and 90000 ms (lap 3 is the personal
best). -/
def rwState : ServerState :=
  runPackets initialState
    [Packet.lapData ⟨1, 0⟩ [some { zeroLapRec with currentLapNum := 1 }],
     Packet.lapData ⟨1, 0⟩ [some { zeroLapRec with currentLapNum := 2, lastLapTimeInMS := 100000 }],
     Packet.lapData ⟨1, 0⟩ [some { zeroLapRec with currentLapNum := 3, lastLapTimeInMS := 95000 }],
     Packet.lapData ⟨1, 0⟩ [some { zeroLapRec with currentLapNum := 4, lastLapTimeInMS := 90000 }]]

/-- The rewind packet: the current lap number drops from 4 to 3. -/
def rwPkt : Packet := Packet.lapData ⟨1, 0⟩ [some { zeroLapRec with currentLapNum := 3 }]

/-- C5 counterexample: after observing laps 1, 2, 3, 4 and rewinding to
lap 3, the ledger indeed holds no entry with lap number ≥ 3, but the
retained lap-2 entry is not left unchanged: the deleted lap 3 held the
personal best, so the recompute flips lap 2's `isBest` from false to
true and its `deltaMs` from 5000 to 0. -/
theorem C5_counterexample :
    rwState.playerState.currentLapNum = some 4 ∧
    jget (applyPacket rwState rwPkt).lapsByNumber 3 = none ∧
    jget (applyPacket rwState rwPkt).lapsByNumber 4 = none ∧
    (jget rwState.lapsByNumber 2).map (fun e => (e.isBest, e.deltaMs)) =
      some (false, some 5000) ∧
    (jget (applyPacket rwState rwPkt).lapsByNumber 2).map (fun e => (e.isBest, e.deltaMs)) =
      some (true, some 0) ∧
    jget (applyPacket rwState rwPkt).lapsByNumber 2 ≠ jget rwState.lapsByNumber 2 := by
  refine ⟨by rfl, by rfl, by rfl, by rfl, by rfl, by decide⟩

/-- C5 (amended): on a live-lap update for the local player whose
current lap number is smaller than the previously observed one, every
lap-ledger entry, tyre-at-lap-start snapshot and pit-by-lap record with
lap number ≥ the new current lap number is deleted (a fresh tyre
snapshot for the new current lap is then recorded from the current tyre
state), any in-progress pit stint is abandoned (a packet that still has
the pit flag set opens a fresh stint on the new current lap instead),
and bests are recomputed; records with lap number < the new current lap
number are retained with all fields except `isBest`/`deltaMs` unchanged
— those two are recomputed against the surviving entries, and do change
when the deleted laps held the personal best. -/
theorem C5_rewind_truncation (s : ServerState) (h : Header)
    (cars : List (Option LapRec)) (lap : LapRec) (p : Nat)
    (huid : s.playerState.sessionUID = some h.sessionUID)
    (hpc : h.playerCarIndex < NUM_CARS)
    (hlap : jget (lapDataStage1 s h cars).lapDataByIndex h.playerCarIndex = some lap)
    (hprev : s.playerState.currentLapNum = some p)
    (hlt : lap.currentLapNum < p) :
    coreMap (handleLapDataPacket s h cars).lapsByNumber =
      coreMap (eraseFrom s.lapsByNumber lap.currentLapNum) ∧
    (handleLapDataPacket s h cars).pitLaneTimeByLap =
      eraseFrom s.pitLaneTimeByLap lap.currentLapNum ∧
    (handleLapDataPacket s h cars).pitLaneStatusByLap =
      eraseFrom s.pitLaneStatusByLap lap.currentLapNum ∧
    (handleLapDataPacket s h cars).tyreByLapStart =
      jset (eraseFrom s.tyreByLapStart lap.currentLapNum) lap.currentLapNum
        { tyreActualCompound := s.playerState.currentTyreActualCompound
          tyreVisualCompound := s.playerState.currentTyreVisualCompound
          tyresAgeLaps := s.playerState.currentTyresAgeLaps } ∧
    (lap.pitLaneTimerActive = 1 →
      (handleLapDataPacket s h cars).playerState.pitLaneActive = true ∧
      (handleLapDataPacket s h cars).playerState.pitLaneStartLapNum =
        some lap.currentLapNum) ∧
    (¬ lap.pitLaneTimerActive = 1 →
      (handleLapDataPacket s h cars).playerState.pitLaneActive = false) ∧
    (handleLapDataPacket s h cars).lapsState.bestLapTimeMs =
      (qualTimes (handleLapDataPacket s h cars).lapsByNumber).min? := by
  obtain ⟨g1, g2, g3, g4, g5, g6, g7, g8⟩ := lapDataStage1_proj s h cars huid
  obtain ⟨w1, w2, w3, w4, w5, w6, w7, w8, w9, w10⟩ :=
    raceTableStep_proj (lapDataStage1 s h cars) h.playerCarIndex
  have hrun : handleLapDataPacket s h cars =
      playerUpdate (raceTableStep (lapDataStage1 s h cars) h.playerCarIndex)
        h.playerCarIndex lap := by
    unfold handleLapDataPacket
    dsimp only
    rw [if_pos hpc, w10, hlap]
  set sr := raceTableStep (lapDataStage1 s h cars) h.playerCarIndex with hsr
  obtain ⟨e1, e2, e3, e4, e5, e6, e7, e8⟩ := setPenalties_proj sr lap
  have hcond : rewindCond (setPenalties sr lap) lap = true := by
    unfold rewindCond
    rw [e5, w5, g5, hprev]
    simpa using hlt
  have hpu : playerUpdate sr h.playerCarIndex lap =
      playerTail (rewindStep (setPenalties sr lap) lap.currentLapNum)
        h.playerCarIndex lap := by
    unfold playerUpdate
    dsimp only
    rw [hcond]
    simp
  obtain ⟨z1, z2, z3, z4, z5, z6⟩ :=
    rewindStep_proj (setPenalties sr lap) lap.currentLapNum
  set sz := rewindStep (setPenalties sr lap) lap.currentLapNum with hsz
  have hz_pit : sz.playerState.pitLaneActive = false := by rw [z5]
  have hz_prev : sz.playerState.currentLapNum = some p := by
    rw [z5]
    show (setPenalties sr lap).playerState.currentLapNum = some p
    rw [e5, w5, g5]
    exact hprev
  have hz_has : jhas sz.tyreByLapStart lap.currentLapNum = false := by
    rw [z4, e4, w4, g4]
    exact jhas_eraseFrom_ge _ _ _ (Nat.le_refl _)
  obtain ⟨f1, f2, f3, f4, f5, f6, f7⟩ :=
    playerTail_rewound sz h.playerCarIndex lap p hz_pit hz_prev hlt z6 hz_has
  rw [hrun, hpu]
  have hz_tyreA : sz.playerState.currentTyreActualCompound =
      s.playerState.currentTyreActualCompound := by
    rw [z5]
    show (setPenalties sr lap).playerState.currentTyreActualCompound = _
    rw [e5, w5, g5]
  have hz_tyreV : sz.playerState.currentTyreVisualCompound =
      s.playerState.currentTyreVisualCompound := by
    rw [z5]
    show (setPenalties sr lap).playerState.currentTyreVisualCompound = _
    rw [e5, w5, g5]
  have hz_age : sz.playerState.currentTyresAgeLaps =
      s.playerState.currentTyresAgeLaps := by
    rw [z5]
    show (setPenalties sr lap).playerState.currentTyresAgeLaps = _
    rw [e5, w5, g5]
  refine ⟨?_, ?_, ?_, ?_, f5, f6, f7⟩
  · rw [f1, z1, e1, w1, g1]
  · rw [f2, z2, e2, w2, g2]
  · rw [f3, z3, e3, w3, g3]
  · rw [f4, hz_tyreA, hz_tyreV, hz_age, z4, e4, w4, g4]

/-- A state used only to instantiate theorems: session 1 active, player
on lap 4, ledger holding laps 1 and 2, one tyre snapshot and one
pit-by-lap record on lap 4. -/
def c5State : ServerState :=
  { initialState with
    playerState := { initialState.playerState with
      sessionUID := some 1
      currentLapNum := some 4 }
    lapsByNumber := [(1, plainEntry 1 100000), (2, plainEntry 2 90000)]
    tyreByLapStart := [(1, ⟨some 16, some 16, some 0⟩), (4, ⟨some 17, some 17, some 1⟩)]
    pitLaneTimeByLap := [(4, 23000)]
    pitLaneStatusByLap := [(4, 2)] }

theorem C5_rewind_truncation_witness :
    coreMap (handleLapDataPacket c5State ⟨1, 0⟩
        [some { zeroLapRec with currentLapNum := 3 }]).lapsByNumber =
      coreMap (eraseFrom c5State.lapsByNumber 3) ∧
    (handleLapDataPacket c5State ⟨1, 0⟩
        [some { zeroLapRec with currentLapNum := 3 }]).pitLaneTimeByLap =
      eraseFrom c5State.pitLaneTimeByLap 3 ∧
    (handleLapDataPacket c5State ⟨1, 0⟩
        [some { zeroLapRec with currentLapNum := 3 }]).pitLaneStatusByLap =
      eraseFrom c5State.pitLaneStatusByLap 3 ∧
    (handleLapDataPacket c5State ⟨1, 0⟩
        [some { zeroLapRec with currentLapNum := 3 }]).tyreByLapStart =
      jset (eraseFrom c5State.tyreByLapStart 3) 3
        { tyreActualCompound := c5State.playerState.currentTyreActualCompound
          tyreVisualCompound := c5State.playerState.currentTyreVisualCompound
          tyresAgeLaps := c5State.playerState.currentTyresAgeLaps } ∧
    ((zeroLapRec.pitLaneTimerActive : Nat) = 1 →
      (handleLapDataPacket c5State ⟨1, 0⟩
          [some { zeroLapRec with currentLapNum := 3 }]).playerState.pitLaneActive = true ∧
      (handleLapDataPacket c5State ⟨1, 0⟩
          [some { zeroLapRec with currentLapNum := 3 }]).playerState.pitLaneStartLapNum = some 3) ∧
    (¬ (zeroLapRec.pitLaneTimerActive : Nat) = 1 →
      (handleLapDataPacket c5State ⟨1, 0⟩
          [some { zeroLapRec with currentLapNum := 3 }]).playerState.pitLaneActive = false) ∧
    (handleLapDataPacket c5State ⟨1, 0⟩
        [some { zeroLapRec with currentLapNum := 3 }]).lapsState.bestLapTimeMs =
      (qualTimes (handleLapDataPacket c5State ⟨1, 0⟩
        [some { zeroLapRec with currentLapNum := 3 }]).lapsByNumber).min? :=
  C5_rewind_truncation c5State ⟨1, 0⟩
    [some { zeroLapRec with currentLapNum := 3 }]
    { zeroLapRec with currentLapNum := 3 } 4
    (by rfl) (by decide) (by rfl) (by rfl) (by decide)

/-! ## C6: the player pit-lane stint tracker -/

@[simp] theorem pitStatus_applyBest (b : Option Nat) (l : LapEntry) :
    (applyBest b l).pitStatus = l.pitStatus := rfl

@[simp] theorem pitLaneTimeMs_applyBest (b : Option Nat) (l : LapEntry) :
    (applyBest b l).pitLaneTimeMs = l.pitLaneTimeMs := rfl

theorem jget_recompute (s : ServerState) (L : Nat) :
    jget (recomputeFromLaps s).lapsByNumber L =
      (jget s.lapsByNumber L).map
        (applyBest (scanBests s.lapsByNumber).bestLapTimeMs) := by
  rw [recompute_ledger]
  exact jget_map_snd s.lapsByNumber
    (fun _ v => applyBest (scanBests s.lapsByNumber).bestLapTimeMs v) L

theorem ite_max_obs (a t : Nat) : (if 0 < t then max a t else a) = max a t := by
  split
  · rfl
  · have ht : t = 0 := by omega
    subst ht
    exact (Nat.max_zero a).symm

theorem playerStintAccum_open_acc (ps : PlayerState) (lap : LapRec)
    (ha : ps.pitLaneActive = false) :
    (playerStintAccum ps lap).pitLaneMaxTimeMs = lap.pitLaneTimeInLaneInMS ∧
    (playerStintAccum ps lap).pitLanePitStatusMax = lap.pitStatus := by
  unfold playerStintAccum
  simp only [ha, Bool.false_eq_true, not_false_iff, if_true]
  constructor
  · by_cases h2 : 0 < lap.pitStatus <;>
      simp only [h2, if_true, if_false] <;>
      (by_cases h1 : 0 < lap.pitLaneTimeInLaneInMS <;>
        simp only [h1, if_true, if_false] <;> omega)
  · by_cases h2 : 0 < lap.pitStatus <;>
      simp only [h2, if_true, if_false] <;>
      (by_cases h1 : 0 < lap.pitLaneTimeInLaneInMS <;>
        simp only [h1, if_true, if_false] <;> omega)

theorem playerStintAccum_active (ps : PlayerState) (lap : LapRec)
    (ha : ps.pitLaneActive = true) :
    (playerStintAccum ps lap).pitLaneMaxTimeMs =
      max ps.pitLaneMaxTimeMs lap.pitLaneTimeInLaneInMS ∧
    (playerStintAccum ps lap).pitLanePitStatusMax =
      max ps.pitLanePitStatusMax lap.pitStatus ∧
    (playerStintAccum ps lap).pitLaneStartLapNum = ps.pitLaneStartLapNum ∧
    (playerStintAccum ps lap).pitLaneActive = true := by
  unfold playerStintAccum
  simp only [ha, not_true_eq_false, if_false]
  refine ⟨?_, ?_, ?_, ?_⟩ <;>
    (by_cases h2 : 0 < lap.pitStatus <;>
      simp only [h2, if_true, if_false] <;>
      (by_cases h1 : 0 < lap.pitLaneTimeInLaneInMS <;>
        simp only [h1, if_true, if_false] <;> first | omega | rfl | (try exact ha)))

theorem playerPitStep_close (s : ServerState) (lap : LapRec) (L : Nat)
    (ht : ¬ lap.pitLaneTimerActive = 1)
    (ha : s.playerState.pitLaneActive = true)
    (hL : s.playerState.pitLaneStartLapNum = some L)
    (hT : 0 < s.playerState.pitLaneMaxTimeMs) :
    jget (playerPitStep s lap).pitLaneTimeByLap L =
      some s.playerState.pitLaneMaxTimeMs ∧
    jget (playerPitStep s lap).pitLaneStatusByLap L =
      some s.playerState.pitLanePitStatusMax ∧
    (playerPitStep s lap).playerState.pitLaneActive = false ∧
    (playerPitStep s lap).playerState.currentLapNum = s.playerState.currentLapNum ∧
    (playerPitStep s lap).tyreByLapStart = s.tyreByLapStart ∧
    (playerPitStep s lap).sessionHistoryByCarIndex = s.sessionHistoryByCarIndex ∧
    (playerPitStep s lap).lapsState.sessionKind = s.lapsState.sessionKind ∧
    (jhas s.lapsByNumber L = true →
      (∃ e, jget (playerPitStep s lap).lapsByNumber L = some e ∧
        e.pitLaneTimeMs = some s.playerState.pitLaneMaxTimeMs ∧
        e.pitStatus = s.playerState.pitLanePitStatusMax) ∧
      (playerPitStep s lap).lapsState.bestLapTimeMs =
        (qualTimes (playerPitStep s lap).lapsByNumber).min?) ∧
    (jhas s.lapsByNumber L = false →
      (playerPitStep s lap).lapsByNumber = s.lapsByNumber ∧
      (playerPitStep s lap).lapsState.bestLapTimeMs = s.lapsState.bestLapTimeMs) := by
  unfold playerPitStep
  simp only [ht, if_false, ha, if_true]
  rw [hL]
  dsimp only
  rw [if_pos hT]
  cases hget : jget s.lapsByNumber L with
  | none =>
    have hhas : jhas s.lapsByNumber L = false := by
      unfold jhas
      rw [hget]
      rfl
    dsimp only
    refine ⟨jget_jset_self _ _ _, jget_jset_self _ _ _, rfl, rfl, rfl, rfl, rfl,
      ?_, ?_⟩
    · intro hc
      rw [hhas] at hc
      cases hc
    · intro _
      exact ⟨rfl, rfl⟩
  | some entry =>
    have hhas : jhas s.lapsByNumber L = true := by
      unfold jhas
      rw [hget]
      rfl
    dsimp only
    refine ⟨?_, ?_, rfl, rfl, rfl, rfl, rfl, ?_, ?_⟩
    · rw [(recompute_untouched _).1]
      exact jget_jset_self _ _ _
    · rw [(recompute_untouched _).2.1]
      exact jget_jset_self _ _ _
    · intro _
      constructor
      · rw [jget_recompute]
        dsimp only
        rw [jget_jset_self]
        exact ⟨_, rfl, rfl, rfl⟩
      · exact recompute_best_self _
    · intro hc
      rw [hhas] at hc
      cases hc


theorem finalizeStep_bundle (s : ServerState) (pc : Nat) (lap : LapRec) :
    (finalizeStep s pc lap).pitLaneTimeByLap = s.pitLaneTimeByLap ∧
    (finalizeStep s pc lap).pitLaneStatusByLap = s.pitLaneStatusByLap ∧
    (finalizeStep s pc lap).tyreByLapStart = s.tyreByLapStart ∧
    (finalizeStep s pc lap).playerState.pitLaneActive = s.playerState.pitLaneActive ∧
    (finalizeStep s pc lap).playerState.pitLaneStartLapNum = s.playerState.pitLaneStartLapNum ∧
    (finalizeStep s pc lap).playerState.pitLaneMaxTimeMs = s.playerState.pitLaneMaxTimeMs ∧
    (finalizeStep s pc lap).playerState.pitLanePitStatusMax = s.playerState.pitLanePitStatusMax ∧
    (finalizeStep s pc lap).playerState.currentLapNum = s.playerState.currentLapNum ∧
    (finalizeStep s pc lap).lapsState.liveLapTimeMs = s.lapsState.liveLapTimeMs ∧
    (finalizeStep s pc lap = s ∨
     (∃ p e, s.playerState.currentLapNum = some p ∧
        (finalizeStep s pc lap).lapsByNumber =
          (recomputeFromLaps
            { s with lapsByNumber := jset s.lapsByNumber p e }).lapsByNumber ∧
        LapEntry.pitStatus e = (jget s.pitLaneStatusByLap p).getD 0 ∧
        LapEntry.pitLaneTimeMs e = jget s.pitLaneTimeByLap p ∧
        (finalizeStep s pc lap).lapsState.bestLapTimeMs =
          (qualTimes (finalizeStep s pc lap).lapsByNumber).min?)) := by
  unfold finalizeStep
  cases hp : s.playerState.currentLapNum with
  | none => exact ⟨rfl, rfl, rfl, rfl, rfl, rfl, rfl, hp, rfl, Or.inl rfl⟩
  | some p =>
    dsimp only
    by_cases hcond : p < lap.currentLapNum ∧ 0 < lap.lastLapTimeInMS
    · rw [if_pos hcond]
      dsimp only
      refine ⟨rfl, rfl, rfl, rfl, rfl, rfl, rfl, hp, rfl,
        Or.inr ⟨p, _, rfl, rfl, rfl, rfl, ?_⟩⟩
      exact recompute_best_self _
    · rw [if_neg hcond]
      exact ⟨rfl, rfl, rfl, rfl, rfl, rfl, rfl, hp, rfl, Or.inl rfl⟩



/-- Invariant bundle for tracking patched pit fields of the ledger entry
at lap `L` through the rest of the update. -/
def PitFieldsAt (s : ServerState) (L T S : Nat) : Prop :=
  ∃ e, jget s.lapsByNumber L = some e ∧
    e.pitLaneTimeMs = some T ∧ e.pitStatus = S

theorem recompute_pitFields (s : ServerState) (L T S : Nat)
    (hpf : PitFieldsAt s L T S) : PitFieldsAt (recomputeFromLaps s) L T S := by
  obtain ⟨e, he, h1, h2⟩ := hpf
  refine ⟨applyBest (scanBests s.lapsByNumber).bestLapTimeMs e, ?_, ?_, ?_⟩
  · rw [jget_recompute, he]
    rfl
  · simpa using h1
  · simpa using h2

theorem liveBestStep_track (s : ServerState) (lap : LapRec) (L T S : Nat)
    (hpf : PitFieldsAt s L T S)
    (hinv : s.lapsState.bestLapTimeMs = (qualTimes s.lapsByNumber).min?) :
    PitFieldsAt (liveBestStep s lap) L T S ∧
    (liveBestStep s lap).lapsState.bestLapTimeMs =
      (qualTimes (liveBestStep s lap).lapsByNumber).min? ∧
    (liveBestStep s lap).pitLaneTimeByLap = s.pitLaneTimeByLap ∧
    (liveBestStep s lap).pitLaneStatusByLap = s.pitLaneStatusByLap ∧
    (liveBestStep s lap).playerState = s.playerState := by
  rcases liveBestStep_cases s lap with hre | ⟨b1, b2, b3, b4, b5, b6, _, _, _⟩
  · rw [hre]
    obtain ⟨u1, u2, _, u4, _, _, _⟩ := recompute_untouched s
    exact ⟨recompute_pitFields s L T S hpf, recompute_best_self s, u1, u2, u4⟩
  · refine ⟨?_, ?_, b2, b3, b5⟩
    · unfold PitFieldsAt at hpf ⊢
      rw [b1]
      exact hpf
    · rw [b6, b1]
      exact hinv

theorem finalizeStep_track (s : ServerState) (pc : Nat) (lap : LapRec) (L T S : Nat)
    (hT : jget s.pitLaneTimeByLap L = some T)
    (hS : jget s.pitLaneStatusByLap L = some S)
    (hpf : PitFieldsAt s L T S)
    (hinv : s.lapsState.bestLapTimeMs = (qualTimes s.lapsByNumber).min?) :
    PitFieldsAt (finalizeStep s pc lap) L T S ∧
    (finalizeStep s pc lap).lapsState.bestLapTimeMs =
      (qualTimes (finalizeStep s pc lap).lapsByNumber).min? := by
  obtain ⟨f1, f2, _, _, _, _, _, _, _, hcase⟩ := finalizeStep_bundle s pc lap
  rcases hcase with hid | ⟨p, e, hp, hled, heS, heT, hbest⟩
  · rw [hid]
    exact ⟨hpf, hinv⟩
  · have hgl : ∀ n, jget (finalizeStep s pc lap).lapsByNumber n =
        (jget (jset s.lapsByNumber p e) n).map
          (applyBest (scanBests (jset s.lapsByNumber p e)).bestLapTimeMs) := by
      intro n
      rw [hled, jget_recompute]
    constructor
    · by_cases hpL : p = L
      · subst hpL
        refine ⟨applyBest (scanBests (jset s.lapsByNumber p e)).bestLapTimeMs e, ?_, ?_, ?_⟩
        · rw [hgl p, jget_jset_self]
          rfl
        · rw [pitLaneTimeMs_applyBest, heT, hT]
        · rw [pitStatus_applyBest, heS, hS]
          rfl
      · obtain ⟨e0, he0, he1, he2⟩ := hpf
        refine ⟨applyBest (scanBests (jset s.lapsByNumber p e)).bestLapTimeMs e0, ?_, ?_, ?_⟩
        · rw [hgl L, jget_jset_ne _ _ _ _ (fun hc => hpL hc.symm), he0]
          rfl
        · simpa using he1
        · simpa using he2
    · exact hbest

theorem liveBestStep_outer (s : ServerState) (lap : LapRec) :
    (liveBestStep s lap).pitLaneTimeByLap = s.pitLaneTimeByLap ∧
    (liveBestStep s lap).pitLaneStatusByLap = s.pitLaneStatusByLap ∧
    (liveBestStep s lap).playerState = s.playerState ∧
    (liveBestStep s lap).tyreByLapStart = s.tyreByLapStart := by
  rcases liveBestStep_cases s lap with hre | ⟨_, b2, b3, b4, b5, _, _, _, _⟩
  · rw [hre]
    obtain ⟨u1, u2, u3, u4, _, _, _⟩ := recompute_untouched s
    exact ⟨u1, u2, u4, u3⟩
  · exact ⟨b2, b3, b5, b4⟩

/-- C6: the player pit-stint tracker: a packet with the pit timer flag
raised while no stint is active opens a stint on the current lap with
the observed time and status as initial maxima; while a stint is active
the accumulated time and status are running maxima and never decrease;
a packet with the flag lowered while a stint with positive accumulated
time is active closes it, attributing the `(time, status)` pair to the
recorded start lap, and if the ledger holds that lap its entry's pit
fields are patched and bests recomputed. -/
theorem C6_player_pit_stint (s : ServerState) (h : Header)
    (cars : List (Option LapRec)) (lap : LapRec) (L : Nat)
    (huid : s.playerState.sessionUID = some h.sessionUID)
    (hpc : h.playerCarIndex < NUM_CARS)
    (hlap : jget (lapDataStage1 s h cars).lapDataByIndex h.playerCarIndex = some lap)
    (hnorw : ∀ q, s.playerState.currentLapNum = some q → ¬ lap.currentLapNum < q) :
    (s.playerState.pitLaneActive = false → lap.pitLaneTimerActive = 1 →
      (handleLapDataPacket s h cars).playerState.pitLaneActive = true ∧
      (handleLapDataPacket s h cars).playerState.pitLaneStartLapNum =
        some lap.currentLapNum ∧
      (handleLapDataPacket s h cars).playerState.pitLaneMaxTimeMs =
        lap.pitLaneTimeInLaneInMS ∧
      (handleLapDataPacket s h cars).playerState.pitLanePitStatusMax =
        lap.pitStatus) ∧
    (s.playerState.pitLaneActive = true → lap.pitLaneTimerActive = 1 →
      (handleLapDataPacket s h cars).playerState.pitLaneMaxTimeMs =
        max s.playerState.pitLaneMaxTimeMs lap.pitLaneTimeInLaneInMS ∧
      (handleLapDataPacket s h cars).playerState.pitLanePitStatusMax =
        max s.playerState.pitLanePitStatusMax lap.pitStatus ∧
      s.playerState.pitLaneMaxTimeMs ≤
        (handleLapDataPacket s h cars).playerState.pitLaneMaxTimeMs ∧
      s.playerState.pitLanePitStatusMax ≤
        (handleLapDataPacket s h cars).playerState.pitLanePitStatusMax ∧
      (handleLapDataPacket s h cars).playerState.pitLaneStartLapNum =
        s.playerState.pitLaneStartLapNum ∧
      (handleLapDataPacket s h cars).playerState.pitLaneActive = true) ∧
    (s.playerState.pitLaneActive = true → ¬ lap.pitLaneTimerActive = 1 →
      s.playerState.pitLaneStartLapNum = some L →
      0 < s.playerState.pitLaneMaxTimeMs →
      jget (handleLapDataPacket s h cars).pitLaneTimeByLap L =
        some s.playerState.pitLaneMaxTimeMs ∧
      jget (handleLapDataPacket s h cars).pitLaneStatusByLap L =
        some s.playerState.pitLanePitStatusMax ∧
      (handleLapDataPacket s h cars).playerState.pitLaneActive = false ∧
      (jhas s.lapsByNumber L = true →
        (∃ e, jget (handleLapDataPacket s h cars).lapsByNumber L = some e ∧
          e.pitLaneTimeMs = some s.playerState.pitLaneMaxTimeMs ∧
          e.pitStatus = s.playerState.pitLanePitStatusMax) ∧
        (handleLapDataPacket s h cars).lapsState.bestLapTimeMs =
          (qualTimes (handleLapDataPacket s h cars).lapsByNumber).min?)) := by
  obtain ⟨g1, g2, g3, g4, g5, g6, g7, g8⟩ := lapDataStage1_proj s h cars huid
  obtain ⟨w1, w2, w3, w4, w5, w6, w7, w8, w9, w10⟩ :=
    raceTableStep_proj (lapDataStage1 s h cars) h.playerCarIndex
  have hrun : handleLapDataPacket s h cars =
      playerUpdate (raceTableStep (lapDataStage1 s h cars) h.playerCarIndex)
        h.playerCarIndex lap := by
    unfold handleLapDataPacket
    dsimp only
    rw [if_pos hpc, w10, hlap]
  set sr := raceTableStep (lapDataStage1 s h cars) h.playerCarIndex with hsr
  obtain ⟨e1, e2, e3, e4, e5, e6, e7, e8⟩ := setPenalties_proj sr lap
  have hps : (setPenalties sr lap).playerState = s.playerState := by
    rw [e5, w5, g5]
  have hcond : rewindCond (setPenalties sr lap) lap = false := by
    unfold rewindCond
    rw [hps]
    cases hp : s.playerState.currentLapNum with
    | none => rfl
    | some q => simpa using hnorw q hp
  have hpu : playerUpdate sr h.playerCarIndex lap =
      playerTail (setPenalties sr lap) h.playerCarIndex lap := by
    unfold playerUpdate
    dsimp only
    rw [hcond]
    simp
  rw [hrun, hpu]
  refine ⟨?_, ?_, ?_⟩
  · -- opening
    intro ha ht
    unfold playerTail
    dsimp only
    obtain ⟨t1, t2, t3, t4, t5, t6⟩ :=
      tyreStep_proj (setPenalties sr lap) lap.currentLapNum
    set a1 := tyreStep (setPenalties sr lap) lap.currentLapNum with ha1
    have hpsa : a1.playerState = s.playerState := by rw [t4, hps]
    have a1pit : a1.playerState.pitLaneActive = false := by rw [hpsa]; exact ha
    have hb := playerPitStep_timer1 a1 lap ht
    obtain ⟨o1, o2, _⟩ := playerStintAccum_open a1.playerState lap a1pit
    obtain ⟨oa1, oa2⟩ := playerStintAccum_open_acc a1.playerState lap a1pit
    have hbA : (playerPitStep a1 lap).playerState.pitLaneActive = true := by
      rw [hb]; exact o1
    have hbS : (playerPitStep a1 lap).playerState.pitLaneStartLapNum =
        some lap.currentLapNum := by
      rw [hb]; exact o2
    have hbM : (playerPitStep a1 lap).playerState.pitLaneMaxTimeMs =
        lap.pitLaneTimeInLaneInMS := by
      rw [hb]; exact oa1
    have hbX : (playerPitStep a1 lap).playerState.pitLanePitStatusMax =
        lap.pitStatus := by
      rw [hb]; exact oa2
    set a2 := playerPitStep a1 lap with ha2
    obtain ⟨q1, q2, q3, q4, q5, q6, q7, q8, q9, q10, q11, q12⟩ :=
      playerSectorStep_proj a2 lap
    set a3 := playerSectorStep a2 lap with ha3
    obtain ⟨r1, r2, r3, r4, r5, r6, r7, r8, r9⟩ := liveTimeStep_proj a3 lap
    set a4 := liveTimeStep a3 lap with ha4
    obtain ⟨v1, v2, v3, v4⟩ := liveBestStep_outer a4 lap
    set a5 := liveBestStep a4 lap with ha5
    obtain ⟨c1, c2, c3, c4, c5, c6, c7, c8, c9⟩ := currentLapStep_proj a5 lap
    set a6 := currentLapStep a5 lap with ha6
    obtain ⟨f1, f2, f3, f4, f5, f6, f7, f8, f9, _⟩ :=
      finalizeStep_bundle a6 h.playerCarIndex lap
    set a7 := finalizeStep a6 h.playerCarIndex lap with ha7
    obtain ⟨m1, m2, m3, m4, m5, m6, m7, m8, m9⟩ := bumpPlayerLap_proj a7 lap
    set a8 := bumpPlayerLap a7 lap with ha8
    obtain ⟨d1, d2, d3, d4, d5, d6, d7⟩ := liveDeltaStep_proj a8
    refine ⟨?_, ?_, ?_, ?_⟩
    · rw [d5, m6, f4, c5, v3, r5, q8]; exact hbA
    · rw [d5, m7, f5, c5, v3, r5, q9]; exact hbS
    · rw [d5, m8, f6, c5, v3, r5, q10]; exact hbM
    · rw [d5, m9, f7, c5, v3, r5, q12]; exact hbX
  · -- accumulation
    intro ha ht
    unfold playerTail
    dsimp only
    obtain ⟨t1, t2, t3, t4, t5, t6⟩ :=
      tyreStep_proj (setPenalties sr lap) lap.currentLapNum
    set a1 := tyreStep (setPenalties sr lap) lap.currentLapNum with ha1
    have hpsa : a1.playerState = s.playerState := by rw [t4, hps]
    have a1pit : a1.playerState.pitLaneActive = true := by rw [hpsa]; exact ha
    have hb := playerPitStep_timer1 a1 lap ht
    obtain ⟨A1, A2, A3, A4⟩ := playerStintAccum_active a1.playerState lap a1pit
    have hbM : (playerPitStep a1 lap).playerState.pitLaneMaxTimeMs =
        max s.playerState.pitLaneMaxTimeMs lap.pitLaneTimeInLaneInMS := by
      rw [hb]
      show (playerStintAccum a1.playerState lap).pitLaneMaxTimeMs = _
      rw [A1, hpsa]
    have hbX : (playerPitStep a1 lap).playerState.pitLanePitStatusMax =
        max s.playerState.pitLanePitStatusMax lap.pitStatus := by
      rw [hb]
      show (playerStintAccum a1.playerState lap).pitLanePitStatusMax = _
      rw [A2, hpsa]
    have hbS : (playerPitStep a1 lap).playerState.pitLaneStartLapNum =
        s.playerState.pitLaneStartLapNum := by
      rw [hb]
      show (playerStintAccum a1.playerState lap).pitLaneStartLapNum = _
      rw [A3, hpsa]
    have hbA : (playerPitStep a1 lap).playerState.pitLaneActive = true := by
      rw [hb]; exact A4
    set a2 := playerPitStep a1 lap with ha2
    obtain ⟨q1, q2, q3, q4, q5, q6, q7, q8, q9, q10, q11, q12⟩ :=
      playerSectorStep_proj a2 lap
    set a3 := playerSectorStep a2 lap with ha3
    obtain ⟨r1, r2, r3, r4, r5, r6, r7, r8, r9⟩ := liveTimeStep_proj a3 lap
    set a4 := liveTimeStep a3 lap with ha4
    obtain ⟨v1, v2, v3, v4⟩ := liveBestStep_outer a4 lap
    set a5 := liveBestStep a4 lap with ha5
    obtain ⟨c1, c2, c3, c4, c5, c6, c7, c8, c9⟩ := currentLapStep_proj a5 lap
    set a6 := currentLapStep a5 lap with ha6
    obtain ⟨f1, f2, f3, f4, f5, f6, f7, f8, f9, _⟩ :=
      finalizeStep_bundle a6 h.playerCarIndex lap
    set a7 := finalizeStep a6 h.playerCarIndex lap with ha7
    obtain ⟨m1, m2, m3, m4, m5, m6, m7, m8, m9⟩ := bumpPlayerLap_proj a7 lap
    set a8 := bumpPlayerLap a7 lap with ha8
    obtain ⟨d1, d2, d3, d4, d5, d6, d7⟩ := liveDeltaStep_proj a8
    have hM : (liveDeltaStep a8).playerState.pitLaneMaxTimeMs =
        max s.playerState.pitLaneMaxTimeMs lap.pitLaneTimeInLaneInMS := by
      rw [d5, m8, f6, c5, v3, r5, q10]; exact hbM
    have hX : (liveDeltaStep a8).playerState.pitLanePitStatusMax =
        max s.playerState.pitLanePitStatusMax lap.pitStatus := by
      rw [d5, m9, f7, c5, v3, r5, q12]; exact hbX
    refine ⟨hM, hX, ?_, ?_, ?_, ?_⟩
    · rw [hM]; exact Nat.le_max_left _ _
    · rw [hX]; exact Nat.le_max_left _ _
    · rw [d5, m7, f5, c5, v3, r5, q9]; exact hbS
    · rw [d5, m6, f4, c5, v3, r5, q8]; exact hbA
  · -- closing
    intro ha ht hL hT
    unfold playerTail
    dsimp only
    obtain ⟨t1, t2, t3, t4, t5, t6⟩ :=
      tyreStep_proj (setPenalties sr lap) lap.currentLapNum
    set a1 := tyreStep (setPenalties sr lap) lap.currentLapNum with ha1
    have hpsa : a1.playerState = s.playerState := by rw [t4, hps]
    have ha1' : a1.playerState.pitLaneActive = true := by rw [hpsa]; exact ha
    have hL1 : a1.playerState.pitLaneStartLapNum = some L := by rw [hpsa]; exact hL
    have hT1 : 0 < a1.playerState.pitLaneMaxTimeMs := by rw [hpsa]; exact hT
    have hledA : a1.lapsByNumber = s.lapsByNumber := by rw [t1, e1, w1, g1]
    obtain ⟨P1, P2, P3, P4, P5, P6, P7, P8, P9⟩ :=
      playerPitStep_close a1 lap L ht ha1' hL1 hT1
    rw [hpsa] at P1 P2 P8
    rw [hledA] at P8
    set a2 := playerPitStep a1 lap with ha2
    obtain ⟨q1, q2, q3, q4, q5, q6, q7, q8, q9, q10, q11, q12⟩ :=
      playerSectorStep_proj a2 lap
    set a3 := playerSectorStep a2 lap with ha3
    obtain ⟨r1, r2, r3, r4, r5, r6, r7, r8, r9⟩ := liveTimeStep_proj a3 lap
    set a4 := liveTimeStep a3 lap with ha4
    obtain ⟨v1, v2, v3, v4⟩ := liveBestStep_outer a4 lap
    set a5 := liveBestStep a4 lap with ha5
    obtain ⟨c1, c2, c3, c4, c5, c6, c7, c8, c9⟩ := currentLapStep_proj a5 lap
    set a6 := currentLapStep a5 lap with ha6
    obtain ⟨f1, f2, f3, f4, f5, f6, f7, f8, f9, _⟩ :=
      finalizeStep_bundle a6 h.playerCarIndex lap
    set a7 := finalizeStep a6 h.playerCarIndex lap with ha7
    obtain ⟨m1, m2, m3, m4, m5, m6, m7, m8, m9⟩ := bumpPlayerLap_proj a7 lap
    set a8 := bumpPlayerLap a7 lap with ha8
    obtain ⟨d1, d2, d3, d4, d5, d6, d7⟩ := liveDeltaStep_proj a8
    refine ⟨?_, ?_, ?_, ?_⟩
    · rw [d2, m2, f1, c2, v1, r2, q2]; exact P1
    · rw [d3, m3, f2, c3, v2, r3, q3]; exact P2
    · rw [d5, m6, f4, c5, v3, r5, q8]; exact P3
    · intro hhas
      obtain ⟨hpf2, hinv2⟩ := P8 hhas
      have hpf2' : PitFieldsAt a2 L s.playerState.pitLaneMaxTimeMs
          s.playerState.pitLanePitStatusMax := hpf2
      have hpf4 : PitFieldsAt a4 L s.playerState.pitLaneMaxTimeMs
          s.playerState.pitLanePitStatusMax := by
        unfold PitFieldsAt at hpf2' ⊢
        rw [r1, q1]
        exact hpf2'
      have hinv4 : a4.lapsState.bestLapTimeMs = (qualTimes a4.lapsByNumber).min? := by
        rw [r6, q5, r1, q1]
        exact hinv2
      obtain ⟨hpf5, hinv5, _, _, _⟩ :=
        liveBestStep_track a4 lap L s.playerState.pitLaneMaxTimeMs
          s.playerState.pitLanePitStatusMax hpf4 hinv4
      have hpf6 : PitFieldsAt a6 L s.playerState.pitLaneMaxTimeMs
          s.playerState.pitLanePitStatusMax := by
        unfold PitFieldsAt at hpf5 ⊢
        rw [c1]
        exact hpf5
      have hinv6 : a6.lapsState.bestLapTimeMs = (qualTimes a6.lapsByNumber).min? := by
        rw [c6, c1]
        exact hinv5
      have hT6 : jget a6.pitLaneTimeByLap L = some s.playerState.pitLaneMaxTimeMs := by
        rw [c2, v1, r2, q2]; exact P1
      have hS6 : jget a6.pitLaneStatusByLap L =
          some s.playerState.pitLanePitStatusMax := by
        rw [c3, v2, r3, q3]; exact P2
      obtain ⟨hpf7, hinv7⟩ :=
        finalizeStep_track a6 h.playerCarIndex lap L
          s.playerState.pitLaneMaxTimeMs s.playerState.pitLanePitStatusMax
          hT6 hS6 hpf6 hinv6
      constructor
      · have : PitFieldsAt (liveDeltaStep a8) L s.playerState.pitLaneMaxTimeMs
            s.playerState.pitLanePitStatusMax := by
          unfold PitFieldsAt at hpf7 ⊢
          rw [d1, m1]
          exact hpf7
        exact this
      · rw [d6, m5, d1, m1]
        exact hinv7

/-- A state with an active player pit stint opened on lap 10 (23000 ms,
status 2 accumulated so far), player on lap 11, lap 10 in the ledger. -/
def c6State : ServerState :=
  { initialState with
    playerState := { initialState.playerState with
      sessionUID := some 1
      currentLapNum := some 11
      pitLaneActive := true
      pitLaneStartLapNum := some 10
      pitLaneMaxTimeMs := 23000
      pitLanePitStatusMax := 2 }
    lapsByNumber := [(10, plainEntry 10 90000)] }

/-- The lap-data record that closes the stint: lap 11, pit timer off. -/
def c6Lap : LapRec := { zeroLapRec with currentLapNum := 11 }

theorem C6_player_pit_stint_witness :
    jget (handleLapDataPacket c6State ⟨1, 0⟩ [some c6Lap]).pitLaneTimeByLap 10 =
      some 23000 ∧
    jget (handleLapDataPacket c6State ⟨1, 0⟩ [some c6Lap]).pitLaneStatusByLap 10 =
      some 2 ∧
    (handleLapDataPacket c6State ⟨1, 0⟩ [some c6Lap]).playerState.pitLaneActive =
      false ∧
    (∃ e, jget (handleLapDataPacket c6State ⟨1, 0⟩ [some c6Lap]).lapsByNumber 10 =
        some e ∧
      e.pitLaneTimeMs = some 23000 ∧ e.pitStatus = 2) ∧
    (handleLapDataPacket c6State ⟨1, 0⟩ [some c6Lap]).lapsState.bestLapTimeMs =
      (qualTimes (handleLapDataPacket c6State ⟨1, 0⟩
        [some c6Lap]).lapsByNumber).min? := by
  obtain ⟨_, _, hC⟩ :=
    C6_player_pit_stint c6State ⟨1, 0⟩ [some c6Lap] c6Lap 10
      (by rfl) (by decide) (by rfl)
      (by
        intro q hq
        have h11 : some 11 = some q := hq
        injection h11 with h11
        subst h11
        decide)
  obtain ⟨w1, w2, w3, w4⟩ := hC (by rfl) (by decide) (by rfl) (by decide)
  obtain ⟨w5, w6⟩ := w4 (by rfl)
  exact ⟨w1, w2, w3, w5, w6⟩

/-! ## C7: session-history overrides of finalized laps -/

theorem histLoopStep_ne (ledger : JsMap LapEntry) (k n : Nat) (e : HistEntry)
    (hne : n ≠ k) :
    jget (histLoopStep ledger (k, e)) n = jget ledger n := by
  unfold histLoopStep
  dsimp only
  cases jget ledger k with
  | none => rfl
  | some old =>
    cases e.lapTimeMs with
    | none => rfl
    | some t =>
      dsimp only
      exact jget_jset_ne _ _ _ _ hne

theorem histFold_untouched (l : List (Nat × HistEntry)) (ledger : JsMap LapEntry)
    (n : Nat) (hn : ¬ n ∈ l.map Prod.fst) :
    jget (l.foldl histLoopStep ledger) n = jget ledger n := by
  induction l generalizing ledger with
  | nil => rfl
  | cons hd tl ih =>
    obtain ⟨k, e⟩ := hd
    simp only [List.map_cons, List.mem_cons, not_or] at hn
    rw [List.foldl_cons, ih _ hn.2, histLoopStep_ne _ _ _ _ hn.1]

theorem histFold_jget (l : List (Nat × HistEntry)) (ledger : JsMap LapEntry)
    (n : Nat) (hnd : (l.map Prod.fst).Nodup) :
    jget (l.foldl histLoopStep ledger) n =
      match jget ledger n, jget l n with
      | some old, some e =>
        match e.lapTimeMs with
        | some t => some { old with
            lapTimeMs := some t
            sector1TimeMs := e.sector1TimeMs
            sector2TimeMs := e.sector2TimeMs
            sector3TimeMs := e.sector3TimeMs }
        | none => some old
      | some old, none => some old
      | none, _ => none := by
  induction l generalizing ledger with
  | nil =>
    show jget ledger n = _
    cases jget ledger n <;> rfl
  | cons hd tl ih =>
    obtain ⟨k, e⟩ := hd
    simp only [List.map_cons, List.nodup_cons] at hnd
    obtain ⟨hk, hnd2⟩ := hnd
    rw [List.foldl_cons]
    by_cases hkn : n = k
    · subst hkn
      rw [histFold_untouched tl _ n hk]
      have hcons : jget ((n, e) :: tl) n = some e := by simp [jget]
      rw [hcons]
      unfold histLoopStep
      dsimp only
      cases hget : jget ledger n with
      | none =>
        dsimp only
        exact hget
      | some old =>
        dsimp only
        cases hme : e.lapTimeMs with
        | none =>
          dsimp only
          exact hget
        | some t =>
          dsimp only
          exact jget_jset_self _ _ _
    · have hcons : jget ((k, e) :: tl) n = jget tl n := by
        show (if k = n then some e else jget tl n) = jget tl n
        rw [if_neg (fun hc => hkn hc.symm)]
      rw [ih _ hnd2, histLoopStep_ne _ _ _ _ hkn, hcons]

theorem buildByLap_nodup (numLaps : Nat) (entries : List HistEntry) :
    ((buildByLap numLaps entries).map Prod.fst).Nodup := by
  unfold buildByLap
  rw [List.map_map]
  have h1 : (Prod.fst ∘ fun p : Nat × HistEntry => (p.1 + 1, p.2)) =
      (fun x => x + 1) ∘ Prod.fst := rfl
  rw [h1, ← List.map_map, List.enum_map_fst]
  exact (List.nodup_range _).map (fun a b hab => by omega)

/-- History entries used in the C7 scenario: lap 1 reported with a zero
(absent) lap time, lap 2 with a faster 80000 ms lap. -/
def c7Entries : List HistEntry :=
  [⟨none, none, none, none, 15⟩,
   ⟨some 80000, some 20000, some 30000, some 30000, 15⟩]

/-- A state whose ledger holds lap 1 (100000 ms, the current best) and
lap 2 (110000 ms). -/
def c7State : ServerState :=
  { initialState with
    playerState := { initialState.playerState with sessionUID := some 1 }
    lapsByNumber :=
      [(1, { plainEntry 1 100000 with isBest := true, deltaMs := some 0 }),
       (2, { plainEntry 2 110000 with deltaMs := some 10000 })] }

/-- C7 counterexample: the ledger entry for lap 1 has a zero-time
history entry in the incoming packet, yet its isBest and deltaMs change
(the packet's lap 2 takes over the personal best), so "the ledger entry
is left entirely unchanged" is false. -/
theorem C7_counterexample :
    jget c7State.lapsByNumber 1 =
      some { plainEntry 1 100000 with isBest := true, deltaMs := some 0 } ∧
    jget (buildByLap 2 c7Entries) 1 =
      some (⟨none, none, none, none, 15⟩ : HistEntry) ∧
    jget (handleSessionHistoryPacket c7State ⟨1, 0⟩
        (some ⟨0, 2, c7Entries⟩)).lapsByNumber 1 =
      some { plainEntry 1 100000 with isBest := false, deltaMs := some 20000 } ∧
    ¬ jget (handleSessionHistoryPacket c7State ⟨1, 0⟩
        (some ⟨0, 2, c7Entries⟩)).lapsByNumber 1 = jget c7State.lapsByNumber 1 := by
  refine ⟨rfl, rfl, ?_, ?_⟩ <;> decide

/-- C7 (amended): a session-history packet for the player's car
overwrites each already-finalized ledger lap that has a non-zero
history time with the history lap time and all three sectors, leaves
every other field except isBest/deltaMs of the remaining entries
unchanged, and recomputes bests over the resulting ledger. -/
theorem C7_history_override (s : ServerState) (h : Header) (p : HistPayload)
    (huid : s.playerState.sessionUID = some h.sessionUID)
    (hcar : p.carIdx = h.playerCarIndex)
    (n : Nat) (old : LapEntry)
    (hold : jget s.lapsByNumber n = some old) :
    ∃ e', jget (handleSessionHistoryPacket s h (some p)).lapsByNumber n = some e' ∧
      (∀ eh t, jget (buildByLap p.numLaps p.entries) n = some eh →
        eh.lapTimeMs = some t →
        e'.core = ({ old with
          lapTimeMs := some t
          sector1TimeMs := eh.sector1TimeMs
          sector2TimeMs := eh.sector2TimeMs
          sector3TimeMs := eh.sector3TimeMs } : LapEntry).core) ∧
      (∀ eh, jget (buildByLap p.numLaps p.entries) n = some eh →
        eh.lapTimeMs = none → e'.core = old.core) ∧
      (jget (buildByLap p.numLaps p.entries) n = none → e'.core = old.core) ∧
      (handleSessionHistoryPacket s h (some p)).lapsState.bestLapTimeMs =
        (qualTimes (handleSessionHistoryPacket s h (some p)).lapsByNumber).min? := by
  have hmr : maybeReset s h = s := by simp [maybeReset, huid]
  have hpost : handleSessionHistoryPacket s h (some p) =
      recomputeFromLaps
        { s with
          sessionHistoryByCarIndex := jset s.sessionHistoryByCarIndex p.carIdx
            (buildByLap p.numLaps p.entries)
          lapsByNumber :=
            (buildByLap p.numLaps p.entries).foldl histLoopStep s.lapsByNumber } := by
    unfold handleSessionHistoryPacket
    rw [hmr]
    dsimp only
    rw [if_pos hcar]
  have hfold := histFold_jget (buildByLap p.numLaps p.entries) s.lapsByNumber n
    (buildByLap_nodup p.numLaps p.entries)
  rw [hold] at hfold
  rw [hpost]
  cases hbk : jget (buildByLap p.numLaps p.entries) n with
  | none =>
    rw [hbk] at hfold
    dsimp only at hfold
    refine ⟨applyBest (scanBests ((buildByLap p.numLaps p.entries).foldl histLoopStep s.lapsByNumber)).bestLapTimeMs old, ?_, ?_, ?_, ?_, ?_⟩
    · rw [jget_recompute]
      dsimp only
      rw [hfold]
      rfl
    · intro eh t heh _
      exact Option.noConfusion heh
    · intro eh heh _
      exact Option.noConfusion heh
    · intro _
      exact core_applyBest _ _
    · exact recompute_best_self _
  | some eh =>
    rw [hbk] at hfold
    dsimp only at hfold
    cases hml : eh.lapTimeMs with
    | some t =>
      rw [hml] at hfold
      dsimp only at hfold
      refine ⟨applyBest (scanBests ((buildByLap p.numLaps p.entries).foldl histLoopStep s.lapsByNumber)).bestLapTimeMs { old with
          lapTimeMs := some t
          sector1TimeMs := eh.sector1TimeMs
          sector2TimeMs := eh.sector2TimeMs
          sector3TimeMs := eh.sector3TimeMs }, ?_, ?_, ?_, ?_, ?_⟩
      · rw [jget_recompute]
        dsimp only
        rw [hfold]
        rfl
      · intro eh2 t2 heh hml2
        injection heh with heq
        subst heq
        rw [hml] at hml2
        injection hml2 with ht
        subst ht
        exact core_applyBest _ _
      · intro eh2 heh hml2
        injection heh with heq
        subst heq
        rw [hml] at hml2
        exact Option.noConfusion hml2
      · intro hc
        exact Option.noConfusion hc
      · exact recompute_best_self _
    | none =>
      rw [hml] at hfold
      dsimp only at hfold
      refine ⟨applyBest (scanBests ((buildByLap p.numLaps p.entries).foldl histLoopStep s.lapsByNumber)).bestLapTimeMs old, ?_, ?_, ?_, ?_, ?_⟩
      · rw [jget_recompute]
        dsimp only
        rw [hfold]
        rfl
      · intro eh2 t2 heh hml2
        injection heh with heq
        subst heq
        rw [hml] at hml2
        exact Option.noConfusion hml2
      · intro eh2 heh _
        injection heh with heq
        subst heq
        exact core_applyBest _ _
      · intro hc
        exact Option.noConfusion hc
      · exact recompute_best_self _

theorem C7_history_override_witness :
    ∃ e', jget (handleSessionHistoryPacket c7State ⟨1, 0⟩
        (some ⟨0, 2, c7Entries⟩)).lapsByNumber 2 = some e' ∧
      (∀ eh t, jget (buildByLap (2 : Nat) c7Entries) 2 = some eh →
        eh.lapTimeMs = some t →
        e'.core = ({ { plainEntry 2 110000 with deltaMs := some 10000 } with
          lapTimeMs := some t
          sector1TimeMs := eh.sector1TimeMs
          sector2TimeMs := eh.sector2TimeMs
          sector3TimeMs := eh.sector3TimeMs } : LapEntry).core) ∧
      (∀ eh, jget (buildByLap (2 : Nat) c7Entries) 2 = some eh →
        eh.lapTimeMs = none →
        e'.core = ({ plainEntry 2 110000 with deltaMs := some 10000 } : LapEntry).core) ∧
      (jget (buildByLap (2 : Nat) c7Entries) 2 = none →
        e'.core = ({ plainEntry 2 110000 with deltaMs := some 10000 } : LapEntry).core) ∧
      (handleSessionHistoryPacket c7State ⟨1, 0⟩
        (some ⟨0, 2, c7Entries⟩)).lapsState.bestLapTimeMs =
        (qualTimes (handleSessionHistoryPacket c7State ⟨1, 0⟩
          (some ⟨0, 2, c7Entries⟩)).lapsByNumber).min? :=
  C7_history_override c7State ⟨1, 0⟩ ⟨0, 2, c7Entries⟩ (by rfl) (by rfl) 2
    { plainEntry 2 110000 with deltaMs := some 10000 } (by rfl)

/-! ## C8: tyre-at-lap-start snapshots -/

/-- The car-status handler before the tyre backfill: reset check,
per-car cache, player tyre fields (`server.js` 926–951). -/
def statusPrefix (s : ServerState) (h : Header)
    (cars : List (Option CarStatus)) : ServerState :=
  let s := maybeReset s h
  let s := cars.enum.foldl (fun s p =>
    match p.2 with
    | some st => { s with carStatusByIndex := jset s.carStatusByIndex p.1 st }
    | none => s) s
  if h.playerCarIndex < NUM_CARS then
    match jget s.carStatusByIndex h.playerCarIndex with
    | some ps =>
      { s with
        playerState := { s.playerState with
          currentTyreActualCompound := some ps.actualTyreCompound
          currentTyreVisualCompound := some ps.visualTyreCompound
          currentTyresAgeLaps := some ps.tyresAgeLaps }
        lapsState := { s.lapsState with currentCarStatus := some ps } }
    | none => s
  else s

/-- The tyre-at-lap-start backfill at the end of the car-status handler
(`server.js` 953–970). -/
def statusBackfill (s : ServerState) : ServerState :=
  match s.playerState.currentLapNum with
  | some lapNum =>
    let cond : Bool :=
      match jget s.tyreByLapStart lapNum with
      | none => true
      | some ex =>
        (ex.tyreVisualCompound.isNone && s.playerState.currentTyreVisualCompound.isSome) ||
        (ex.tyreActualCompound.isNone && s.playerState.currentTyreActualCompound.isSome)
    if cond then
      let snap : TyreSnapshot :=
        { tyreActualCompound := s.playerState.currentTyreActualCompound
          tyreVisualCompound := s.playerState.currentTyreVisualCompound
          tyresAgeLaps := s.playerState.currentTyresAgeLaps }
      { s with tyreByLapStart := jset s.tyreByLapStart lapNum snap }
    else s
  | none => s

theorem handleCarStatusPacket_eq (s : ServerState) (h : Header)
    (cars : List (Option CarStatus)) :
    handleCarStatusPacket s h cars = statusBackfill (statusPrefix s h cars) := rfl

theorem statusFold_outer (l : List (Nat × Option CarStatus)) (s : ServerState) :
    (l.foldl (fun s p =>
      match p.2 with
      | some st => { s with carStatusByIndex := jset s.carStatusByIndex p.1 st }
      | none => s) s).tyreByLapStart = s.tyreByLapStart := by
  induction l generalizing s with
  | nil => rfl
  | cons hd tl ih =>
    rw [List.foldl_cons]
    obtain ⟨i, o⟩ := hd
    cases o with
    | some st =>
      dsimp only
      exact (ih _).trans rfl
    | none =>
      dsimp only
      exact ih s

theorem statusPrefix_tyre (s : ServerState) (h : Header)
    (cars : List (Option CarStatus))
    (huid : s.playerState.sessionUID = some h.sessionUID) :
    (statusPrefix s h cars).tyreByLapStart = s.tyreByLapStart := by
  have hmr : maybeReset s h = s := by simp [maybeReset, huid]
  unfold statusPrefix
  rw [hmr]
  dsimp only
  split
  · split
    · exact statusFold_outer cars.enum s
    · exact statusFold_outer cars.enum s
  · exact statusFold_outer cars.enum s

theorem statusBackfill_fills (s : ServerState) (n : Nat) (t : TyreSnapshot)
    (ht : jget s.tyreByLapStart n = some t)
    (hone : (t.tyreActualCompound = none ∧ t.tyreVisualCompound = none ∧
        t.tyresAgeLaps = none) ∨
      (t.tyreActualCompound.isSome = true ∧ t.tyreVisualCompound.isSome = true ∧
        t.tyresAgeLaps.isSome = true)) :
    ∃ t', jget (statusBackfill s).tyreByLapStart n = some t' ∧
      (t.tyreActualCompound.isSome = true → t'.tyreActualCompound = t.tyreActualCompound) ∧
      (t.tyreVisualCompound.isSome = true → t'.tyreVisualCompound = t.tyreVisualCompound) ∧
      (t.tyresAgeLaps.isSome = true → t'.tyresAgeLaps = t.tyresAgeLaps) := by
  unfold statusBackfill
  cases hcl : s.playerState.currentLapNum with
  | none => exact ⟨t, ht, fun _ => rfl, fun _ => rfl, fun _ => rfl⟩
  | some lapNum =>
    dsimp only
    by_cases hn : n = lapNum
    · subst hn
      rw [ht]
      dsimp only
      rcases hone with ⟨h1, h2, h3⟩ | ⟨h1, h2, h3⟩
      · split
        · refine ⟨_, jget_jset_self _ _ _, ?_, ?_, ?_⟩
          · intro hc
            rw [h1] at hc
            exact absurd hc (by simp)
          · intro hc
            rw [h2] at hc
            exact absurd hc (by simp)
          · intro hc
            rw [h3] at hc
            exact absurd hc (by simp)
        · exact ⟨t, ht, fun _ => rfl, fun _ => rfl, fun _ => rfl⟩
      · obtain ⟨a, hva⟩ := Option.isSome_iff_exists.mp h1
        obtain ⟨v, hvv⟩ := Option.isSome_iff_exists.mp h2
        rw [hva, hvv]
        simp only [Option.isNone_some, Bool.false_and, Bool.or_self, Bool.false_eq_true,
          if_false]
        exact ⟨t, ht, fun _ => hva, fun _ => hvv, fun _ => rfl⟩
    · split
      · refine ⟨t, ?_, fun _ => rfl, fun _ => rfl, fun _ => rfl⟩
        rw [jget_jset_ne _ _ _ _ hn]
        exact ht
      · exact ⟨t, ht, fun _ => rfl, fun _ => rfl, fun _ => rfl⟩

theorem tyreStep_jget_preserved (s : ServerState) (cur n : Nat) (t : TyreSnapshot)
    (ht : jget s.tyreByLapStart n = some t) :
    jget (tyreStep s cur).tyreByLapStart n = some t := by
  unfold tyreStep
  split
  · exact ht
  · rename_i hhas
    dsimp only
    by_cases hn : n = cur
    · subst hn
      exfalso
      apply hhas
      unfold jhas
      rw [ht]
      rfl
    · rw [jget_jset_ne _ _ _ _ hn]
      exact ht

theorem playerPitStep_tyre (s : ServerState) (lap : LapRec) :
    (playerPitStep s lap).tyreByLapStart = s.tyreByLapStart := by
  unfold playerPitStep
  split
  · rfl
  · split
    · dsimp only
      repeat' split
      all_goals rfl
    · rfl

/-- A car-status record that is zero everywhere except the three tyre
fields. -/
def c8St (a v g : Nat) : CarStatus :=
  ⟨0, 0, 0, 0, 0, 0, 0, 0, 0, 0, 0, 0, 0, a, v, g, 0, 0, 0, 0, 0, 0, 0, 0, 0⟩

/-- The packet run leading to the C8 scenario: tyres 16/16/0 observed,
laps 3 and 4 started (snapshots recorded from those tyres), then a tyre
change to 17/17/1 with the snapshots already present. -/
def c8Pre : ServerState :=
  runPackets initialState
    [Packet.carStatus ⟨1, 0⟩ [some (c8St 16 16 0)],
     Packet.lapData ⟨1, 0⟩ [some { zeroLapRec with currentLapNum := 3 }],
     Packet.lapData ⟨1, 0⟩ [some { zeroLapRec with currentLapNum := 4 }],
     Packet.carStatus ⟨1, 0⟩ [some (c8St 17 17 1)]]

/-- C8 counterexample: the snapshot for lap 3 is fully recorded as
16/16/0, but a flashback packet (current lap 3 while the player was on
lap 4) deletes it and re-records it from the live tyre state 17/17/1 -
every already-non-absent field changes value. -/
theorem C8_counterexample :
    jget c8Pre.tyreByLapStart 3 = some ⟨some 16, some 16, some 0⟩ ∧
    jget (applyPacket c8Pre
        (Packet.lapData ⟨1, 0⟩
          [some { zeroLapRec with currentLapNum := 3 }])).tyreByLapStart 3 =
      some ⟨some 17, some 17, some 1⟩ ∧
    ¬ (jget (applyPacket c8Pre
        (Packet.lapData ⟨1, 0⟩
          [some { zeroLapRec with currentLapNum := 3 }])).tyreByLapStart 3 =
      jget c8Pre.tyreByLapStart 3) := by
  refine ⟨?_, ?_, ?_⟩ <;> decide

/-- C8 (amended): absent flashbacks and for states whose snapshots are
componentwise all-absent or all-present, existing snapshot fields that
are non-absent keep their values: the car-status backfill may only
replace an all-absent snapshot of the current lap, and a lap-data
update never modifies an existing snapshot and records a first-sight
snapshot of the current lap from the live tyre state. -/
theorem C8_tyre_snapshot (s : ServerState) (h : Header)
    (cars : List (Option CarStatus)) (carsL : List (Option LapRec)) (lap : LapRec)
    (huid : s.playerState.sessionUID = some h.sessionUID)
    (hinv : ∀ m u, jget s.tyreByLapStart m = some u →
      (u.tyreActualCompound = none ∧ u.tyreVisualCompound = none ∧
        u.tyresAgeLaps = none) ∨
      (u.tyreActualCompound.isSome = true ∧ u.tyreVisualCompound.isSome = true ∧
        u.tyresAgeLaps.isSome = true))
    (n : Nat) (t : TyreSnapshot)
    (ht : jget s.tyreByLapStart n = some t)
    (hpc : h.playerCarIndex < NUM_CARS)
    (hlap : jget (lapDataStage1 s h carsL).lapDataByIndex h.playerCarIndex = some lap)
    (hnorw : ∀ q, s.playerState.currentLapNum = some q → ¬ lap.currentLapNum < q) :
    (∃ t', jget (handleCarStatusPacket s h cars).tyreByLapStart n = some t' ∧
      (t.tyreActualCompound.isSome = true → t'.tyreActualCompound = t.tyreActualCompound) ∧
      (t.tyreVisualCompound.isSome = true → t'.tyreVisualCompound = t.tyreVisualCompound) ∧
      (t.tyresAgeLaps.isSome = true → t'.tyresAgeLaps = t.tyresAgeLaps)) ∧
    jget (handleLapDataPacket s h carsL).tyreByLapStart n = some t ∧
    (jhas s.tyreByLapStart lap.currentLapNum = false →
      jget (handleLapDataPacket s h carsL).tyreByLapStart lap.currentLapNum =
        some { tyreActualCompound := s.playerState.currentTyreActualCompound
               tyreVisualCompound := s.playerState.currentTyreVisualCompound
               tyresAgeLaps := s.playerState.currentTyresAgeLaps }) := by
  refine ⟨?_, ?_, ?_⟩
  · have hpre := statusPrefix_tyre s h cars huid
    have ht2 : jget (statusPrefix s h cars).tyreByLapStart n = some t := by
      rw [hpre]
      exact ht
    obtain ⟨t', hg, i1, i2, i3⟩ :=
      statusBackfill_fills (statusPrefix s h cars) n t ht2 (hinv n t ht)
    refine ⟨t', ?_, i1, i2, i3⟩
    rw [handleCarStatusPacket_eq]
    exact hg
  · obtain ⟨g1, g2, g3, g4, g5, g6, g7, g8⟩ := lapDataStage1_proj s h carsL huid
    obtain ⟨w1, w2, w3, w4, w5, w6, w7, w8, w9, w10⟩ :=
      raceTableStep_proj (lapDataStage1 s h carsL) h.playerCarIndex
    have hrun : handleLapDataPacket s h carsL =
        playerUpdate (raceTableStep (lapDataStage1 s h carsL) h.playerCarIndex)
          h.playerCarIndex lap := by
      unfold handleLapDataPacket
      dsimp only
      rw [if_pos hpc, w10, hlap]
    set sr := raceTableStep (lapDataStage1 s h carsL) h.playerCarIndex with hsr
    obtain ⟨e1, e2, e3, e4, e5, e6, e7, e8⟩ := setPenalties_proj sr lap
    have hps : (setPenalties sr lap).playerState = s.playerState := by
      rw [e5, w5, g5]
    have hcond : rewindCond (setPenalties sr lap) lap = false := by
      unfold rewindCond
      rw [hps]
      cases hp : s.playerState.currentLapNum with
      | none => rfl
      | some q => simpa using hnorw q hp
    have hpu : playerUpdate sr h.playerCarIndex lap =
        playerTail (setPenalties sr lap) h.playerCarIndex lap := by
      unfold playerUpdate
      dsimp only
      rw [hcond]
      simp
    rw [hrun, hpu]
    unfold playerTail
    dsimp only
    have hst : (setPenalties sr lap).tyreByLapStart = s.tyreByLapStart := by
      rw [e4, w4, g4]
    have ht1 : jget (tyreStep (setPenalties sr lap) lap.currentLapNum).tyreByLapStart
        n = some t := by
      apply tyreStep_jget_preserved
      rw [hst]
      exact ht
    set a1 := tyreStep (setPenalties sr lap) lap.currentLapNum with ha1
    have hp2 := playerPitStep_tyre a1 lap
    set a2 := playerPitStep a1 lap with ha2
    obtain ⟨q1, q2, q3, q4, q5, q6, q7, q8, q9, q10, q11, q12⟩ :=
      playerSectorStep_proj a2 lap
    set a3 := playerSectorStep a2 lap with ha3
    obtain ⟨r1, r2, r3, r4, r5, r6, r7, r8, r9⟩ := liveTimeStep_proj a3 lap
    set a4 := liveTimeStep a3 lap with ha4
    obtain ⟨v1, v2, v3, v4⟩ := liveBestStep_outer a4 lap
    set a5 := liveBestStep a4 lap with ha5
    obtain ⟨c1, c2, c3, c4, c5, c6, c7, c8, c9⟩ := currentLapStep_proj a5 lap
    set a6 := currentLapStep a5 lap with ha6
    obtain ⟨f1, f2, f3, f4, f5, f6, f7, f8, f9, _⟩ :=
      finalizeStep_bundle a6 h.playerCarIndex lap
    set a7 := finalizeStep a6 h.playerCarIndex lap with ha7
    obtain ⟨m1, m2, m3, m4, m5, m6, m7, m8, m9⟩ := bumpPlayerLap_proj a7 lap
    set a8 := bumpPlayerLap a7 lap with ha8
    obtain ⟨d1, d2, d3, d4, d5, d6, d7⟩ := liveDeltaStep_proj a8
    rw [d4, m4, f3, c4, v4, r4, q4, hp2]
    exact ht1
  · intro hhas
    obtain ⟨g1, g2, g3, g4, g5, g6, g7, g8⟩ := lapDataStage1_proj s h carsL huid
    obtain ⟨w1, w2, w3, w4, w5, w6, w7, w8, w9, w10⟩ :=
      raceTableStep_proj (lapDataStage1 s h carsL) h.playerCarIndex
    have hrun : handleLapDataPacket s h carsL =
        playerUpdate (raceTableStep (lapDataStage1 s h carsL) h.playerCarIndex)
          h.playerCarIndex lap := by
      unfold handleLapDataPacket
      dsimp only
      rw [if_pos hpc, w10, hlap]
    set sr := raceTableStep (lapDataStage1 s h carsL) h.playerCarIndex with hsr
    obtain ⟨e1, e2, e3, e4, e5, e6, e7, e8⟩ := setPenalties_proj sr lap
    have hps : (setPenalties sr lap).playerState = s.playerState := by
      rw [e5, w5, g5]
    have hcond : rewindCond (setPenalties sr lap) lap = false := by
      unfold rewindCond
      rw [hps]
      cases hp : s.playerState.currentLapNum with
      | none => rfl
      | some q => simpa using hnorw q hp
    have hpu : playerUpdate sr h.playerCarIndex lap =
        playerTail (setPenalties sr lap) h.playerCarIndex lap := by
      unfold playerUpdate
      dsimp only
      rw [hcond]
      simp
    rw [hrun, hpu]
    unfold playerTail
    dsimp only
    have hst : (setPenalties sr lap).tyreByLapStart = s.tyreByLapStart := by
      rw [e4, w4, g4]
    have hhas2 : jhas (setPenalties sr lap).tyreByLapStart lap.currentLapNum = false := by
      rw [hst]
      exact hhas
    have ht1 : jget (tyreStep (setPenalties sr lap) lap.currentLapNum).tyreByLapStart
        lap.currentLapNum =
        some { tyreActualCompound := s.playerState.currentTyreActualCompound
               tyreVisualCompound := s.playerState.currentTyreVisualCompound
               tyresAgeLaps := s.playerState.currentTyresAgeLaps } := by
      rw [tyreStep_not_has _ _ hhas2, hps, jget_jset_self]
    set a1 := tyreStep (setPenalties sr lap) lap.currentLapNum with ha1
    have hp2 := playerPitStep_tyre a1 lap
    set a2 := playerPitStep a1 lap with ha2
    obtain ⟨q1, q2, q3, q4, q5, q6, q7, q8, q9, q10, q11, q12⟩ :=
      playerSectorStep_proj a2 lap
    set a3 := playerSectorStep a2 lap with ha3
    obtain ⟨r1, r2, r3, r4, r5, r6, r7, r8, r9⟩ := liveTimeStep_proj a3 lap
    set a4 := liveTimeStep a3 lap with ha4
    obtain ⟨v1, v2, v3, v4⟩ := liveBestStep_outer a4 lap
    set a5 := liveBestStep a4 lap with ha5
    obtain ⟨c1, c2, c3, c4, c5, c6, c7, c8, c9⟩ := currentLapStep_proj a5 lap
    set a6 := currentLapStep a5 lap with ha6
    obtain ⟨f1, f2, f3, f4, f5, f6, f7, f8, f9, _⟩ :=
      finalizeStep_bundle a6 h.playerCarIndex lap
    set a7 := finalizeStep a6 h.playerCarIndex lap with ha7
    obtain ⟨m1, m2, m3, m4, m5, m6, m7, m8, m9⟩ := bumpPlayerLap_proj a7 lap
    set a8 := bumpPlayerLap a7 lap with ha8
    obtain ⟨d1, d2, d3, d4, d5, d6, d7⟩ := liveDeltaStep_proj a8
    rw [d4, m4, f3, c4, v4, r4, q4, hp2]
    exact ht1

/-- A state with tyres 17/17/1 live, player on lap 4, and a fully
recorded snapshot 16/16/0 for lap 3. -/
def c8State : ServerState :=
  { initialState with
    playerState := { initialState.playerState with
      sessionUID := some 1
      currentLapNum := some 4
      currentTyreActualCompound := some 17
      currentTyreVisualCompound := some 17
      currentTyresAgeLaps := some 1 }
    tyreByLapStart := [(3, ⟨some 16, some 16, some 0⟩)] }

/-- The lap-data record used in the C8 witness: lap 4, no flashback. -/
def c8WitLap : LapRec := { zeroLapRec with currentLapNum := 4 }

theorem C8_tyre_snapshot_witness :
    (∃ t', jget (handleCarStatusPacket c8State ⟨1, 0⟩
        [some (c8St 17 17 1)]).tyreByLapStart 3 = some t' ∧
      ((⟨some 16, some 16, some 0⟩ : TyreSnapshot).tyreActualCompound.isSome = true →
        t'.tyreActualCompound =
          (⟨some 16, some 16, some 0⟩ : TyreSnapshot).tyreActualCompound) ∧
      ((⟨some 16, some 16, some 0⟩ : TyreSnapshot).tyreVisualCompound.isSome = true →
        t'.tyreVisualCompound =
          (⟨some 16, some 16, some 0⟩ : TyreSnapshot).tyreVisualCompound) ∧
      ((⟨some 16, some 16, some 0⟩ : TyreSnapshot).tyresAgeLaps.isSome = true →
        t'.tyresAgeLaps = (⟨some 16, some 16, some 0⟩ : TyreSnapshot).tyresAgeLaps)) ∧
    jget (handleLapDataPacket c8State ⟨1, 0⟩ [some c8WitLap]).tyreByLapStart 3 =
      some ⟨some 16, some 16, some 0⟩ ∧
    (jhas c8State.tyreByLapStart c8WitLap.currentLapNum = false →
      jget (handleLapDataPacket c8State ⟨1, 0⟩
          [some c8WitLap]).tyreByLapStart c8WitLap.currentLapNum =
        some { tyreActualCompound := c8State.playerState.currentTyreActualCompound
               tyreVisualCompound := c8State.playerState.currentTyreVisualCompound
               tyresAgeLaps := c8State.playerState.currentTyresAgeLaps }) :=
  C8_tyre_snapshot c8State ⟨1, 0⟩ [some (c8St 17 17 1)] [some c8WitLap] c8WitLap
    (by rfl)
    (by
      intro m u hget
      have hget2 : (if 3 = m then
          some (⟨some 16, some 16, some 0⟩ : TyreSnapshot) else none) = some u := hget
      by_cases h3 : 3 = m
      · rw [if_pos h3] at hget2
        injection hget2 with hg
        subst hg
        right
        exact ⟨rfl, rfl, rfl⟩
      · rw [if_neg h3] at hget2
        exact Option.noConfusion hget2)
    3 ⟨some 16, some 16, some 0⟩ (by rfl) (by decide) (by rfl)
    (by
      intro q hq
      have h4 : some 4 = some q := hq
      injection h4 with h4
      subst h4
      decide)

/-! ## C9: the leaderboard inclusion filter -/

theorem recompute_raceCars (s : ServerState) :
    (recomputeFromLaps s).lapsState.raceCars = s.lapsState.raceCars := rfl

theorem playerPitStep_raceCars (s : ServerState) (lap : LapRec) :
    (playerPitStep s lap).lapsState.raceCars = s.lapsState.raceCars := by
  unfold playerPitStep
  split
  · rfl
  · split
    · dsimp only
      repeat' split
      all_goals rfl
    · rfl

theorem liveBestSectors_raceCars (ls : LapsState) (lap : LapRec) :
    (liveBestSectors ls lap).raceCars = ls.raceCars := by
  unfold liveBestSectors liveBestS2 liveBestS1
  repeat' split
  all_goals rfl

theorem liveBestStep_raceCars (s : ServerState) (lap : LapRec) :
    (liveBestStep s lap).lapsState.raceCars = s.lapsState.raceCars := by
  unfold liveBestStep
  dsimp only
  repeat' split
  all_goals first | rfl | exact liveBestSectors_raceCars s.lapsState lap

theorem finalizeStep_raceCars (s : ServerState) (pc : Nat) (lap : LapRec) :
    (finalizeStep s pc lap).lapsState.raceCars = s.lapsState.raceCars := by
  unfold finalizeStep
  split
  · rfl
  · split
    · rfl
    · rfl

theorem playerTail_raceCars (s : ServerState) (pc : Nat) (lap : LapRec) :
    (playerTail s pc lap).lapsState.raceCars = s.lapsState.raceCars := by
  unfold playerTail
  dsimp only
  set a1 := tyreStep s lap.currentLapNum with ha1
  set a2 := playerPitStep a1 lap with ha2
  set a3 := playerSectorStep a2 lap with ha3
  set a4 := liveTimeStep a3 lap with ha4
  set a5 := liveBestStep a4 lap with ha5
  set a6 := currentLapStep a5 lap with ha6
  set a7 := finalizeStep a6 pc lap with ha7
  set a8 := bumpPlayerLap a7 lap with ha8
  have e8 : (liveDeltaStep a8).lapsState.raceCars = a8.lapsState.raceCars := rfl
  have e7 : a8.lapsState.raceCars = a7.lapsState.raceCars := by
    rw [ha8]
    exact rfl
  have e6 : a7.lapsState.raceCars = a6.lapsState.raceCars := by
    rw [ha7]
    exact finalizeStep_raceCars a6 pc lap
  have e5 : a6.lapsState.raceCars = a5.lapsState.raceCars := by
    rw [ha6]
    exact rfl
  have e4 : a5.lapsState.raceCars = a4.lapsState.raceCars := by
    rw [ha5]
    exact liveBestStep_raceCars a4 lap
  have e3 : a4.lapsState.raceCars = a3.lapsState.raceCars := by
    rw [ha4]
    exact rfl
  have e2 : a3.lapsState.raceCars = a2.lapsState.raceCars := by
    rw [ha3]
    exact rfl
  have e1 : a2.lapsState.raceCars = a1.lapsState.raceCars := by
    rw [ha2]
    exact playerPitStep_raceCars a1 lap
  have e0 : a1.lapsState.raceCars = s.lapsState.raceCars := by
    rw [ha1]
    exact congrArg LapsState.raceCars (tyreStep_proj s lap.currentLapNum).2.2.2.2.1
  exact e8.trans (e7.trans (e6.trans (e5.trans (e4.trans
    (e3.trans (e2.trans (e1.trans e0)))))))

theorem playerUpdate_raceCars (s : ServerState) (pc : Nat) (lap : LapRec) :
    (playerUpdate s pc lap).lapsState.raceCars = s.lapsState.raceCars := by
  unfold playerUpdate
  dsimp only
  split
  · rw [playerTail_raceCars]
    rfl
  · rw [playerTail_raceCars]
    rfl

theorem handleLapDataPacket_raceCars (s : ServerState) (h : Header)
    (cars : List (Option LapRec)) :
    (handleLapDataPacket s h cars).lapsState.raceCars =
      (raceTableStep (lapDataStage1 s h cars) h.playerCarIndex).lapsState.raceCars := by
  unfold handleLapDataPacket
  dsimp only
  split
  · split
    · exact playerUpdate_raceCars _ _ _
    · rfl
  · rfl

theorem jsetFold_carIndex (l : List RaceCar) (m0 : JsMap RaceCar)
    (h0 : ∀ k c, jget m0 k = some c → c.carIndex = k) :
    ∀ k c, jget (l.foldl (fun m c => jset m c.carIndex c) m0) k = some c →
      c.carIndex = k := by
  induction l generalizing m0 with
  | nil => exact h0
  | cons hd tl ih =>
    rw [List.foldl_cons]
    apply ih
    intro k c hk
    by_cases hkk : k = hd.carIndex
    · subst hkk
      rw [jget_jset_self] at hk
      injection hk with h
      rw [← h]
    · rw [jget_jset_ne _ _ _ _ hkk] at hk
      exact h0 k c hk

theorem remap_carIndexes (raw fixed : List RaceCar) :
    (remapByCarIndex raw fixed).map (fun c => c.carIndex) =
      raw.map (fun c => c.carIndex) := by
  unfold remapByCarIndex
  dsimp only
  rw [List.map_map]
  apply List.map_congr_left
  intro c _
  show ((jget (fixed.foldl (fun m c => jset m c.carIndex c) []) c.carIndex).getD c).carIndex
    = c.carIndex
  cases hj : jget (fixed.foldl (fun m c => jset m c.carIndex c) []) c.carIndex with
  | none => rfl
  | some c2 =>
    have := jsetFold_carIndex fixed []
      (fun k c h => Option.noConfusion h) c.carIndex c2 hj
    simpa using this

theorem raceTableStep_carIndexes (s : ServerState) (pc : Nat) :
    ((raceTableStep s pc).lapsState.raceCars).map (fun c => c.carIndex) =
      (s.lapDataByIndex.filter (includeCar s pc)).map Prod.fst := by
  unfold raceTableStep
  dsimp only
  split
  · rw [remap_carIndexes, List.map_map]
    rfl
  · rw [remap_carIndexes, List.map_map]
    rfl

theorem raceTable_mem (s : ServerState) (pc i : Nat) :
    (∃ c, c ∈ (raceTableStep s pc).lapsState.raceCars ∧ c.carIndex = i) ↔
      ∃ lap, (i, lap) ∈ s.lapDataByIndex ∧ includeCar s pc (i, lap) = true := by
  have hidx := raceTableStep_carIndexes s pc
  constructor
  · rintro ⟨c, hc, rfl⟩
    have hmm : c.carIndex ∈
        ((raceTableStep s pc).lapsState.raceCars).map (fun c => c.carIndex) :=
      List.mem_map_of_mem _ hc
    rw [hidx] at hmm
    obtain ⟨p, hp, hpi⟩ := List.mem_map.mp hmm
    obtain ⟨hpmem, hpinc⟩ := List.mem_filter.mp hp
    refine ⟨p.2, ?_, ?_⟩
    · rw [← hpi]
      exact hpmem
    · rw [← hpi]
      exact hpinc
  · rintro ⟨lap, hmem, hinc⟩
    have h1 : i ∈ (s.lapDataByIndex.filter (includeCar s pc)).map Prod.fst :=
      List.mem_map.mpr ⟨(i, lap), List.mem_filter.mpr ⟨hmem, hinc⟩, rfl⟩
    rw [← hidx] at h1
    obtain ⟨c, hc, hci⟩ := List.mem_map.mp h1
    exact ⟨c, hc, hci⟩

theorem includeCar_iff (s : ServerState) (pc i : Nat) (lap : LapRec) :
    includeCar s pc (i, lap) = true ↔
      ∃ nm, jget s.participantsNameByIndex i = some nm ∧ nm ≠ "" ∧
        (i = pc ∨ (¬ (∃ k, s.numActiveCars = some k ∧ 0 < k ∧ k ≤ i) ∧
          lap.resultStatus ≠ 0)) := by
  unfold includeCar
  cases hn : jget s.participantsNameByIndex i with
  | none => simp
  | some nm =>
    dsimp only
    by_cases hnm : nm = ""
    · simp [hnm]
    · rw [if_neg hnm]
      by_cases hpc : i = pc
      · rw [if_pos hpc]
        simp [hnm, hpc]
      · rw [if_neg hpc]
        cases hk : s.numActiveCars with
        | none =>
          dsimp only
          by_cases hr : lap.resultStatus = 0
          · rw [if_neg (by decide : ¬ (false = true)), if_pos hr]
            simp only [Bool.false_eq_true, false_iff]
            rintro ⟨nm2, hnm2, _, hor⟩
            rcases hor with he2 | ⟨_, hr2⟩
            · exact hpc he2
            · exact hr2 hr
          · rw [if_neg (by decide : ¬ (false = true)), if_neg hr]
            simp only [eq_self_iff_true, true_iff]
            refine ⟨nm, rfl, hnm, Or.inr ⟨?_, hr⟩⟩
            rintro ⟨k2, hk2, _, _⟩
            exact Option.noConfusion hk2
        | some k =>
          dsimp only
          by_cases hb : 0 < k ∧ k ≤ i
          · rw [if_pos (by simp [hb.1, hb.2])]
            simp only [Bool.false_eq_true, false_iff]
            rintro ⟨nm2, hnm2, _, hor⟩
            injection hnm2 with he
            rcases hor with he2 | ⟨hnk, _⟩
            · exact hpc he2
            · exact hnk ⟨k, rfl, hb.1, hb.2⟩
          · rw [if_neg (by
              intro hc
              simp only [Bool.and_eq_true, decide_eq_true_eq] at hc
              exact hb ⟨hc.1, hc.2⟩)]
            by_cases hr : lap.resultStatus = 0
            · rw [if_pos hr]
              simp only [Bool.false_eq_true, false_iff]
              rintro ⟨nm2, hnm2, _, hor⟩
              rcases hor with he2 | ⟨_, hr2⟩
              · exact hpc he2
              · exact hr2 hr
            · rw [if_neg hr]
              simp only [eq_self_iff_true, true_iff]
              refine ⟨nm, rfl, hnm, Or.inr ⟨?_, hr⟩⟩
              rintro ⟨k2, hk2, hk2p, hk2i⟩
              injection hk2 with he
              exact hb (he ▸ ⟨hk2p, hk2i⟩)

/-- C9: on a lap-data update, a car index appears on the published
leaderboard iff its slot carries a parsed lap record, its participant
name is known and non-empty, and it is the player or (it is not cut off
by a known positive active-car count and its result status is not 0);
in particular a named player slot is always included. -/
theorem C9_leaderboard_filter (s : ServerState) (h : Header)
    (cars : List (Option LapRec)) (i : Nat) :
    ((∃ c, c ∈ (handleLapDataPacket s h cars).lapsState.raceCars ∧ c.carIndex = i) ↔
      (∃ lap, (i, lap) ∈ (lapDataStage1 s h cars).lapDataByIndex ∧
        ∃ nm, jget (lapDataStage1 s h cars).participantsNameByIndex i = some nm ∧
          nm ≠ "" ∧
          (i = h.playerCarIndex ∨
            (¬ (∃ k, (lapDataStage1 s h cars).numActiveCars = some k ∧
                0 < k ∧ k ≤ i) ∧
              lap.resultStatus ≠ 0)))) ∧
    (∀ lap nm, (h.playerCarIndex, lap) ∈ (lapDataStage1 s h cars).lapDataByIndex →
      jget (lapDataStage1 s h cars).participantsNameByIndex h.playerCarIndex =
        some nm →
      nm ≠ "" →
      ∃ c, c ∈ (handleLapDataPacket s h cars).lapsState.raceCars ∧
        c.carIndex = h.playerCarIndex) := by
  have hrc := handleLapDataPacket_raceCars s h cars
  constructor
  · rw [hrc, raceTable_mem]
    constructor
    · rintro ⟨lap, hm, hinc⟩
      exact ⟨lap, hm, (includeCar_iff _ _ _ _).mp hinc⟩
    · rintro ⟨lap, hm, hcond⟩
      exact ⟨lap, hm, (includeCar_iff _ _ _ _).mpr hcond⟩
  · intro lap nm hmem hname hne
    rw [hrc]
    exact (raceTable_mem _ _ _).mpr
      ⟨lap, hmem, (includeCar_iff _ _ _ _).mpr ⟨nm, hname, hne, Or.inl rfl⟩⟩

/-! ## C10: the live delta sign convention -/

theorem liveBestStep_live (s : ServerState) (lap : LapRec) :
    (liveBestStep s lap).lapsState.liveLapTimeMs = s.lapsState.liveLapTimeMs := by
  rcases liveBestStep_cases s lap with hre | ⟨_, _, _, _, _, _, _, b8, _⟩
  · rw [hre]
    exact (recompute_untouched s).2.2.2.2.1
  · exact b8

theorem playerTail_liveDelta (s : ServerState) (pc : Nat) (lap : LapRec) :
    (playerTail s pc lap).lapsState.liveLapTimeMs = lap.currentLapTimeInMS ∧
    (playerTail s pc lap).lapsState.liveDeltaToBestMs =
      (match (playerTail s pc lap).lapsState.bestLapTimeMs with
       | some b =>
         if 0 < lap.currentLapTimeInMS then
           some ((b : Int) - (lap.currentLapTimeInMS : Int))
         else none
       | none => none) := by
  unfold playerTail
  dsimp only
  set a1 := tyreStep s lap.currentLapNum with ha1
  set a2 := playerPitStep a1 lap with ha2
  set a3 := playerSectorStep a2 lap with ha3
  set a4 := liveTimeStep a3 lap with ha4
  set a5 := liveBestStep a4 lap with ha5
  set a6 := currentLapStep a5 lap with ha6
  set a7 := finalizeStep a6 pc lap with ha7
  set a8 := bumpPlayerLap a7 lap with ha8
  obtain ⟨_, _, _, _, _, _, _, _, f9, _⟩ := finalizeStep_bundle a6 pc lap
  obtain ⟨_, _, _, _, m5, _, _, _, _⟩ := bumpPlayerLap_proj a7 lap
  obtain ⟨_, _, _, _, _, d6, d7⟩ := liveDeltaStep_proj a8
  have hlive8 : a8.lapsState.liveLapTimeMs = lap.currentLapTimeInMS := by
    rw [ha8]
    show (bumpPlayerLap a7 lap).lapsState.liveLapTimeMs = _
    rw [(bumpPlayerLap_proj a7 lap).2.2.2.2.1, ha7]
    show (finalizeStep a6 pc lap).lapsState.liveLapTimeMs = _
    rw [(finalizeStep_bundle a6 pc lap).2.2.2.2.2.2.2.2.1, ha6]
    show (currentLapStep a5 lap).lapsState.liveLapTimeMs = _
    rw [(currentLapStep_proj a5 lap).2.2.2.2.2.2.2.1, ha5]
    show (liveBestStep a4 lap).lapsState.liveLapTimeMs = _
    rw [liveBestStep_live a4 lap, ha4]
    exact (liveTimeStep_proj a3 lap).2.2.2.2.2.2.2.1
  have hdelta : (liveDeltaStep a8).lapsState.liveDeltaToBestMs =
      (match a8.lapsState.bestLapTimeMs with
       | some b =>
         if 0 < a8.lapsState.liveLapTimeMs then
           some ((b : Int) - (a8.lapsState.liveLapTimeMs : Int))
         else none
       | none => none) := rfl
  constructor
  · rw [d7]
    exact hlive8
  · rw [hdelta, hlive8, d6]

/-- C10: on a lap-data update for the player's slot, the published live
lap time is the packet's current lap time, and the live delta is best
minus live when a personal best exists and the live time is positive
(absent otherwise) - the opposite sign from a finalized entry's deltaMs,
which the best-recompute sets to lap time minus best. -/
theorem C10_live_delta (s : ServerState) (h : Header)
    (cars : List (Option LapRec)) (lap : LapRec)
    (hpc : h.playerCarIndex < NUM_CARS)
    (hlap : jget (lapDataStage1 s h cars).lapDataByIndex h.playerCarIndex = some lap) :
    (handleLapDataPacket s h cars).lapsState.liveLapTimeMs =
      lap.currentLapTimeInMS ∧
    (handleLapDataPacket s h cars).lapsState.liveDeltaToBestMs =
      (match (handleLapDataPacket s h cars).lapsState.bestLapTimeMs with
       | some b =>
         if 0 < lap.currentLapTimeInMS then
           some ((b : Int) - (lap.currentLapTimeInMS : Int))
         else none
       | none => none) ∧
    (∀ (b t : Nat) (e : LapEntry), e.valid = true → e.lapTimeMs = some t → 0 < t →
      (applyBest (some b) e).deltaMs = some ((t : Int) - (b : Int))) := by
  obtain ⟨w1, w2, w3, w4, w5, w6, w7, w8, w9, w10⟩ :=
    raceTableStep_proj (lapDataStage1 s h cars) h.playerCarIndex
  have hrun : handleLapDataPacket s h cars =
      playerUpdate (raceTableStep (lapDataStage1 s h cars) h.playerCarIndex)
        h.playerCarIndex lap := by
    unfold handleLapDataPacket
    dsimp only
    rw [if_pos hpc, w10, hlap]
  have hpu : ∃ s0, playerUpdate
      (raceTableStep (lapDataStage1 s h cars) h.playerCarIndex)
      h.playerCarIndex lap = playerTail s0 h.playerCarIndex lap := by
    unfold playerUpdate
    dsimp only
    split
    · exact ⟨_, rfl⟩
    · exact ⟨_, rfl⟩
  obtain ⟨s0, hs0⟩ := hpu
  rw [hrun, hs0]
  obtain ⟨L1, L2⟩ := playerTail_liveDelta s0 h.playerCarIndex lap
  refine ⟨L1, L2, ?_⟩
  intro b t e hv hlt ht
  simp [applyBest, hv, hlt, ht]

/-- The lap-data record of the C10 witness: 45000 ms into lap 1. -/
def c10Lap : LapRec :=
  { zeroLapRec with currentLapNum := 1, currentLapTimeInMS := 45000 }

theorem C10_live_delta_witness :
    (handleLapDataPacket initialState ⟨1, 0⟩ [some c10Lap]).lapsState.liveLapTimeMs =
      45000 ∧
    (handleLapDataPacket initialState ⟨1, 0⟩
        [some c10Lap]).lapsState.liveDeltaToBestMs =
      (match (handleLapDataPacket initialState ⟨1, 0⟩
          [some c10Lap]).lapsState.bestLapTimeMs with
       | some b => if 0 < (45000 : Nat) then some ((b : Int) - (45000 : Int)) else none
       | none => none) ∧
    (∀ (b t : Nat) (e : LapEntry), e.valid = true → e.lapTimeMs = some t → 0 < t →
      (applyBest (some b) e).deltaMs = some ((t : Int) - (b : Int))) :=
  C10_live_delta initialState ⟨1, 0⟩ [some c10Lap] c10Lap (by decide) (by rfl)

end F1Telemetry
